import Mathlib

/-!
# Verification development for `libhttpwebserver-socket`

A shallow embedding of the listener in `src/socket.cpp` (class `Socket`, the
`select` based variant) and `src/windows_tcp_socket.cpp` (class
`WindowsTcpSocket`), followed by theorems about it.

Conventions of the embedding

* a byte (`char`) is a natural number; a `std::string` is a `List Byte`;
  a NUL-terminated `char*` is the list of bytes found in memory from the
  pointer on, read up to the first NUL (`from_c_str`);
* answers of the operating system are inputs of the functions that ask for
  them; the calls a function makes are recorded, in order, in a trace of
  `Event`s;
* a C++ exception is an `Exception` value returned next to the state the
  object is left in.
-/

set_option autoImplicit false

/-! ## Bytes and strings -/

/-- A `char`, as its value `0 .. 255`. -/
abbrev Byte := Nat

/-- The bytes of an ASCII string literal of the source. -/
def bytes (s : String) : List Byte := s.toList.map Char.toNat

/-- Models `std::string(const char*)`: the bytes from the pointer up to the first NUL. -/
def from_c_str (mem : List Byte) : List Byte := mem.takeWhile (fun b => b ≠ 0)

/-- Models `std::string::c_str()`: the characters of the string followed by a NUL. -/
def c_str (s : List Byte) : List Byte := s ++ [0]

/-- The literal `"\r\n\r\n"` of `receive_data`. -/
def CRLFCRLF : List Byte := [13, 10, 13, 10]

/-- Models `std::string::substr(pos, n)`. -/
def substr (s : List Byte) (pos n : Nat) : List Byte := (s.drop pos).take n

/-! ## Sockets, operating-system calls and exceptions -/

/-- A socket descriptor (`SOCKET`). -/
abbrev SOCKET := Int

/-- Modelled from the spec: `INVALID_SOCKET` comes from `common.hpp`, which is not
among the sources; it is the value `::socket` and `::accept` return on failure. -/
def INVALID_SOCKET : SOCKET := -1

/-- Modelled from the spec: `SOCKET_ERROR` comes from `common.hpp`, which is not
among the sources; it is the value a failed socket call returns. -/
def SOCKET_ERROR : Int := -1

/-- Modelled from the spec: `SOCKET_NOERROR` comes from `common.hpp`, which is not
among the sources; it is the value a successful socket call returns. -/
def SOCKET_NOERROR : Int := 0

/-- What one call of `::recv` returns: `SOCKET_ERROR`, or a count `bytes.length`
together with the bytes stored at the start of the buffer. -/
inductive RecvResult where
  | error
  | data (bytes : List Byte)
  deriving DecidableEq

/-- The calls made to the operating system (and the lines written to
`std::cerr`), each with the arguments passed and the value returned. -/
inductive Event where
  | socket (result : SOCKET)
  | setsockopt (s : SOCKET) (result : Int)
  | bind (s : SOCKET) (result : Int)
  | getsockname (s : SOCKET) (result : Int)
  | listen (s : SOCKET) (backlog : Nat) (result : Int)
  | recv (s : SOCKET) (len : Nat) (result : RecvResult)
  | recv_pending (s : SOCKET) (len : Nat)
  | getpeername (s : SOCKET)
  | gethostname (result : Int)
  | send (s : SOCKET) (buf : List Byte) (len : Nat) (result : Int)
  | shutdown (s : SOCKET) (result : Int)
  | close (s : SOCKET)
  | cerr (text : List Byte)
  | WSACreateEvent (result : Nat)
  | WSAEventSelect (s : SOCKET) (handle : Nat) (result : Int)
  | accept (s : SOCKET) (result : SOCKET)
  | select (nfds : Nat) (read write : List SOCKET) (result : Int)
  deriving DecidableEq

/-- The `std::runtime_error`s thrown, named after the message each is built
from (`_get_last_error(prefix)` appends the text of the last OS error). -/
inductive Exception where
  /-- Message "Failed to create socket." -/
  | failed_to_create_socket
  /-- Message "Failed to bind port/service " + port + "." -/
  | failed_to_bind
  /-- Message "Unable to get bound port." -/
  | unable_to_get_bound_port
  /-- Message "Failed to listen to port/service " + port + "." -/
  | failed_to_listen
  /-- Message "Failed to create event." -/
  | failed_to_create_event
  /-- Message "Failed to select WSA event." -/
  | failed_to_select_wsa_event
  /-- Message "Failed to get host name." -/
  | failed_to_get_host_name
  /-- Message "Failed to accept from client." -/
  | failed_to_accept
  /-- Message "Failed to poll connections." -/
  | failed_to_poll
  deriving DecidableEq

/-! ## `receive_data` -/

/-- Why the `repeat ... until` loop of `receive_data` was left. -/
inductive RxExit where
  /-- Left by `break` after `recv` returned `SOCKET_ERROR` -/
  | recv_error
  /-- Left by `break` because `is_end` held -/
  | terminator
  /-- Left because the `until(bytes_rx == 0)` condition held -/
  | zero_read
  deriving DecidableEq

/-- A run of the receive loop over the answers `recv` gives.
`log` holds the value of `request` at the end of every iteration (one entry
per completed `recv` call, oldest first); `exit` is `none` when every scripted
answer was consumed and the loop is waiting inside a further `recv` call. -/
structure RxRun where
  log : List (List Byte)
  request : List Byte
  exit : Option RxExit
  deriving DecidableEq

/-- Number of `recv` calls issued during a run, the pending one included. -/
def RxRun.recv_calls (r : RxRun) : Nat :=
  r.log.length + (if r.exit = none then 1 else 0)

/-- The array `char buffer[MAX_INPUT] = {0}` after `recv` stored `bs` at its start. -/
def recv_buffer (MAX_INPUT : Nat) (bs : List Byte) : List Byte :=
  bs ++ List.replicate (MAX_INPUT - bs.length) 0

/-- One iteration of the loop body for a successful `recv`:
`buffer[bytes_rx] = 0; request += std::string(buffer);`. -/
def append_chunk (MAX_INPUT : Nat) (request bs : List Byte) : List Byte :=
  let bytes_rx := bs.length
  let buffer := (recv_buffer MAX_INPUT bs).set bytes_rx 0
  request ++ from_c_str buffer

/-- The test `request.size() >= 4` and `request.substr(request.size() - 4, 4) == "\r\n\r\n"`. -/
def is_end (request : List Byte) : Bool :=
  decide (4 ≤ request.length) && decide (substr request (request.length - 4) 4 = CRLFCRLF)

/-- The loop `repeat { ... } until(bytes_rx == 0);` of `Socket::receive_data` and
of `WindowsTcpSocket::receive_data` (the two loops are the same text), run
against the answers of `recv`, starting from the given value of `request`.
`repeat` and `until(c)` stand for `do` and `while(!(c))`. -/
def receive_loop (MAX_INPUT : Nat) : List RecvResult → List Byte → RxRun
  | [], request => { log := [], request := request, exit := none }
  | RecvResult.error :: _, request =>
      { log := [request], request := request, exit := some RxExit.recv_error }
  | RecvResult.data bs :: rest, request =>
      let request := append_chunk MAX_INPUT request bs
      if is_end request then
        { log := [request], request := request, exit := some RxExit.terminator }
      else if bs.length = 0 then
        { log := [request], request := request, exit := some RxExit.zero_read }
      else
        let r := receive_loop MAX_INPUT rest request
        { r with log := request :: r.log }

/-- The `recv` calls of a run on `connection`, in order: one completed call per
consumed answer, then the pending call if the loop is still waiting. -/
def recv_events (MAX_INPUT : Nat) (connection : SOCKET) (script : List RecvResult) (run : RxRun) :
    List Event :=
  (script.take run.log.length).map (fun r => Event.recv connection (MAX_INPUT - 1) r) ++
    (if run.exit = none then [Event.recv_pending connection (MAX_INPUT - 1)] else [])

/-- What `receive_data` leaves behind: the run of its loop, the `recv` calls it
made and, once the loop is left, the request text written to `std::cout`. -/
structure Received where
  run : RxRun
  os : List Event
  printed : Option (List Byte)
  deriving DecidableEq

namespace Socket

/-- Models `Socket::receive_data` (socket.cpp): the loop, then `"(nothing)"` in place of
an empty request, then the request is printed. -/
def receive_data (MAX_INPUT : Nat) (connection : SOCKET) (script : List RecvResult) : Received :=
  let run := receive_loop MAX_INPUT script []
  let os := recv_events MAX_INPUT connection script run
  match run.exit with
  | none => { run := run, os := os, printed := none }
  | some _ =>
      let request := if run.request.isEmpty then bytes "(nothing)" else run.request
      { run := run, os := os, printed := some request }

end Socket

namespace WindowsTcpSocket

/-- Models `WindowsTcpSocket::receive_data` (windows_tcp_socket.cpp): the same loop;
the request itself is not printed. -/
def receive_data (MAX_INPUT : Nat) (connection : SOCKET) (script : List RecvResult) : Received :=
  let run := receive_loop MAX_INPUT script []
  { run := run, os := recv_events MAX_INPUT connection script run, printed := none }

end WindowsTcpSocket

/-- All bytes delivered by a sequence of reads, in order. -/
def delivered : List RecvResult → List Byte
  | [] => []
  | RecvResult.error :: rest => delivered rest
  | RecvResult.data bs :: rest => bs ++ delivered rest

/-- Every read of the sequence was successful. -/
def all_successful (script : List RecvResult) : Prop :=
  ∀ r ∈ script, r ≠ RecvResult.error

/-- No read of the sequence delivered a NUL byte. -/
def nul_free (script : List RecvResult) : Prop :=
  ∀ r ∈ script, ∀ bs, r = RecvResult.data bs → 0 ∉ bs

/-- The request text accumulated from a sequence of reads: every chunk enters as
the C string found in the buffer, that is, cut at its first NUL byte. -/
def accumulated : List RecvResult → List Byte
  | [] => []
  | RecvResult.error :: rest => accumulated rest
  | RecvResult.data bs :: rest => from_c_str bs ++ accumulated rest


/-! ## The listener object -/

/-- An `fd_set`, as the list of descriptors in it. -/
abbrev fd_set := List SOCKET

/-- Models `FD_SET(s, &set)`. -/
def FD_SET (s : SOCKET) (set : fd_set) : fd_set := if s ∈ set then set else set ++ [s]

/-- Models `FD_CLR(s, &set)`. -/
def FD_CLR (s : SOCKET) (set : fd_set) : fd_set := set.filter (fun x => x ≠ s)

/-- Models `FD_ISSET(s, &set)`. -/
def FD_ISSET (s : SOCKET) (set : fd_set) : Bool := decide (s ∈ set)

/-- Modelled from the spec: `Connection` comes from `connection.hpp`, which is not
among the sources: a socket identifier, optionally paired with a
readiness-notification handle. A connection made from a socket alone has no
handle (`0`). -/
structure Connection where
  socket : SOCKET
  handle : Nat := 0
  deriving DecidableEq

/-- The data members of the listener (`class Socket`; `WindowsTcpSocket` has the
same members), and `os`, the trace of the calls made so far. -/
structure Socket where
  port : List Byte
  queue_count : Nat
  max_connections : Nat
  server_socket : SOCKET
  is_open : Bool
  connections : List Connection
  read_list : fd_set
  write_list : fd_set
  os : List Event
  deriving DecidableEq

/-- The listener of windows_tcp_socket.cpp keeps the same data members. -/
abbrev WindowsTcpSocket := Socket

/-- How a member function ends: the object as it is left, and the exception
thrown, if any. -/
structure Outcome where
  self : Socket
  raised : Option Exception
  deriving DecidableEq

/-- The calls made between the state `before` and the end of the function. -/
def Outcome.new_os (out : Outcome) (before : Socket) : List Event :=
  out.self.os.drop before.os.length

/-- The type `event_callback` (a pointer to a function). -/
abbrev event_callback := Nat

/-- Answer of `::shutdown`: the value returned and whether the error code left
behind (`errno`, `WSAGetLastError()`) is `ENOTCONN` (`WSAENOTCONN`). -/
structure ShutdownResult where
  result : Int
  not_connected : Bool
  deriving DecidableEq

/-- The text of the `close_socket` log line, without the OS error text. -/
def shutdown_failed_text : List Byte := bytes "Failed to shutdown connection."

/-- The calls of `Socket::close_socket(s)` (and of `WindowsTcpSocket::close_socket`,
which is the `LOSE` branch of the same text): shutdown both directions, take
"not connected" for success, log any other failure, release the descriptor. -/
def close_socket_events (shutdown : SOCKET → ShutdownResult) (s : SOCKET) : List Event :=
  let r := shutdown s
  let shutdown_result :=
    if r.result = SOCKET_ERROR ∧ r.not_connected = true then SOCKET_NOERROR else r.result
  [Event.shutdown s r.result] ++
    (if shutdown_result = SOCKET_ERROR then [Event.cerr shutdown_failed_text] else []) ++
    [Event.close s]

namespace Socket

/-- Models `Socket::close_socket`. -/
def close_socket (shutdown : SOCKET → ShutdownResult) (self : Socket) (s : SOCKET) : Socket :=
  { self with os := self.os ++ close_socket_events shutdown s }

end Socket

/-! ## `create_socket` -/

/-- One candidate endpoint of the list `getaddrinfo` returned, together with the
answers the operating system gives when the candidate is tried: the value of
`::socket`, of `::setsockopt` and of `::bind`. -/
structure addrinfo where
  socket_result : SOCKET
  setsockopt_result : Int
  bind_result : Int
  deriving DecidableEq

/-- One iteration of the `for (addrinfo* p = ...)` loop of `create_socket` (the same
text in both files), on the object and the local `bind_result`; the Boolean tells
whether the loop is left by `break`. `continue_if(c)` and `break_if(c)` stand for
`if (c) continue;` and `if (c) break;`. -/
def create_socket_iteration (shutdown : SOCKET → ShutdownResult) (p : addrinfo)
    (self : Socket) (bind_result : Int) : Socket × Int × Bool :=
  let self :=
    if self.is_open then
      { (self.close_socket shutdown self.server_socket) with is_open := false }
    else self
  let self := { self with server_socket := p.socket_result,
                          os := self.os ++ [Event.socket p.socket_result] }
  if self.server_socket = INVALID_SOCKET then
    (self, bind_result, false)
  else
    let self := { self with is_open := true }
    let self := { self with
      os := self.os ++ [Event.setsockopt self.server_socket p.setsockopt_result] }
    if p.setsockopt_result ≠ SOCKET_ERROR then
      let bind_result := p.bind_result
      let self := { self with os := self.os ++ [Event.bind self.server_socket bind_result] }
      (self, bind_result, decide (bind_result ≠ SOCKET_ERROR))
    else
      (self, bind_result, false)

/-- The `for (addrinfo* p = server_info; p != nullptr; p = p->ai_next)` loop of
`create_socket`: the candidates are tried in order until one iteration leaves the
loop by `break`. -/
def create_socket_loop (shutdown : SOCKET → ShutdownResult) :
    List addrinfo → Socket → Int → Socket × Int
  | [], self, bind_result => (self, bind_result)
  | p :: rest, self, bind_result =>
      match create_socket_iteration shutdown p self bind_result with
      | (self, bind_result, true) => (self, bind_result)
      | (self, bind_result, false) => create_socket_loop shutdown rest self bind_result

namespace Socket

/-- Models `Socket::create_socket` (socket.cpp). `getsockname_result` is the answer to
the `::getsockname` call of `get_bound_port`, which throws unless it is
`SOCKET_NOERROR`. -/
def create_socket (shutdown : SOCKET → ShutdownResult) (getsockname_result : Int)
    (self : Socket) (server_info : List addrinfo) : Outcome :=
  let bind_result := SOCKET_NOERROR
  let self := { self with server_socket := INVALID_SOCKET }
  let (self, bind_result) := create_socket_loop shutdown server_info self bind_result
  if self.server_socket = INVALID_SOCKET then
    { self := self, raised := some Exception.failed_to_create_socket }
  else if bind_result = SOCKET_ERROR then
    let self := self.close_socket shutdown self.server_socket
    let self := { self with is_open := false }
    { self := self, raised := some Exception.failed_to_bind }
  else
    let self := { self with
      os := self.os ++ [Event.getsockname self.server_socket getsockname_result] }
    if getsockname_result ≠ SOCKET_NOERROR then
      { self := self, raised := some Exception.unable_to_get_bound_port }
    else
      { self := { self with is_open := true }, raised := none }

end Socket

namespace WindowsTcpSocket

/-- Models `WindowsTcpSocket::create_socket` (windows_tcp_socket.cpp). `bound_port` is the
value of `nt::http::utility::socket::get_bound_port(server_socket)`, a helper
that is not among the sources; it is recorded as the `getsockname` call. -/
def create_socket (shutdown : SOCKET → ShutdownResult) (bound_port : Int)
    (self : WindowsTcpSocket) (server_info : List addrinfo) : Outcome :=
  let bind_result := SOCKET_NOERROR
  let self := { self with server_socket := INVALID_SOCKET }
  let (self, bind_result) := create_socket_loop shutdown server_info self bind_result
  if self.server_socket = INVALID_SOCKET then
    { self := self, raised := some Exception.failed_to_create_socket }
  else if bind_result = SOCKET_ERROR then
    let self := Socket.close_socket shutdown self self.server_socket
    let self := { self with is_open := false }
    { self := self, raised := some Exception.failed_to_bind }
  else
    let self := { self with
      os := self.os ++ [Event.getsockname self.server_socket bound_port] }
    if bound_port = SOCKET_ERROR then
      { self := self, raised := some Exception.unable_to_get_bound_port }
    else
      { self := { self with is_open := true }, raised := none }

end WindowsTcpSocket

/-! ## `listen` -/

namespace Socket

/-- Models `Socket::listen` (socket.cpp). `listen_result` is the answer of `::listen`. -/
def listen (shutdown : SOCKET → ShutdownResult) (listen_result : Int)
    (self : Socket) (count : Nat) (_callback : event_callback) : Outcome :=
  let self := { self with queue_count := count }
  let self := { self with
    os := self.os ++ [Event.listen self.server_socket self.queue_count listen_result] }
  if listen_result = SOCKET_ERROR then
    let self := self.close_socket shutdown self.server_socket
    { self := self, raised := some Exception.failed_to_listen }
  else
    { self := { self with connections := self.connections ++ [{ socket := self.server_socket }] },
      raised := none }

end Socket

/-- The constant `WSA_INVALID_EVENT` of `<winsock2.h>`. -/
def WSA_INVALID_EVENT : Nat := 0

/-- Answers of the two calls of `_create_connection`: the handle returned by
`::WSACreateEvent` and the value of `::WSAEventSelect`. -/
structure EventSetup where
  ev_handle : Nat
  select_result : Int
  deriving DecidableEq

/-- The static helper `_create_connection(socket)` of windows_tcp_socket.cpp: the
calls it makes and the connection it returns or the exception it throws. -/
def _create_connection (ev : EventSetup) (socket : SOCKET) :
    List Event × Except Exception Connection :=
  if ev.ev_handle = WSA_INVALID_EVENT then
    ([Event.WSACreateEvent ev.ev_handle], Except.error Exception.failed_to_create_event)
  else if ev.select_result = SOCKET_ERROR then
    ([Event.WSACreateEvent ev.ev_handle, Event.WSAEventSelect socket ev.ev_handle ev.select_result],
      Except.error Exception.failed_to_select_wsa_event)
  else
    ([Event.WSACreateEvent ev.ev_handle, Event.WSAEventSelect socket ev.ev_handle ev.select_result],
      Except.ok { socket := socket, handle := ev.ev_handle })

namespace WindowsTcpSocket

/-- Models `WindowsTcpSocket::listen` (windows_tcp_socket.cpp). -/
def listen (shutdown : SOCKET → ShutdownResult) (listen_result : Int) (ev : EventSetup)
    (self : WindowsTcpSocket) (count : Nat) (_callback : event_callback) : Outcome :=
  let self := { self with queue_count := count }
  let self := { self with
    os := self.os ++ [Event.listen self.server_socket self.queue_count listen_result] }
  if listen_result = SOCKET_ERROR then
    let self := Socket.close_socket shutdown self self.server_socket
    { self := self, raised := some Exception.failed_to_listen }
  else
    match _create_connection ev self.server_socket with
    | (calls, Except.error e) =>
        { self := { self with os := self.os ++ calls }, raised := some e }
    | (calls, Except.ok connection) =>
        { self := { self with os := self.os ++ calls,
                              connections := self.connections ++ [connection] },
          raised := none }

end WindowsTcpSocket

/-! ## `write_data` -/

/-- Models `std::to_string` of a non-negative value, with `fuel` digits at most. -/
def to_string_fuel : Nat → Nat → List Byte
  | 0, _ => []
  | fuel + 1, value =>
      if value < 10 then [48 + value]
      else to_string_fuel fuel (value / 10) ++ [48 + value % 10]

/-- Models `std::to_string` of a non-negative value: its decimal digits. -/
def std_to_string (value : Nat) : List Byte := to_string_fuel (value + 1) value

/-- The peer address `getpeername` (or `accept`) left in `client_addr`, as the two
helpers read it: the bytes found in the array that `inet_ntop` is asked to fill,
and the port field. -/
structure sockaddr_storage where
  ntop_text : List Byte
  sin_port : Nat
  deriving DecidableEq

/-- Models `get_in_ip` (socket.cpp): the array `client_ip`, returned as a `std::string`. -/
def get_in_ip (sa : sockaddr_storage) : List Byte := from_c_str sa.ntop_text

/-- Models `get_in_port` (socket.cpp): `ntohs` of the port field, a 16 bit value. -/
def get_in_port (sa : sockaddr_storage) : Nat := sa.sin_port % 65536

/-- The answers `write_data` receives: the peer address, the value of
`::gethostname` with the bytes found in the `hostname` buffer, and the value of
`::send`. -/
structure WriteIO where
  client_addr : sockaddr_storage
  gethostname_result : Int
  hostname : List Byte
  send_result : Int
  deriving DecidableEq

/-- The literal that opens `response` in both `write_data` functions and in
`WindowsTcpSocket::open`. -/
def response_head : List Byte :=
  bytes "HTTP/1.1 200 OK\r\n" ++
  bytes "Content-Type: text/html; charset=UTF-8\r\n" ++
  bytes "Connection: keep-alive\r\n" ++
  bytes "Content-Length: "

/-- The expression that builds `response` from `body` (the same text in the
three places): the head, `std::to_string(body.size())`, a blank line and
`body.c_str()`. -/
def make_response (body : List Byte) : List Byte :=
  response_head ++ std_to_string body.length ++ bytes "\r\n\r\n" ++ from_c_str (c_str body)

namespace Socket

/-- The local `body` of `Socket::write_data`. -/
def write_data_body (client_ip : List Byte) (client_port : Nat) (hostname : List Byte) :
    List Byte :=
  bytes "<p>host ip: " ++ client_ip ++ bytes ":" ++ std_to_string client_port ++
  bytes "</p>\n<p>host name: " ++ from_c_str hostname ++
  bytes "</p>\n<p>request</p>\n\r\n"

/-- The local `response` of `Socket::write_data`. -/
def write_data_response (io : WriteIO) : List Byte :=
  make_response (write_data_body (get_in_ip io.client_addr) (get_in_port io.client_addr) io.hostname)

/-- Models `Socket::write_data` (socket.cpp). The zero-length `sleep_for` and the line
written to `std::cout` are left out. -/
def write_data (io : WriteIO) (self : Socket) (connection : SOCKET) : Outcome :=
  let self := { self with os := self.os ++ [Event.getpeername connection] }
  let self := { self with os := self.os ++ [Event.gethostname io.gethostname_result] }
  if io.gethostname_result = SOCKET_ERROR then
    { self := self, raised := some Exception.failed_to_get_host_name }
  else
    let response := write_data_response io
    let self := { self with
      os := self.os ++ [Event.send connection (c_str response) response.length io.send_result] }
    let self := { self with write_list := FD_CLR connection self.write_list }
    { self := self, raised := none }

end Socket

namespace WindowsTcpSocket

/-- Modelled from the spec: `nt::http::utility::socket::get_in_ip` is not among the
sources; the two implementations differ only in how they wait for readiness, so
it is the helper of the same name of socket.cpp. -/
def get_in_ip (sa : sockaddr_storage) : List Byte := from_c_str sa.ntop_text

/-- Modelled from the spec: `nt::http::utility::socket::get_in_port` is not among
the sources; it is the helper of the same name of socket.cpp. -/
def get_in_port (sa : sockaddr_storage) : Nat := sa.sin_port % 65536

/-- The local `body` of `WindowsTcpSocket::write_data`. -/
def write_data_body (client_ip : List Byte) (client_port : Nat) (hostname : List Byte) :
    List Byte :=
  bytes "<p>client ip: " ++ client_ip ++ bytes ":" ++ std_to_string client_port ++
  bytes "</p>\n<p>host name: " ++ from_c_str hostname ++
  bytes "</p>\n<p>request</p>\n\r\n"

/-- The local `response` of `WindowsTcpSocket::write_data`. -/
def write_data_response (io : WriteIO) : List Byte :=
  make_response (write_data_body (get_in_ip io.client_addr) (get_in_port io.client_addr) io.hostname)

/-- Models `WindowsTcpSocket::write_data` (windows_tcp_socket.cpp). -/
def write_data (io : WriteIO) (self : WindowsTcpSocket) (connection : SOCKET) : Outcome :=
  let self := { self with os := self.os ++ [Event.getpeername connection] }
  let self := { self with os := self.os ++ [Event.gethostname io.gethostname_result] }
  if io.gethostname_result = SOCKET_ERROR then
    { self := self, raised := some Exception.failed_to_get_host_name }
  else
    let response := write_data_response io
    let self := { self with
      os := self.os ++ [Event.send connection (c_str response) response.length io.send_result] }
    let self := { self with write_list := FD_CLR connection self.write_list }
    { self := self, raised := none }

/-- The local `body` of the accept branch of `WindowsTcpSocket::open`;
`rand_value` is the value of `rand()`. -/
def open_body_text (rand_value : Nat) : List Byte :=
  bytes "<p>test" ++ std_to_string rand_value ++ bytes "</p>"

/-- The local `response` of the accept branch of `WindowsTcpSocket::open`. -/
def open_response (rand_value : Nat) : List Byte := make_response (open_body_text rand_value)

/-- The `send(client, response.c_str(), response.length(), 0)` call of the accept
branch of `WindowsTcpSocket::open`. -/
def open_send (client : SOCKET) (rand_value : Nat) (send_result : Int) : Event :=
  Event.send client (c_str (open_response rand_value)) (open_response rand_value).length send_result

end WindowsTcpSocket

/-! ## The loop body of `Socket::open` -/

/-- How the servicing of one connection ends: control moves on to the next
connection, an exception leaves `open`, or `receive_data` is still waiting
inside `recv`. -/
inductive Control where
  | next
  | raised (e : Exception)
  | blocked
  deriving DecidableEq

/-- The answers the operating system gives while one connection is serviced. -/
structure ServiceIO where
  recv : List RecvResult
  write : WriteIO
  deriving DecidableEq

/-- The state of `open` between two iterations of its `for` loop. -/
structure OpenState where
  self : Socket
  ceiling : Nat
  flow : Control
  deriving DecidableEq

namespace Socket

/-- The body of `for (auto& connection : connections)` in `Socket::open`, for the
entry at index `i`. `ceiling` is an `unsigned int`. -/
def open_body (MAX_INPUT : Nat) (shutdown : SOCKET → ShutdownResult) (io : ServiceIO)
    (self : Socket) (ceiling : Nat) (i : Nat) : OpenState :=
  match self.connections[i]? with
  | none => { self := self, ceiling := ceiling, flow := Control.next }
  | some connection =>
      if connection.socket = INVALID_SOCKET then
        { self := self, ceiling := ceiling, flow := Control.next }
      else
        let rx : Option Received :=
          if connection.socket ≠ self.server_socket ∧ FD_ISSET connection.socket self.read_list then
            some (receive_data MAX_INPUT connection.socket io.recv)
          else none
        let self := match rx with
          | some r => { self with os := self.os ++ r.os }
          | none => self
        let waiting : Bool := match rx with
          | some r => r.run.exit = none
          | none => false
        if waiting then
          { self := self, ceiling := ceiling, flow := Control.blocked }
        else if FD_ISSET connection.socket self.write_list then
          let out := write_data io.write self connection.socket
          match out.raised with
          | some e => { self := out.self, ceiling := ceiling, flow := Control.raised e }
          | none =>
              let self := out.self.close_socket shutdown connection.socket
              let self := { self with
                connections := self.connections.set i { connection with socket := INVALID_SOCKET } }
              { self := self, ceiling := (ceiling + 2 ^ 32 - 1) % 2 ^ 32, flow := Control.next }
        else
          { self := self, ceiling := ceiling, flow := Control.next }

end Socket

/-! ## Reading a response, as a client does -/

/-- Split at the first occurrence of `pat`: what precedes it and what follows. -/
def split_first (pat : List Byte) : List Byte → Option (List Byte × List Byte)
  | [] => if pat = [] then some ([], []) else none
  | b :: rest =>
      if pat.isPrefixOf (b :: rest) then some ([], (b :: rest).drop pat.length)
      else match split_first pat rest with
        | none => none
        | some (before, after) => some (b :: before, after)

/-- An ASCII decimal digit. -/
def is_digit (b : Byte) : Bool := decide (48 ≤ b) && decide (b ≤ 57)

/-- The number a string of decimal digits denotes. -/
def decimal_value (digits : List Byte) : Nat :=
  digits.foldl (fun acc d => 10 * acc + (d - 48)) 0

/-- The decimal number written after the first `Content-Length: `. -/
def content_length (message : List Byte) : Option Nat :=
  match split_first (bytes "Content-Length: ") message with
  | none => none
  | some (_, after) =>
      let digits := after.takeWhile is_digit
      if digits = [] then none else some (decimal_value digits)

/-- The bytes that follow the first blank line (`\r\n\r\n`). -/
def after_blank_line (message : List Byte) : Option (List Byte) :=
  (split_first CRLFCRLF message).map (fun p => p.2)

/-- The bytes handed to `send` by a call: the first `len` bytes at `buf`. -/
def sent_bytes : Event → Option (List Byte)
  | Event.send _ buf len _ => some (buf.take len)
  | _ => none

/-- The byte strings handed to `send` in a trace, in order. -/
def sends (os : List Event) : List (List Byte) := os.filterMap sent_bytes


/-- No occurrence of `pat` starts inside `pre`, not even one that runs over the
end of `pre`. -/
def no_match_inside (pat pre : List Byte) : Prop :=
  ∀ i < pre.length, (pat.take (pre.length - i)).isPrefixOf (pre.drop i) = false


/-! ## Properties of a response -/

/-- The number written after `Content-Length: ` is the number of bytes that
follow the blank line ending the header block. -/
def content_length_matches (sent : List Byte) : Prop :=
  ∃ n, content_length sent = some n ∧ (after_blank_line sent).map List.length = some n

/-- The fixed wire shape of a response with the given body: the four header
lines with a decimal number, a blank line, the body; it starts with the status
line, contains `Content-Type: text/html`, and its first blank line is the end of
the header block. -/
def fixed_wire_shape (response body : List Byte) : Prop :=
  (∃ digits : List Byte, digits ≠ [] ∧ (∀ b ∈ digits, is_digit b = true) ∧
    response =
      bytes "HTTP/1.1 200 OK\r\n" ++
      bytes "Content-Type: text/html; charset=UTF-8\r\n" ++
      bytes "Connection: keep-alive\r\n" ++
      bytes "Content-Length: " ++ digits ++ bytes "\r\n\r\n" ++ body ∧
    split_first CRLFCRLF response =
      some (bytes "HTTP/1.1 200 OK\r\n" ++
        bytes "Content-Type: text/html; charset=UTF-8\r\n" ++
        bytes "Connection: keep-alive\r\n" ++
        bytes "Content-Length: " ++ digits, body)) ∧
  bytes "HTTP/1.1 200 OK\r\n" <+: response ∧
  bytes "Content-Type: text/html" <:+: response

/-! ## Properties of a candidate list and of a trace -/

/-- Opening the socket succeeds on the candidate. -/
def addrinfo.opens (p : addrinfo) : Prop := p.socket_result ≠ INVALID_SOCKET

/-- Opening the socket, enabling address reuse and binding all succeed on the
candidate. -/
def addrinfo.succeeds (p : addrinfo) : Prop :=
  p.socket_result ≠ INVALID_SOCKET ∧ p.setsockopt_result ≠ SOCKET_ERROR ∧
    p.bind_result ≠ SOCKET_ERROR

instance (p : addrinfo) : Decidable p.opens := by
  unfold addrinfo.opens
  infer_instance

instance (p : addrinfo) : Decidable p.succeeds := by
  unfold addrinfo.succeeds
  infer_instance

/-- The value `::socket` returned for the last candidate of the list, `d` when
the list is empty. -/
def last_socket : List addrinfo → SOCKET → SOCKET
  | [], d => d
  | p :: rest, _ => last_socket rest p.socket_result

/-- A step in the life of a descriptor. -/
inductive Life where
  | opened (s : SOCKET)
  | closed (s : SOCKET)
  deriving DecidableEq

/-- The step a call stands for: a successful `::socket` opens its result, the
`::close` of `close_socket` ends the life of its argument. -/
def life_of : Event → Option Life
  | Event.socket r => if r = INVALID_SOCKET then none else some (Life.opened r)
  | Event.close s => some (Life.closed s)
  | _ => none

/-- The openings and closings of a trace, in order. -/
def lifecycle (os : List Event) : List Life := os.filterMap life_of

/-- The socket an opening step opens. -/
def Life.opening : Life → Option SOCKET
  | Life.opened s => some s
  | Life.closed _ => none

/-- The socket a closing step closes. -/
def Life.closing : Life → Option SOCKET
  | Life.opened _ => none
  | Life.closed s => some s

/-- The sockets opened in a trace, in order. -/
def opened_sockets (os : List Event) : List SOCKET := (lifecycle os).filterMap Life.opening

/-- The sockets passed to `close_socket` in a trace, in order. -/
def closed_sockets (os : List Event) : List SOCKET := (lifecycle os).filterMap Life.closing

/-- Each socket of the list opened and then closed, one after the other. -/
def opened_then_closed (ss : List SOCKET) : List Life :=
  ss.flatMap (fun s => [Life.opened s, Life.closed s])

/-- A listener that has not been bound yet, as the constructor leaves it. -/
def fresh_socket : Socket :=
  { port := bytes "0", queue_count := 0, max_connections := 1023, server_socket := 0,
    is_open := false, connections := [], read_list := [], write_list := [], os := [] }

/-- An operating system on which `::shutdown` reports "not connected". -/
def shutdown_not_connected : SOCKET → ShutdownResult :=
  fun _ => { result := SOCKET_ERROR, not_connected := true }

/-- The opening still to be matched by a closing: that of the listening socket
while `is_open` holds. -/
def pending (self : Socket) : List Life :=
  if self.is_open then [Life.opened self.server_socket] else []

/-! ## Example inputs -/

/-- A candidate whose socket opens as descriptor `3` and on which `setsockopt`
fails. -/
def candidate_reuse_fails : addrinfo := ⟨3, SOCKET_ERROR, SOCKET_ERROR⟩

/-- A candidate whose socket opens as descriptor `3`, on which `setsockopt`
succeeds and `bind` fails. -/
def candidate_bind_fails : addrinfo := ⟨3, SOCKET_NOERROR, SOCKET_ERROR⟩

/-- A candidate for which `::socket` fails. -/
def candidate_no_socket : addrinfo := ⟨INVALID_SOCKET, SOCKET_ERROR, SOCKET_ERROR⟩

/-- A candidate whose socket opens as descriptor `3` and is bound. -/
def candidate_bound : addrinfo := ⟨3, SOCKET_NOERROR, SOCKET_NOERROR⟩

/-- A listener bound to descriptor `3`, as a successful `bind` leaves it. -/
def bound_socket : Socket := { fresh_socket with server_socket := 3, is_open := true }

/-- A listener on descriptor `4` with one peer, descriptor `7`, which the
readiness wait reported writable (and not readable). -/
def serving_socket : Socket :=
  { port := bytes "8080", queue_count := 5, max_connections := 1023, server_socket := 4,
    is_open := true, connections := [⟨4, 0⟩, ⟨7, 0⟩], read_list := [4], write_list := [7],
    os := [] }

/-- Answers for the servicing of a peer at `127.0.0.1:80` on the host `box`: no
`recv` answer, the host-name lookup succeeds, `send` reports a short count. -/
def service_answers : ServiceIO :=
  { recv := [],
    write := { client_addr := ⟨bytes "127.0.0.1", 80⟩, gethostname_result := 0,
               hostname := bytes "box", send_result := 10 } }

/-! ## The readiness sets: `reset_socket_lists`, `get_last_socket`, `select` -/

/-- The macro `FD_ZERO(&set)`: the empty set. -/
def FD_ZERO : fd_set := []

/-- The lambda `closed` of `reset_socket_lists`. -/
def closed (c : Connection) : Bool := decide (c.socket = INVALID_SOCKET)

/-- The loop `for (auto &connection: connections)` of `reset_socket_lists`, on the
pair of the read set and the write set. -/
def reset_loop : List Connection → fd_set × fd_set → fd_set × fd_set
  | [], lists => lists
  | connection :: rest, (read_list, write_list) =>
      reset_loop rest (FD_SET connection.socket read_list, FD_SET connection.socket write_list)

namespace Socket

/-- Models `Socket::reset_socket_lists` (socket.cpp): both sets are emptied, the
entries for which `closed` holds are erased (`std::remove_if` keeps the order of
the others), and the socket of every remaining entry is put into both sets. -/
def reset_socket_lists (self : Socket) : Socket :=
  let self := { self with read_list := FD_ZERO }
  let self := { self with write_list := FD_ZERO }
  let self := { self with connections := self.connections.filter (fun c => !closed c) }
  let lists := reset_loop self.connections (self.read_list, self.write_list)
  { self with read_list := lists.1, write_list := lists.2 }

end Socket

namespace WindowsTcpSocket

/-- Models `WindowsTcpSocket::reset_socket_lists` (windows_tcp_socket.cpp), the same
text as in socket.cpp. -/
def reset_socket_lists (self : WindowsTcpSocket) : WindowsTcpSocket :=
  let self := { self with read_list := FD_ZERO }
  let self := { self with write_list := FD_ZERO }
  let self := { self with connections := self.connections.filter (fun c => !closed c) }
  let lists := reset_loop self.connections (self.read_list, self.write_list)
  { self with read_list := lists.1, write_list := lists.2 }

/-- Models `WindowsTcpSocket::close_socket` (windows_tcp_socket.cpp). -/
def close_socket (shutdown : SOCKET → ShutdownResult) (self : WindowsTcpSocket) (s : SOCKET) :
    WindowsTcpSocket :=
  { self with os := self.os ++ close_socket_events shutdown s }

end WindowsTcpSocket

/-- The value of a socket as an unsigned integer of `width` bits: what a
comparison with an `unsigned int` or a conversion to one starts from. -/
def to_unsigned (width : Nat) (s : Int) : Nat := (s % (2 : Int) ^ width).toNat

/-- The loop of `get_last_socket` on the local `unsigned int last_socket`, for a
`SOCKET` type of `width` bits: `connection.socket > last_socket` compares unsigned
values, and the assignment to `last_socket` keeps the low 32 bits. -/
def last_socket_loop (width : Nat) : List Connection → Nat → Nat
  | [], last_socket => last_socket
  | connection :: rest, last_socket =>
      if to_unsigned width connection.socket > last_socket then
        last_socket_loop width rest (to_unsigned width connection.socket % 2 ^ 32)
      else
        last_socket_loop width rest last_socket

namespace Socket

/-- Models `Socket::get_last_socket` (socket.cpp), where `SOCKET` is a 32 bit
integer type. -/
def get_last_socket (self : Socket) : Nat :=
  last_socket_loop 32 self.connections (to_unsigned 32 self.server_socket % 2 ^ 32)

end Socket

namespace WindowsTcpSocket

/-- Models `WindowsTcpSocket::get_last_socket` (windows_tcp_socket.cpp), where
`SOCKET` is the unsigned type `UINT_PTR` of `width` bits. -/
def get_last_socket (width : Nat) (self : WindowsTcpSocket) : Nat :=
  last_socket_loop width self.connections (to_unsigned width self.server_socket % 2 ^ 32)

end WindowsTcpSocket

/-- The answer of `::select`: the value returned and the descriptors it reports
ready for reading and for writing (the others are cleared from the sets). -/
structure SelectAnswer where
  result : Int
  readable : fd_set
  writable : fd_set
  deriving DecidableEq

/-- How `Socket::select` ends: the object, the exception thrown if any, and
otherwise the value returned. -/
structure Selected where
  self : Socket
  raised : Option Exception
  timed_out : Bool
  deriving DecidableEq

namespace Socket

/-- The descriptor count `last_socket + 1` that `select` passes to `::select`, an
`unsigned int`. -/
def select_nfds (self : Socket) : Nat := (self.get_last_socket + 1) % 2 ^ 32

/-- Models `Socket::select` (socket.cpp). -/
def select (shutdown : SOCKET → ShutdownResult) (answer : SelectAnswer) (self : Socket) :
    Selected :=
  let self := self.reset_socket_lists
  let self := { self with
    os := self.os ++
      [Event.select self.select_nfds self.read_list self.write_list answer.result] }
  if answer.result = SOCKET_ERROR then
    let self := self.close_socket shutdown self.server_socket
    { self := self, raised := some Exception.failed_to_poll, timed_out := false }
  else
    let self := { self with
      read_list := self.read_list.filter (fun s => decide (s ∈ answer.readable)),
      write_list := self.write_list.filter (fun s => decide (s ∈ answer.writable)) }
    { self := self, raised := none, timed_out := decide (answer.result = 0) }

end Socket

/-! ## `handle_connection` and the cycle of `open` -/

/-- The answer of `::accept`: the descriptor returned and the peer address. -/
structure AcceptAnswer where
  client : SOCKET
  client_addr : sockaddr_storage
  deriving DecidableEq

/-- The answers the operating system gives during one iteration of the
`while (true)` loop of `open`: to `::select`, to `::accept`, and while the entry at
each index of the connection set is serviced. -/
structure CycleIO where
  select : SelectAnswer
  accept : AcceptAnswer
  service : Nat → ServiceIO

namespace Socket

/-- Models `Socket::handle_connection` (socket.cpp). The line written to
`std::cout` is left out. -/
def handle_connection (answer : AcceptAnswer) (self : Socket) : Outcome :=
  let client := answer.client
  let self := { self with os := self.os ++ [Event.accept self.server_socket client] }
  if client = INVALID_SOCKET then
    { self := self, raised := some Exception.failed_to_accept }
  else
    let self := { self with read_list := FD_SET client self.read_list }
    let self := { self with connections := self.connections ++ [{ socket := client }] }
    { self := self, raised := none }

/-- The statement `if(FD_ISSET(server_socket, &read_list)) { if (ceiling <
max_connections) { handle_connection(); ceiling++; } }` of `Socket::open`. -/
def open_accept (answer : AcceptAnswer) (self : Socket) (ceiling : Nat) : OpenState :=
  if FD_ISSET self.server_socket self.read_list then
    if ceiling < self.max_connections then
      let out := self.handle_connection answer
      match out.raised with
      | some e => { self := out.self, ceiling := ceiling, flow := Control.raised e }
      | none => { self := out.self, ceiling := (ceiling + 1) % 2 ^ 32, flow := Control.next }
    else
      { self := self, ceiling := ceiling, flow := Control.next }
  else
    { self := self, ceiling := ceiling, flow := Control.next }

/-- The loop `for (auto& connection : connections)` of `Socket::open` over the
indices still to visit: the entries are serviced in order until one of them
leaves `open` by an exception or keeps it waiting in `recv`. -/
def open_for (MAX_INPUT : Nat) (shutdown : SOCKET → ShutdownResult) (service : Nat → ServiceIO) :
    List Nat → Socket → Nat → OpenState
  | [], self, ceiling => { self := self, ceiling := ceiling, flow := Control.next }
  | i :: rest, self, ceiling =>
      let st := open_body MAX_INPUT shutdown (service i) self ceiling i
      match st.flow with
      | Control.next => open_for MAX_INPUT shutdown service rest st.self st.ceiling
      | Control.raised e => { self := st.self, ceiling := st.ceiling, flow := Control.raised e }
      | Control.blocked => { self := st.self, ceiling := st.ceiling, flow := Control.blocked }

/-- One iteration of the `while (true)` loop of `Socket::open`: `select`, then
(unless it timed out) the accept statement and the loop over the connection
set. -/
def open_cycle (MAX_INPUT : Nat) (shutdown : SOCKET → ShutdownResult) (io : CycleIO)
    (self : Socket) (ceiling : Nat) : OpenState :=
  let sel := self.select shutdown io.select
  match sel.raised with
  | some e => { self := sel.self, ceiling := ceiling, flow := Control.raised e }
  | none =>
      if sel.timed_out then
        { self := sel.self, ceiling := ceiling, flow := Control.next }
      else
        let st := open_accept io.accept sel.self ceiling
        match st.flow with
        | Control.next =>
            open_for MAX_INPUT shutdown io.service (List.range st.self.connections.length)
              st.self st.ceiling
        | Control.raised e => { self := st.self, ceiling := st.ceiling, flow := Control.raised e }
        | Control.blocked => { self := st.self, ceiling := st.ceiling, flow := Control.blocked }

/-- The `while (true)` loop of `Socket::open`, run for as many iterations as
there are answers, or until an exception or a `recv` that does not return. -/
def open_loop (MAX_INPUT : Nat) (shutdown : SOCKET → ShutdownResult) :
    List CycleIO → Socket → Nat → OpenState
  | [], self, ceiling => { self := self, ceiling := ceiling, flow := Control.next }
  | io :: rest, self, ceiling =>
      let st := open_cycle MAX_INPUT shutdown io self ceiling
      match st.flow with
      | Control.next => open_loop MAX_INPUT shutdown rest st.self st.ceiling
      | Control.raised e => { self := st.self, ceiling := st.ceiling, flow := Control.raised e }
      | Control.blocked => { self := st.self, ceiling := st.ceiling, flow := Control.blocked }

/-- Models `Socket::open` (socket.cpp): `unsigned int ceiling = 0;` and the loop. -/
def «open» (MAX_INPUT : Nat) (shutdown : SOCKET → ShutdownResult) (ios : List CycleIO)
    (self : Socket) : OpenState :=
  open_loop MAX_INPUT shutdown ios self 0

end Socket

/-! ## Properties of descriptors -/

/-- A descriptor the operating system hands out: non-negative, and small enough
for the count `descriptor + 1` to be an `int`. -/
def valid_descriptor (s : Int) : Prop := 0 ≤ s ∧ s < 2147483647

instance (s : Int) : Decidable (valid_descriptor s) := by
  unfold valid_descriptor
  infer_instance

/-- A listener whose `bind` failed with "Failed to create socket." (so that
`server_socket` is `INVALID_SOCKET`), holding an entry for descriptor `5`. -/
def unbound_socket : Socket :=
  { fresh_socket with server_socket := INVALID_SOCKET, connections := [⟨5, 0⟩] }

/-- The event is an `::accept` call. -/
def is_accept : Event → Bool
  | Event.accept _ _ => true
  | _ => false

/-- A listener on descriptor `4` whose capacity is one peer, with one peer, on
descriptor `7`. -/
def full_socket : Socket :=
  { port := bytes "8080", queue_count := 5, max_connections := 1, server_socket := 4,
    is_open := true, connections := [⟨4, 0⟩, ⟨7, 0⟩], read_list := [], write_list := [],
    os := [] }

/-- Answers of a cycle in which a further peer is waiting to be accepted (the
listening socket `4` is readable) and the peer `7` is writable. -/
def cycle_answers : CycleIO :=
  { select := { result := 2, readable := [4], writable := [7] },
    accept := { client := 8, client_addr := ⟨bytes "10.0.0.9", 4242⟩ },
    service := fun _ => service_answers }

/-- A freshly listening socket: descriptor `3`, bound and listening, with only
its own entry in the connection set. -/
def listening_socket : Socket :=
  { port := bytes "8080", queue_count := 5, max_connections := 1023, server_socket := 3,
    is_open := true, connections := [⟨3, 0⟩], read_list := [], write_list := [], os := [] }

/-- Answers of a cycle in which the peer `7` is reported readable and not
writable, and its first `recv` fails. -/
def read_error_answers : CycleIO :=
  { select := { result := 1, readable := [7], writable := [] },
    accept := { client := INVALID_SOCKET, client_addr := ⟨[], 0⟩ },
    service := fun _ =>
      { recv := [RecvResult.error],
        write := { client_addr := ⟨[], 0⟩, gethostname_result := 0, hostname := bytes "box",
                   send_result := 0 } } }

/-- The number of peers tracked: the entries of the connection set, other than
that of the listening socket, whose socket is not `INVALID_SOCKET`. -/
def tracked_peers (self : Socket) : Nat :=
  List.countP (fun c => decide (c.socket ≠ INVALID_SOCKET ∧ c.socket ≠ self.server_socket))
    self.connections

/-- The listener on descriptor `4` at the start of the loop over the connection
set, in a cycle in which its peer `7` is both readable and writable. -/
def ready_socket : Socket :=
  { port := bytes "8080", queue_count := 5, max_connections := 1023, server_socket := 4,
    is_open := true, connections := [⟨4, 0⟩, ⟨7, 0⟩], read_list := [7], write_list := [7],
    os := [] }

/-! ## `close` and the destructor -/

namespace Socket

/-- Models `Socket::close` (socket.cpp). -/
def close (shutdown : SOCKET → ShutdownResult) (self : Socket) : Socket :=
  let self := self.close_socket shutdown self.server_socket
  { self with is_open := false }

/-- Models the destructor `Socket::~Socket` (socket.cpp), in the `LINUX` build (the
`LOSE` build goes on with `WSACleanup`). -/
def destructor (shutdown : SOCKET → ShutdownResult) (self : Socket) : Socket :=
  if self.is_open then self.close shutdown else self

end Socket

/-! ## The index of the terminating NUL in `receive_data` -/

/-- The value `::recv` returns, an `int`: `SOCKET_ERROR`, or the count of bytes
stored. -/
def RecvResult.value : RecvResult → Int
  | RecvResult.error => SOCKET_ERROR
  | RecvResult.data bs => (bs.length : Int)

/-- The values of `bytes_rx` with which the statement `buffer[bytes_rx] = 0` of
`receive_data` is executed during a run of its loop (the same text in both
files), in order. The statement follows the test `bytes_rx == SOCKET_ERROR`, which
leaves the loop. -/
def nul_write_indices (MAX_INPUT : Nat) : List RecvResult → List Byte → List Int
  | [], _ => []
  | r :: rest, request =>
      let bytes_rx := r.value
      if bytes_rx = SOCKET_ERROR then []
      else
        let request := match r with
          | RecvResult.data bs => append_chunk MAX_INPUT request bs
          | RecvResult.error => request
        bytes_rx ::
          (if is_end request then [] else if bytes_rx = 0 then []
           else nul_write_indices MAX_INPUT rest request)

/-- The number of reads of a run that returned a count: the completed reads, less
the one that returned the error value, if the loop was left that way. -/
def RxRun.successful_reads (r : RxRun) : Nat :=
  r.log.length - (if r.exit = some RxExit.recv_error then 1 else 0)

/-! ## The stopping rule of the receive loop, as the specification states it -/

/-- The specification's stopping rule, for read `k` (counted from `0`) of a sequence
of reads, `request` being the text accumulated before the first of them: the read
returned the error value, or it returned `0` bytes, or the text accumulated after
it (every chunk appended as a C string) has at least four characters, the last
four being `\r\n\r\n`. -/
def stop_rule (request : List Byte) (script : List RecvResult) (k : Nat) : Bool :=
  match script[k]? with
  | none => false
  | some RecvResult.error => true
  | some (RecvResult.data bs) =>
      let text := request ++ accumulated (script.take (k + 1))
      decide (bs.length = 0) ||
        (decide (4 ≤ text.length) && decide (text.drop (text.length - 4) = CRLFCRLF))

/-! ## The calls made while one connection is serviced -/

/-- The calls `Socket::write_data(connection)` makes when the host-name lookup
succeeds: `getpeername`, `gethostname`, and one `send` of the response. -/
def write_data_calls (io : WriteIO) (connection : SOCKET) : List Event :=
  [Event.getpeername connection, Event.gethostname io.gethostname_result,
   Event.send connection (c_str (Socket.write_data_response io))
     (Socket.write_data_response io).length io.send_result]

/-- The test `connection.socket != server_socket && FD_ISSET(connection.socket,
&read_list)` of the loop of `Socket::open`. -/
def read_test (self : Socket) (c : Connection) : Bool :=
  decide (c.socket ≠ self.server_socket) && FD_ISSET c.socket self.read_list

/-- The `recv` calls made for an entry of the connection set in the loop of
`Socket::open`: those of `receive_data`, when the read test holds. -/
def open_body_reads (MAX_INPUT : Nat) (io : ServiceIO) (self : Socket) (c : Connection) :
    List Event :=
  if read_test self c then (Socket.receive_data MAX_INPUT c.socket io.recv).os else []

/-- The servicing of the entry does not get past `receive_data`: the read test
holds and the loop of `receive_data` is still waiting in `recv`. -/
def open_body_waits (MAX_INPUT : Nat) (io : ServiceIO) (self : Socket) (c : Connection) : Bool :=
  read_test self c && decide ((Socket.receive_data MAX_INPUT c.socket io.recv).run.exit = none)

/-- The event is a call of `write_data` or of `close_socket` on the socket `s`:
`getpeername`, `send`, `shutdown` or `close` with `s` as its argument. -/
def writes_or_closes (s : SOCKET) : Event → Bool
  | Event.getpeername x => decide (x = s)
  | Event.send x _ _ _ => decide (x = s)
  | Event.shutdown x _ => decide (x = s)
  | Event.close x => decide (x = s)
  | _ => false

/-- The event is a `::select` call. -/
def is_select : Event → Bool
  | Event.select _ _ _ _ => true
  | _ => false

/-- The event is a `::recv` call, returned or still pending. -/
def is_recv : Event → Bool
  | Event.recv _ _ _ => true
  | Event.recv_pending _ _ => true
  | _ => false

namespace Socket

/-- The state of `Socket::open` when the loop over the connection set starts, in
one iteration of its `while (true)` loop: after `select` and the accept
statement. -/
def open_start (shutdown : SOCKET → ShutdownResult) (io : CycleIO) (self : Socket)
    (ceiling : Nat) : OpenState :=
  open_accept io.accept (self.select shutdown io.select).self ceiling

end Socket

/-! ## Traces compared apart from their `recv` calls -/

/-- The calls of a trace other than the `recv` calls. -/
def non_recv (os : List Event) : List Event := os.filter (fun e => !is_recv e)

/-- The bytes handed to `send` by a call on the socket `s`. -/
def sent_bytes_to (s : SOCKET) : Event → Option (List Byte)
  | Event.send x buf len _ => if x = s then some (buf.take len) else none
  | _ => none

/-- The byte strings handed to `send` on the socket `s` in a trace, in order. -/
def sent_to (s : SOCKET) (os : List Event) : List (List Byte) := os.filterMap (sent_bytes_to s)

/-- Two states of the listener that differ at most in the `recv` calls of their
traces. -/
def same_apart_from_recv (a b : Socket) : Prop :=
  { a with os := [] } = { b with os := [] } ∧ non_recv a.os = non_recv b.os

/-- Two runs, ending in the states `x` and `y`, agree apart from their `recv`
calls: when neither is left waiting in `recv`, they end the same way, with the
same counter and with objects that differ at most in the `recv` calls made; and
in any case the other calls of one are the first of the other calls of the
other. -/
def runs_agree (x y : OpenState) : Prop :=
  (x.flow ≠ Control.blocked → y.flow ≠ Control.blocked →
    same_apart_from_recv x.self y.self ∧ x.ceiling = y.ceiling ∧ x.flow = y.flow) ∧
  (non_recv x.self.os <+: non_recv y.self.os ∨ non_recv y.self.os <+: non_recv x.self.os)

/-! ## Further example inputs -/

/-- A bound listener on descriptor `3` whose `::listen` call failed: the object as
`Socket::listen` leaves it when it throws. -/
def listen_failed_socket : Socket :=
  (Socket.listen shutdown_not_connected SOCKET_ERROR bound_socket 5 0).self

/-- The listening socket `3` after a cycle of `open` in which `::select` failed:
the object as `Socket::select` leaves it when it throws. -/
def select_failed_socket : Socket :=
  (Socket.select shutdown_not_connected ⟨SOCKET_ERROR, [], []⟩ listening_socket).self

/-- Answers of a cycle in which a further peer, `8`, is waiting to be accepted, the
peer `7` is writable, and the host-name lookup of `write_data` fails. -/
def host_name_fails_answers : CycleIO :=
  { select := { result := 2, readable := [4], writable := [7] },
    accept := { client := 8, client_addr := ⟨bytes "10.0.0.9", 4242⟩ },
    service := fun _ =>
      { recv := [RecvResult.data (bytes "GET / HTTP/1.1\r\n\r\n")],
        write := { client_addr := ⟨bytes "127.0.0.1", 80⟩, gethostname_result := SOCKET_ERROR,
                   hostname := [], send_result := 0 } } }

/-- Answers of a cycle in which the peer `7` is readable and writable and its
request arrives whole in one read. -/
def complete_request_answers : CycleIO :=
  { select := { result := 1, readable := [7], writable := [7] },
    accept := { client := INVALID_SOCKET, client_addr := ⟨[], 0⟩ },
    service := fun _ =>
      { recv := [RecvResult.data (bytes "GET / HTTP/1.1\r\n\r\n")],
        write := service_answers.write } }

/-- Answers of a cycle that differ from `complete_request_answers` in the bytes
read only: the peer `7` has sent `GET` and nothing more so far. -/
def partial_request_answers : CycleIO :=
  { select := { result := 1, readable := [7], writable := [7] },
    accept := { client := INVALID_SOCKET, client_addr := ⟨[], 0⟩ },
    service := fun _ =>
      { recv := [RecvResult.data (bytes "GET")],
        write := service_answers.write } }

/-- Answers of a cycle that differ from `complete_request_answers` in the bytes
read only: the peer `7` sends `GET /a` and shuts its side down. -/
def closed_request_answers : CycleIO :=
  { select := { result := 1, readable := [7], writable := [7] },
    accept := { client := INVALID_SOCKET, client_addr := ⟨[], 0⟩ },
    service := fun _ =>
      { recv := [RecvResult.data (bytes "GET /a"), RecvResult.data []],
        write := service_answers.write } }

/-- Answers of a cycle in which the listening socket `3` is readable, `::accept`
returns the peer `5`, and the request of `5` arrives whole in one read. -/
def first_peer_answers : CycleIO :=
  { select := { result := 1, readable := [3], writable := [] },
    accept := { client := 5, client_addr := ⟨bytes "10.0.0.9", 4242⟩ },
    service := complete_request_answers.service }

/-- Answers of a cycle in which the peer `5` is writable and nothing else is
ready. -/
def reply_answers : CycleIO :=
  { select := { result := 1, readable := [], writable := [5] },
    accept := { client := INVALID_SOCKET, client_addr := ⟨[], 0⟩ },
    service := complete_request_answers.service }

theorem from_c_str_append_nul (bs rest : List Byte) :
    from_c_str (bs ++ 0 :: rest) = from_c_str bs := by
  unfold from_c_str
  induction bs with
  | nil => simp
  | cons b bs ih =>
      by_cases hb : b = 0
      · simp [hb]
      · simp only [ne_eq, decide_not] at ih
        simp [List.takeWhile_cons, hb, ih]

theorem from_c_str_recv_buffer (MAX_INPUT : Nat) (bs : List Byte) :
    from_c_str ((recv_buffer MAX_INPUT bs).set bs.length 0) = from_c_str bs := by
  unfold recv_buffer
  rcases Nat.eq_zero_or_pos (MAX_INPUT - bs.length) with h | h
  · rw [h, List.replicate_zero, List.append_nil, List.set_eq_of_length_le (le_refl _)]
  · obtain ⟨m, hm⟩ := Nat.exists_eq_succ_of_ne_zero (Nat.pos_iff_ne_zero.mp h)
    rw [hm, List.replicate_succ, List.set_append_right _ _ (le_refl _)]
    simp [from_c_str_append_nul]

theorem from_c_str_of_not_mem (bs : List Byte) (h : 0 ∉ bs) : from_c_str bs = bs := by
  unfold from_c_str
  rw [List.takeWhile_eq_self_iff]
  intro b hb
  have : b ≠ 0 := fun e => h (e ▸ hb)
  simpa using this

theorem append_chunk_eq (MAX_INPUT : Nat) (request bs : List Byte) :
    append_chunk MAX_INPUT request bs = request ++ from_c_str bs := by
  unfold append_chunk
  simp only [from_c_str_recv_buffer]

theorem is_end_iff (request : List Byte) : is_end request = true ↔ CRLFCRLF <:+ request := by
  unfold is_end substr
  rw [List.suffix_iff_eq_drop]
  simp only [Bool.and_eq_true, decide_eq_true_eq]
  have hl : CRLFCRLF.length = 4 := rfl
  rw [hl]
  constructor
  · rintro ⟨h4, h⟩
    rw [← h, List.take_of_length_le]
    simp
    omega
  · intro h
    have h4 : 4 ≤ request.length := by
      have := congrArg List.length h
      simp [hl] at this
      omega
    refine ⟨h4, ?_⟩
    rw [← h]
    rw [List.take_of_length_le]
    rw [hl]

theorem accumulated_eq_delivered (script : List RecvResult) (h : nul_free script) :
    accumulated script = delivered script := by
  induction script with
  | nil => rfl
  | cons r rest ih =>
      have hrest : nul_free rest := fun r hr bs hbs => h r (List.mem_cons_of_mem _ hr) bs hbs
      cases r with
      | error => simpa [accumulated, delivered] using ih hrest
      | data bs =>
          have hbs : 0 ∉ bs := h _ (List.mem_cons_self _ _) bs rfl
          simp [accumulated, delivered, ih hrest, from_c_str_of_not_mem bs hbs]

theorem receive_loop_recv_calls_pos (MAX_INPUT : Nat) (script : List RecvResult)
    (request : List Byte) : 1 ≤ (receive_loop MAX_INPUT script request).recv_calls := by
  induction script generalizing request with
  | nil => simp [receive_loop, RxRun.recv_calls]
  | cons r rest ih =>
      cases r with
      | error => simp [receive_loop, RxRun.recv_calls]
      | data bs =>
          simp only [receive_loop, RxRun.recv_calls]
          split_ifs <;> simp

/-- The value of `request` after read `i + 1` is the start value followed by the
C strings of the chunks read so far. -/
theorem receive_loop_log (MAX_INPUT : Nat) (script : List RecvResult) (request : List Byte)
    (i : Nat) (req : List Byte)
    (h : (receive_loop MAX_INPUT script request).log[i]? = some req) :
    req = request ++ accumulated (script.take (i + 1)) := by
  induction script generalizing request i with
  | nil => simp [receive_loop] at h
  | cons r rest ih =>
      cases r with
      | error =>
          simp only [receive_loop] at h
          cases i with
          | zero => simpa [accumulated] using h.symm
          | succ j => simp at h
      | data bs =>
          simp only [receive_loop] at h
          rw [append_chunk_eq] at h
          split_ifs at h with h1 h2
          · cases i with
            | zero => simpa [accumulated] using h.symm
            | succ j => simp at h
          · cases i with
            | zero => simpa [accumulated] using h.symm
            | succ j => simp at h
          · cases i with
            | zero => simpa [accumulated] using h.symm
            | succ j =>
                simp only [List.getElem?_cons_succ] at h
                have := ih _ _ h
                simpa [accumulated, List.append_assoc] using this

/-- The loop is left at the latest after read `i + 1` when that read is empty or
the text accumulated up to it ends in the terminator. -/
theorem receive_loop_stops (MAX_INPUT : Nat) (script : List RecvResult) (request : List Byte)
    (i : Nat) (hlen : i < script.length)
    (h : script[i]? = some (RecvResult.data []) ∨
      CRLFCRLF <:+ request ++ accumulated (script.take (i + 1))) :
    (receive_loop MAX_INPUT script request).recv_calls ≤ i + 1 ∧
      (receive_loop MAX_INPUT script request).exit ≠ none := by
  induction script generalizing request i with
  | nil => simp at hlen
  | cons r rest ih =>
      cases r with
      | error => simp [receive_loop, RxRun.recv_calls]
      | data bs =>
          simp only [receive_loop]
          rw [append_chunk_eq]
          split_ifs with h1 h2
          · simp [RxRun.recv_calls]
          · simp [RxRun.recv_calls]
          · cases i with
            | zero =>
                exfalso
                rcases h with h | h
                · simp at h
                  exact h2 (by simp [h])
                · apply h1
                  rw [is_end_iff]
                  simpa [accumulated] using h
            | succ j =>
                have hlen2 : j < rest.length := by simpa using hlen
                have h3 : rest[j]? = some (RecvResult.data []) ∨
                    CRLFCRLF <:+ (request ++ from_c_str bs) ++ accumulated (rest.take (j + 1)) := by
                  rcases h with h | h
                  · left; simpa using h
                  · right; simpa [accumulated, List.append_assoc] using h
                have := ih (request ++ from_c_str bs) j hlen2 h3
                simp only [RxRun.recv_calls] at this ⊢
                refine ⟨?_, this.2⟩
                simp only [List.length_cons]
                omega

/-- The loop issues a further `recv` after read `i + 1` when that read took place,
delivered at least one byte and left the accumulated text without the terminator
at its end. -/
theorem receive_loop_continues (MAX_INPUT : Nat) (script : List RecvResult) (request : List Byte)
    (i : Nat) (bs : List Byte) (hread : i + 1 ≤ (receive_loop MAX_INPUT script request).recv_calls)
    (hi : script[i]? = some (RecvResult.data bs)) (hbs : bs ≠ [])
    (h : ¬ CRLFCRLF <:+ request ++ accumulated (script.take (i + 1))) :
    i + 2 ≤ (receive_loop MAX_INPUT script request).recv_calls := by
  induction script generalizing request i with
  | nil => simp at hi
  | cons r rest ih =>
      cases r with
      | error =>
          cases i with
          | zero => simp at hi
          | succ j => simp [receive_loop, RxRun.recv_calls] at hread
      | data cs =>
          simp only [receive_loop] at hread ⊢
          rw [append_chunk_eq] at hread ⊢
          split_ifs at hread ⊢ with h1 h2
          · cases i with
            | zero =>
                exfalso
                apply h
                rw [is_end_iff] at h1
                simpa [accumulated] using h1
            | succ j => simp [RxRun.recv_calls] at hread
          · cases i with
            | zero =>
                exfalso
                simp at hi
                subst hi
                exact hbs (List.length_eq_zero.mp h2)
            | succ j => simp [RxRun.recv_calls] at hread
          · have hpos := receive_loop_recv_calls_pos MAX_INPUT rest (request ++ from_c_str cs)
            cases i with
            | zero =>
                simp only [RxRun.recv_calls, List.length_cons] at hpos ⊢
                omega
            | succ j =>
                have hi2 : rest[j]? = some (RecvResult.data bs) := by simpa using hi
                have h3 : ¬ CRLFCRLF <:+ (request ++ from_c_str cs) ++ accumulated (rest.take (j + 1)) := by
                  simpa [accumulated, List.append_assoc] using h
                have hread2 : j + 1 ≤ (receive_loop MAX_INPUT rest (request ++ from_c_str cs)).recv_calls := by
                  simp only [RxRun.recv_calls, List.length_cons] at hread ⊢
                  omega
                have := ih (request ++ from_c_str cs) j hread2 hi2 h3
                simp only [RxRun.recv_calls, List.length_cons] at this ⊢
                omega

theorem socket_receive_data_run (MAX_INPUT : Nat) (connection : SOCKET) (script : List RecvResult) :
    (Socket.receive_data MAX_INPUT connection script).run = receive_loop MAX_INPUT script [] := by
  unfold Socket.receive_data
  cases h : (receive_loop MAX_INPUT script []).exit <;> simp [h]

theorem windows_receive_data_run (MAX_INPUT : Nat) (connection : SOCKET)
    (script : List RecvResult) :
    (WindowsTcpSocket.receive_data MAX_INPUT connection script).run =
      receive_loop MAX_INPUT script [] := rfl

/-! ## C1 – C3: the receive loop -/

/-- C1, refuted as stated: the single read `\0\r\n\r\n` is successful and the bytes
delivered end with `\r\n\r\n`, yet `receive_data` reads on (three `recv` calls
on this script instead of one). -/
theorem C1_counterexample :
    all_successful [RecvResult.data [0, 13, 10, 13, 10], RecvResult.data [65], RecvResult.data []] ∧
    CRLFCRLF <:+ delivered
      ([RecvResult.data [0, 13, 10, 13, 10], RecvResult.data [65], RecvResult.data []].take 1) ∧
    ¬ (Socket.receive_data 4096 5
        [RecvResult.data [0, 13, 10, 13, 10], RecvResult.data [65], RecvResult.data []]).run.recv_calls
        ≤ 1 := by
  refine ⟨?_, ?_, ?_⟩
  · unfold all_successful
    decide
  · decide
  · decide

/-- C1, as amended: if the k-th read delivers 0 bytes, or reads 1..k deliver no NUL
byte and the bytes they deliver end with `\r\n\r\n`, then `receive_data` (both
implementations) makes no `recv` call after the k-th and leaves its loop, that is,
returns. -/
theorem C1_receive_data_returns (MAX_INPUT : Nat) (connection : SOCKET)
    (script : List RecvResult) (k : Nat) (hk : 1 ≤ k) (hlen : k ≤ script.length)
    (h : script[k - 1]? = some (RecvResult.data []) ∨
      (nul_free (script.take k) ∧ CRLFCRLF <:+ delivered (script.take k))) :
    ((Socket.receive_data MAX_INPUT connection script).run.recv_calls ≤ k ∧
      (Socket.receive_data MAX_INPUT connection script).run.exit ≠ none) ∧
    ((WindowsTcpSocket.receive_data MAX_INPUT connection script).run.recv_calls ≤ k ∧
      (WindowsTcpSocket.receive_data MAX_INPUT connection script).run.exit ≠ none) := by
  rw [socket_receive_data_run, windows_receive_data_run]
  obtain ⟨i, rfl⟩ : ∃ i, k = i + 1 := ⟨k - 1, by omega⟩
  have key := receive_loop_stops MAX_INPUT script [] i (by omega) (by
    rcases h with h | ⟨hn, hs⟩
    · left; simpa using h
    · right; simpa [accumulated_eq_delivered _ hn] using hs)
  exact ⟨key, key⟩

/-- C1, witness: the request `GET / HTTP/1.1\r\nHost: x\r\n\r\n` arriving in one read. -/
theorem C1_receive_data_returns_witness :
    ((Socket.receive_data 4096 5
        [RecvResult.data (bytes "GET / HTTP/1.1\r\nHost: x\r\n\r\n")]).run.recv_calls ≤ 1 ∧
      (Socket.receive_data 4096 5
        [RecvResult.data (bytes "GET / HTTP/1.1\r\nHost: x\r\n\r\n")]).run.exit ≠ none) ∧
    ((WindowsTcpSocket.receive_data 4096 5
        [RecvResult.data (bytes "GET / HTTP/1.1\r\nHost: x\r\n\r\n")]).run.recv_calls ≤ 1 ∧
      (WindowsTcpSocket.receive_data 4096 5
        [RecvResult.data (bytes "GET / HTTP/1.1\r\nHost: x\r\n\r\n")]).run.exit ≠ none) :=
  C1_receive_data_returns 4096 5 [RecvResult.data (bytes "GET / HTTP/1.1\r\nHost: x\r\n\r\n")] 1
    (by decide) (by decide)
    (Or.inr ⟨by
      intro r hr bs hbs
      simp only [List.take_succ_cons, List.take_zero, List.mem_singleton] at hr
      subst hr
      injection hbs with hbs
      subst hbs
      decide, by decide⟩)

/-- C2, refuted as stated: the first read `\r\n\r\n\0` is successful, delivers five
bytes, and the bytes delivered do not end with `\r\n\r\n`; `receive_data` returns
after it all the same, without a second `recv`. -/
theorem C2_counterexample :
    [RecvResult.data [13, 10, 13, 10, 0], RecvResult.data [65]][0]? =
      some (RecvResult.data [13, 10, 13, 10, 0]) ∧
    ¬ CRLFCRLF <:+ delivered ([RecvResult.data [13, 10, 13, 10, 0], RecvResult.data [65]].take 1) ∧
    (Socket.receive_data 4096 5
      [RecvResult.data [13, 10, 13, 10, 0], RecvResult.data [65]]).run.recv_calls = 1 ∧
    (Socket.receive_data 4096 5
      [RecvResult.data [13, 10, 13, 10, 0], RecvResult.data [65]]).run.exit =
        some RxExit.terminator := by
  refine ⟨?_, ?_, ?_, ?_⟩ <;> decide

/-- C2, as amended: if `receive_data` (either implementation) makes a k-th `recv`
call that is successful and delivers at least one byte, no read 1..k delivers a
NUL byte, and the bytes delivered by reads 1..k do not end with `\r\n\r\n`, then it
makes a (k+1)-th `recv` call. -/
theorem C2_receive_data_keeps_reading (MAX_INPUT : Nat) (connection : SOCKET)
    (script : List RecvResult) (k : Nat) (bs : List Byte) (hk : 1 ≤ k)
    (hread : k ≤ (Socket.receive_data MAX_INPUT connection script).run.recv_calls)
    (hkth : script[k - 1]? = some (RecvResult.data bs)) (hbs : bs ≠ [])
    (hnul : nul_free (script.take k))
    (hterm : ¬ CRLFCRLF <:+ delivered (script.take k)) :
    k + 1 ≤ (Socket.receive_data MAX_INPUT connection script).run.recv_calls ∧
    k + 1 ≤ (WindowsTcpSocket.receive_data MAX_INPUT connection script).run.recv_calls := by
  rw [socket_receive_data_run] at hread
  rw [socket_receive_data_run, windows_receive_data_run]
  obtain ⟨i, rfl⟩ : ∃ i, k = i + 1 := ⟨k - 1, by omega⟩
  have key := receive_loop_continues MAX_INPUT script [] i bs hread (by simpa using hkth) hbs
    (by simpa [accumulated_eq_delivered _ hnul] using hterm)
  exact ⟨key, key⟩

/-- C2, witness: after the partial input `GET / HTTP/1.1\r\n` a second `recv` call
is made (and is left pending). -/
theorem C2_receive_data_keeps_reading_witness :
    1 + 1 ≤ (Socket.receive_data 4096 5
      [RecvResult.data (bytes "GET / HTTP/1.1\r\n")]).run.recv_calls ∧
    1 + 1 ≤ (WindowsTcpSocket.receive_data 4096 5
      [RecvResult.data (bytes "GET / HTTP/1.1\r\n")]).run.recv_calls :=
  C2_receive_data_keeps_reading 4096 5 [RecvResult.data (bytes "GET / HTTP/1.1\r\n")] 1
    (bytes "GET / HTTP/1.1\r\n") (by decide) (by decide) (by decide) (by decide)
    (by
      intro r hr bs hbs
      simp only [List.take_succ_cons, List.take_zero, List.mem_singleton] at hr
      subst hr
      injection hbs with hbs
      subst hbs
      decide)
    (by decide)

/-- C3, refuted as stated: after the successful read `A\0B` the accumulated request
is `A`, not the three bytes delivered. -/
theorem C3_counterexample :
    all_successful [RecvResult.data [65, 0, 66]] ∧
    (Socket.receive_data 4096 5 [RecvResult.data [65, 0, 66]]).run.log[0]? = some [65] ∧
    delivered ([RecvResult.data [65, 0, 66]].take 1) = [65, 0, 66] := by
  refine ⟨?_, ?_, ?_⟩
  · unfold all_successful
    decide
  · decide
  · decide

/-- C3, as amended: when reads 1..k deliver no NUL byte, the request accumulated by
`receive_data` (either implementation) after the k-th read is the concatenation, in
order, of all bytes delivered by reads 1..k. -/
theorem C3_request_is_what_was_read (MAX_INPUT : Nat) (connection : SOCKET)
    (script : List RecvResult) (k : Nat) (req : List Byte) (hk : 1 ≤ k)
    (hnul : nul_free (script.take k))
    (hreq : (Socket.receive_data MAX_INPUT connection script).run.log[k - 1]? = some req) :
    req = delivered (script.take k) ∧
    (WindowsTcpSocket.receive_data MAX_INPUT connection script).run.log[k - 1]? = some req := by
  rw [socket_receive_data_run] at hreq
  rw [windows_receive_data_run]
  refine ⟨?_, hreq⟩
  obtain ⟨i, rfl⟩ : ∃ i, k = i + 1 := ⟨k - 1, by omega⟩
  have key := receive_loop_log MAX_INPUT script [] i req (by simpa using hreq)
  simpa [accumulated_eq_delivered _ hnul] using key

/-- C3, witness: two reads `GET /` and ` HTTP`; after the second the request is
`GET / HTTP`. -/
theorem C3_request_is_what_was_read_witness :
    bytes "GET / HTTP" =
      delivered ([RecvResult.data (bytes "GET /"), RecvResult.data (bytes " HTTP")].take 2) ∧
    (WindowsTcpSocket.receive_data 4096 5
      [RecvResult.data (bytes "GET /"), RecvResult.data (bytes " HTTP")]).run.log[2 - 1]? =
        some (bytes "GET / HTTP") :=
  C3_request_is_what_was_read 4096 5
    [RecvResult.data (bytes "GET /"), RecvResult.data (bytes " HTTP")] 2 (bytes "GET / HTTP")
    (by decide)
    (by
      intro r hr bs hbs
      simp only [List.take_succ_cons, List.take_zero, List.mem_cons, List.mem_singleton,
        List.not_mem_nil, or_false] at hr
      rcases hr with hr | hr <;> subst hr <;> injection hbs with hbs <;> subst hbs <;> decide)
    (by decide)

/-! ## Lemmas: decimal numbers -/

theorem to_string_fuel_digits (fuel value : Nat) :
    ∀ b ∈ to_string_fuel fuel value, (48 : Nat) ≤ b ∧ b ≤ (57 : Nat) := by
  induction fuel generalizing value with
  | zero => simp [to_string_fuel]
  | succ fuel ih =>
      intro b hb
      unfold to_string_fuel at hb
      split_ifs at hb with h
      · simp only [List.mem_singleton] at hb
        subst hb
        refine ⟨?_, ?_⟩
        · show (48 : Nat) ≤ 48 + value
          omega
        · show (48 : Nat) + value ≤ 57
          omega
      · rw [List.mem_append] at hb
        rcases hb with hb | hb
        · exact ih _ b hb
        · simp only [List.mem_singleton] at hb
          subst hb
          have := Nat.mod_lt value (show 0 < 10 by decide)
          refine ⟨?_, ?_⟩
          · show (48 : Nat) ≤ 48 + value % 10
            omega
          · show (48 : Nat) + value % 10 ≤ 57
            omega

theorem decimal_value_append (ds : List Byte) (d : Byte) :
    decimal_value (ds ++ [d]) = 10 * decimal_value ds + (d - 48) := by
  simp [decimal_value, List.foldl_append]

theorem decimal_value_to_string_fuel (fuel value : Nat) (h : value < fuel) :
    decimal_value (to_string_fuel fuel value) = value := by
  induction fuel generalizing value with
  | zero => omega
  | succ fuel ih =>
      unfold to_string_fuel
      split_ifs with h10
      · simp [decimal_value]
      · rw [decimal_value_append, ih (value / 10) (by omega)]
        omega

theorem to_string_fuel_ne_nil (fuel value : Nat) : to_string_fuel (fuel + 1) value ≠ [] := by
  unfold to_string_fuel
  split_ifs <;> simp

theorem std_to_string_digits (value : Nat) : ∀ b ∈ std_to_string value, (48 : Nat) ≤ b ∧ b ≤ (57 : Nat) :=
  to_string_fuel_digits _ _

theorem std_to_string_ne_nil (value : Nat) : std_to_string value ≠ [] :=
  to_string_fuel_ne_nil _ _

theorem decimal_value_std_to_string (value : Nat) : decimal_value (std_to_string value) = value :=
  decimal_value_to_string_fuel _ _ (Nat.lt_succ_self _)

theorem std_to_string_nul_free (value : Nat) : 0 ∉ std_to_string value := by
  intro h
  have := (std_to_string_digits value 0 h).1
  exact absurd this (by decide)

/-! ## Lemmas: splitting at a pattern -/

theorem split_first_cons_of_no_match (pat : List Byte) (b : Byte) (l : List Byte)
    (h : pat.isPrefixOf (b :: l) = false) :
    split_first pat (b :: l) = (split_first pat l).map (fun q => (b :: q.1, q.2)) := by
  rw [split_first]
  simp only [h, Bool.false_eq_true, if_false]
  cases split_first pat l with
  | none => rfl
  | some q => rfl

theorem isPrefixOf_take_of_isPrefixOf_append (pat x rest : List Byte)
    (h : pat.isPrefixOf (x ++ rest) = true) : (pat.take x.length).isPrefixOf x = true := by
  induction x generalizing pat with
  | nil => simp
  | cons a x ih =>
      cases pat with
      | nil => simp
      | cons p pat =>
          simp only [List.cons_append, List.isPrefixOf_cons₂, Bool.and_eq_true] at h
          simp only [List.length_cons, List.take_succ_cons, List.isPrefixOf_cons₂,
            Bool.and_eq_true]
          exact ⟨h.1, ih pat h.2⟩

theorem split_first_skip (pat pre rest : List Byte) (h : no_match_inside pat pre) :
    split_first pat (pre ++ rest) = (split_first pat rest).map (fun q => (pre ++ q.1, q.2)) := by
  induction pre with
  | nil =>
      simp only [List.nil_append]
      cases split_first pat rest <;> simp
  | cons b pre ih =>
      have h0 : pat.isPrefixOf (b :: pre ++ rest) = false := by
        by_contra hc
        have hc2 : pat.isPrefixOf ((b :: pre) ++ rest) = true := by simpa using hc
        have := isPrefixOf_take_of_isPrefixOf_append pat (b :: pre) rest hc2
        have h1 := h 0 (by simp)
        simp only [Nat.sub_zero, List.drop_zero] at h1
        rw [h1] at this
        exact Bool.false_ne_true this
      have hrest : no_match_inside pat pre := by
        intro i hi
        have := h (i + 1) (by simpa using hi)
        simpa using this
      rw [List.cons_append, split_first_cons_of_no_match pat b (pre ++ rest) h0, ih hrest]
      cases split_first pat rest <;> simp

theorem split_first_here (pat rest : List Byte) (hpat : pat ≠ []) :
    split_first pat (pat ++ rest) = some ([], rest) := by
  cases pat with
  | nil => exact absurd rfl hpat
  | cons p pat =>
      rw [List.cons_append, split_first]
      have : (p :: pat).isPrefixOf (p :: (pat ++ rest)) = true := by
        rw [← List.cons_append, List.isPrefixOf_iff_prefix]
        exact List.prefix_append _ _
      simp only [this, if_true]
      rw [← List.cons_append, List.drop_left]

theorem split_first_unique (pat pre rest : List Byte) (hpat : pat ≠ [])
    (h : no_match_inside pat pre) :
    split_first pat (pre ++ (pat ++ rest)) = some (pre, rest) := by
  rw [split_first_skip pat pre _ h, split_first_here pat rest hpat]
  simp

theorem no_match_inside_of_forall_ne (p : Byte) (ps l : List Byte) (h : ∀ b ∈ l, b ≠ p) :
    no_match_inside (p :: ps) l := by
  intro i hi
  rw [List.drop_eq_getElem_cons hi]
  obtain ⟨m, hm⟩ : ∃ m, l.length - i = m + 1 := ⟨l.length - i - 1, by omega⟩
  rw [hm, List.take_succ_cons, List.isPrefixOf_cons₂]
  have : l[i] ≠ p := h _ (List.getElem_mem _)
  have hne : (p == l[i]) = false := by
    rw [beq_eq_false_iff_ne]
    exact fun e => this e.symm
  rw [hne, Bool.false_and]

theorem from_c_str_nul_free (mem : List Byte) : 0 ∉ from_c_str mem := by
  intro h
  have := List.mem_takeWhile_imp h
  simp at this

/-! ## Lemmas: the response -/

theorem make_response_eq (body : List Byte) (h : 0 ∉ body) :
    make_response body = response_head ++ std_to_string body.length ++ CRLFCRLF ++ body := by
  unfold make_response c_str
  rw [from_c_str_append_nul, from_c_str_of_not_mem body h]
  rfl

theorem socket_write_data_body_nul_free (client_ip : List Byte) (client_port : Nat)
    (hostname : List Byte) (h : 0 ∉ client_ip) :
    0 ∉ Socket.write_data_body client_ip client_port hostname := by
  unfold Socket.write_data_body
  simp only [List.mem_append, not_or]
  refine ⟨⟨⟨⟨⟨⟨?_, h⟩, ?_⟩, std_to_string_nul_free _⟩, ?_⟩, from_c_str_nul_free _⟩, ?_⟩ <;> decide

theorem windows_write_data_body_nul_free (client_ip : List Byte) (client_port : Nat)
    (hostname : List Byte) (h : 0 ∉ client_ip) :
    0 ∉ WindowsTcpSocket.write_data_body client_ip client_port hostname := by
  unfold WindowsTcpSocket.write_data_body
  simp only [List.mem_append, not_or]
  refine ⟨⟨⟨⟨⟨⟨?_, h⟩, ?_⟩, std_to_string_nul_free _⟩, ?_⟩, from_c_str_nul_free _⟩, ?_⟩ <;> decide

theorem windows_open_body_text_nul_free (rand_value : Nat) :
    0 ∉ WindowsTcpSocket.open_body_text rand_value := by
  unfold WindowsTcpSocket.open_body_text
  simp only [List.mem_append, not_or]
  refine ⟨⟨?_, std_to_string_nul_free _⟩, ?_⟩ <;> decide

theorem no_match_inside_response_head : no_match_inside CRLFCRLF response_head := by
  unfold no_match_inside
  decide

theorem split_blank_line (digits body : List Byte) (h : ∀ b ∈ digits, (48 : Nat) ≤ b ∧ b ≤ (57 : Nat)) :
    split_first CRLFCRLF (response_head ++ digits ++ CRLFCRLF ++ body) =
      some (response_head ++ digits, body) := by
  have hd : no_match_inside CRLFCRLF digits := by
    apply no_match_inside_of_forall_ne
    intro b hb e
    have := (h b hb).1
    rw [e] at this
    exact absurd this (by decide)
  rw [List.append_assoc, List.append_assoc, split_first_skip _ _ _ no_match_inside_response_head,
    split_first_skip _ _ _ hd, split_first_here _ _ (by decide)]
  simp

theorem content_length_response (digits body : List Byte) (hne : digits ≠ [])
    (h : ∀ b ∈ digits, (48 : Nat) ≤ b ∧ b ≤ (57 : Nat)) :
    content_length (response_head ++ digits ++ CRLFCRLF ++ body) = some (decimal_value digits) := by
  have hsplit : split_first (bytes "Content-Length: ") (response_head ++ digits ++ CRLFCRLF ++ body) =
      some (bytes "HTTP/1.1 200 OK\r\n" ++ bytes "Content-Type: text/html; charset=UTF-8\r\n" ++
        bytes "Connection: keep-alive\r\n", digits ++ (CRLFCRLF ++ body)) := by
    unfold response_head
    rw [List.append_assoc, List.append_assoc, List.append_assoc _ (bytes "Content-Length: ")]
    apply split_first_unique
    · decide
    · unfold no_match_inside
      decide
  have htake : (digits ++ (CRLFCRLF ++ body)).takeWhile is_digit = digits := by
    rw [List.takeWhile_append]
    have hall : digits.takeWhile is_digit = digits := by
      rw [List.takeWhile_eq_self_iff]
      intro b hb
      have := h b hb
      simp [is_digit, this.1, this.2]
    rw [hall]
    simp [CRLFCRLF, is_digit]
  unfold content_length
  rw [hsplit]
  simp only [htake, hne, if_false]

/-- The property of C4, for the bytes of a message: the number written after
`Content-Length: ` is the number of bytes that follow the blank line. -/
theorem content_length_matches_make_response (body : List Byte) (h : 0 ∉ body) :
    ∃ n, content_length (make_response body) = some n ∧
      (after_blank_line (make_response body)).map List.length = some n := by
  refine ⟨body.length, ?_, ?_⟩
  · rw [make_response_eq body h, content_length_response _ _ (std_to_string_ne_nil _)
      (std_to_string_digits _), decimal_value_std_to_string]
  · unfold after_blank_line
    rw [make_response_eq body h, split_blank_line _ _ (std_to_string_digits _)]
    rfl

theorem fixed_wire_shape_make_response (body : List Byte) (h : 0 ∉ body) :
    fixed_wire_shape (make_response body) body := by
  have hd := std_to_string_digits body.length
  rw [make_response_eq body h]
  refine ⟨⟨std_to_string body.length, std_to_string_ne_nil _, ?_, rfl, ?_⟩, ?_, ?_⟩
  · intro b hb
    have := hd b hb
    simp [is_digit, this.1, this.2]
  · exact split_blank_line _ _ hd
  · refine ⟨bytes "Content-Type: text/html; charset=UTF-8\r\n" ++
      bytes "Connection: keep-alive\r\n" ++
      bytes "Content-Length: " ++ std_to_string body.length ++ CRLFCRLF ++ body, ?_⟩
    simp [response_head, List.append_assoc]
  · refine ⟨bytes "HTTP/1.1 200 OK\r\n", bytes "; charset=UTF-8\r\n" ++
      bytes "Connection: keep-alive\r\n" ++
      bytes "Content-Length: " ++ std_to_string body.length ++ CRLFCRLF ++ body, ?_⟩
    have e : bytes "Content-Type: text/html; charset=UTF-8\r\n" =
        bytes "Content-Type: text/html" ++ bytes "; charset=UTF-8\r\n" := by decide
    simp [response_head, e, List.append_assoc]

theorem take_c_str (s : List Byte) : (c_str s).take s.length = s := by
  unfold c_str
  exact List.take_left' rfl

theorem socket_write_data_sends (io : WriteIO) (self : Socket) (connection : SOCKET) :
    sends ((Socket.write_data io self connection).new_os self) =
      if io.gethostname_result = SOCKET_ERROR then [] else [Socket.write_data_response io] := by
  unfold Socket.write_data Outcome.new_os
  split_ifs with h <;> simp [sends, sent_bytes, take_c_str]

theorem windows_write_data_sends (io : WriteIO) (self : WindowsTcpSocket)
    (connection : SOCKET) :
    sends ((WindowsTcpSocket.write_data io self connection).new_os self) =
      if io.gethostname_result = SOCKET_ERROR then []
      else [WindowsTcpSocket.write_data_response io] := by
  unfold WindowsTcpSocket.write_data Outcome.new_os
  split_ifs with h <;> simp [sends, sent_bytes, take_c_str]

/-! ## C4 – C5: the response -/

/-- C4: in the response of `Socket::write_data`, of `WindowsTcpSocket::write_data` and
of the accept branch of `WindowsTcpSocket::open`, the decimal number written after
`Content-Length: ` equals the number of bytes that follow the blank line ending the
header block; and that response is, byte for byte, what the function hands to
`send` (it sends nothing when the host-name lookup failed). -/
theorem C4_content_length_is_body_length (io : WriteIO) (self : Socket) (connection : SOCKET)
    (rand_value : Nat) (send_result : Int) :
    (content_length_matches (Socket.write_data_response io) ∧
      sends ((Socket.write_data io self connection).new_os self) =
        if io.gethostname_result = SOCKET_ERROR then [] else [Socket.write_data_response io]) ∧
    (content_length_matches (WindowsTcpSocket.write_data_response io) ∧
      sends ((WindowsTcpSocket.write_data io self connection).new_os self) =
        if io.gethostname_result = SOCKET_ERROR then []
        else [WindowsTcpSocket.write_data_response io]) ∧
    (content_length_matches (WindowsTcpSocket.open_response rand_value) ∧
      sent_bytes (WindowsTcpSocket.open_send connection rand_value send_result) =
        some (WindowsTcpSocket.open_response rand_value)) := by
  refine ⟨⟨?_, socket_write_data_sends io self connection⟩,
    ⟨?_, windows_write_data_sends io self connection⟩, ?_, ?_⟩
  · exact content_length_matches_make_response _
      (socket_write_data_body_nul_free _ _ _ (from_c_str_nul_free _))
  · exact content_length_matches_make_response _
      (windows_write_data_body_nul_free _ _ _ (from_c_str_nul_free _))
  · exact content_length_matches_make_response _ (windows_open_body_text_nul_free _)
  · simp [WindowsTcpSocket.open_send, sent_bytes, take_c_str]

/-- C5: the response built by `write_data` (both implementations) has the fixed wire
shape: status line, `Content-Type`, `Connection`, `Content-Length: N` with `N`
decimal, a blank line and the body; it starts with the `200 OK` status line,
contains `Content-Type: text/html`, and splitting it at its first `\r\n\r\n`
yields the header block and exactly the body. -/
theorem C5_fixed_wire_shape (io : WriteIO) :
    fixed_wire_shape (Socket.write_data_response io)
      (Socket.write_data_body (get_in_ip io.client_addr) (get_in_port io.client_addr)
        io.hostname) ∧
    fixed_wire_shape (WindowsTcpSocket.write_data_response io)
      (WindowsTcpSocket.write_data_body (WindowsTcpSocket.get_in_ip io.client_addr)
        (WindowsTcpSocket.get_in_port io.client_addr) io.hostname) :=
  ⟨fixed_wire_shape_make_response _
      (socket_write_data_body_nul_free _ _ _ (from_c_str_nul_free _)),
    fixed_wire_shape_make_response _
      (windows_write_data_body_nul_free _ _ _ (from_c_str_nul_free _))⟩

/-! ## Lemmas: the loop body of `open` -/

theorem socket_receive_data_os (MAX_INPUT : Nat) (connection : SOCKET) (script : List RecvResult) :
    (Socket.receive_data MAX_INPUT connection script).os =
      recv_events MAX_INPUT connection script (receive_loop MAX_INPUT script []) := by
  unfold Socket.receive_data
  cases h : (receive_loop MAX_INPUT script []).exit <;> simp [h]

theorem recv_events_no_send (MAX_INPUT : Nat) (connection : SOCKET) (script : List RecvResult)
    (run : RxRun) : ∀ e ∈ recv_events MAX_INPUT connection script run, sent_bytes e = none := by
  intro e he
  unfold recv_events at he
  rw [List.mem_append] at he
  rcases he with he | he
  · rw [List.mem_map] at he
    obtain ⟨r, _, rfl⟩ := he
    rfl
  · split_ifs at he
    · simp only [List.mem_singleton] at he
      subst he
      rfl
    · simp at he

theorem sends_close_socket_events (shutdown : SOCKET → ShutdownResult) (s : SOCKET) :
    sends (close_socket_events shutdown s) = [] := by
  unfold close_socket_events sends
  simp only []
  split_ifs <;> simp [sent_bytes]

theorem FD_ISSET_FD_CLR (s : SOCKET) (set : fd_set) : FD_ISSET s (FD_CLR s set) = false := by
  simp [FD_ISSET, FD_CLR]

/-! ## C6: the write branch of `open` -/

/-- C6, refuted as stated: connection `7` is in the write set when its turn comes,
the host-name lookup fails, and `write_data` throws: nothing is sent, `7` stays in
the write set, the socket is not closed and its entry keeps the value `7`. -/
theorem C6_counterexample :
    (Socket.open_body 4096 (fun _ => ⟨0, false⟩)
      ⟨[], ⟨⟨bytes "127.0.0.1", 80⟩, SOCKET_ERROR, [], 0⟩⟩
      ⟨bytes "8080", 5, 1023, 4, true, [⟨4, 0⟩, ⟨7, 0⟩], [4], [7], []⟩ 1 1) =
    { self := ⟨bytes "8080", 5, 1023, 4, true, [⟨4, 0⟩, ⟨7, 0⟩], [4], [7],
        [Event.getpeername 7, Event.gethostname SOCKET_ERROR]⟩,
      ceiling := 1,
      flow := Control.raised Exception.failed_to_get_host_name } := by
  decide

/-- C6, as amended: when the write test of `open` is reached for a connection (the
entry is valid and `receive_data`, if called, has returned), the socket is in the
write set and the host-name lookup of `write_data` succeeds, then after the `recv`
calls the calls made are `getpeername`, `gethostname`, one `send` of the whole
response with length `response.size()`, then those of `close_socket` on that
socket, whatever `send` returns; the socket is no longer in the write set, the
entry's socket is `INVALID_SOCKET`, and control moves on to the next connection. -/
theorem C6_single_send_then_close (MAX_INPUT : Nat) (shutdown : SOCKET → ShutdownResult)
    (io : ServiceIO) (self : Socket) (ceiling i : Nat) (connection : Connection)
    (hentry : self.connections[i]? = some connection)
    (hvalid : connection.socket ≠ INVALID_SOCKET)
    (hreturned : ¬ (connection.socket ≠ self.server_socket ∧
      FD_ISSET connection.socket self.read_list = true ∧
      (Socket.receive_data MAX_INPUT connection.socket io.recv).run.exit = none))
    (hwritable : FD_ISSET connection.socket self.write_list = true)
    (hhost : io.write.gethostname_result ≠ SOCKET_ERROR) :
    ∃ rx : List Event,
      (∀ e ∈ rx, sent_bytes e = none) ∧
      (Socket.open_body MAX_INPUT shutdown io self ceiling i).self.os =
        self.os ++ rx ++
          [Event.getpeername connection.socket,
           Event.gethostname io.write.gethostname_result,
           Event.send connection.socket (c_str (Socket.write_data_response io.write))
             (Socket.write_data_response io.write).length io.write.send_result] ++
          close_socket_events shutdown connection.socket ∧
      sends (close_socket_events shutdown connection.socket) = [] ∧
      FD_ISSET connection.socket
        (Socket.open_body MAX_INPUT shutdown io self ceiling i).self.write_list = false ∧
      (Socket.open_body MAX_INPUT shutdown io self ceiling i).self.connections =
        self.connections.set i { connection with socket := INVALID_SOCKET } ∧
      (Socket.open_body MAX_INPUT shutdown io self ceiling i).flow = Control.next := by
  unfold Socket.open_body
  simp only [hentry]
  rw [if_neg hvalid]
  by_cases hr : connection.socket ≠ self.server_socket ∧
      FD_ISSET connection.socket self.read_list = true
  · have hexit : (Socket.receive_data MAX_INPUT connection.socket io.recv).run.exit ≠ none :=
      fun h => hreturned ⟨hr.1, hr.2, h⟩
    refine ⟨(Socket.receive_data MAX_INPUT connection.socket io.recv).os, ?_, ?_⟩
    · rw [socket_receive_data_os]
      exact recv_events_no_send _ _ _ _
    · simp [hr, hexit, hwritable, hhost, Socket.write_data, Socket.close_socket,
        sends_close_socket_events, FD_ISSET_FD_CLR]
  · refine ⟨[], by simp, ?_⟩
    simp [hr, hwritable, hhost, Socket.write_data, Socket.close_socket,
      sends_close_socket_events, FD_ISSET_FD_CLR]

/-- C6, witness: the peer `7` of `serving_socket` is writable and the host-name
lookup succeeds; one `send` is made although it reports a short count. -/
theorem C6_single_send_then_close_witness :
    ∃ rx : List Event,
      (∀ e ∈ rx, sent_bytes e = none) ∧
      (Socket.open_body 4096 shutdown_not_connected service_answers serving_socket 1 1).self.os =
        serving_socket.os ++ rx ++
          [Event.getpeername 7,
           Event.gethostname service_answers.write.gethostname_result,
           Event.send 7 (c_str (Socket.write_data_response service_answers.write))
             (Socket.write_data_response service_answers.write).length
             service_answers.write.send_result] ++
          close_socket_events shutdown_not_connected 7 ∧
      sends (close_socket_events shutdown_not_connected 7) = [] ∧
      FD_ISSET 7
        (Socket.open_body 4096 shutdown_not_connected service_answers serving_socket 1
          1).self.write_list = false ∧
      (Socket.open_body 4096 shutdown_not_connected service_answers serving_socket 1
          1).self.connections =
        serving_socket.connections.set 1 { socket := INVALID_SOCKET, handle := 0 } ∧
      (Socket.open_body 4096 shutdown_not_connected service_answers serving_socket 1 1).flow =
        Control.next :=
  C6_single_send_then_close 4096 shutdown_not_connected service_answers serving_socket 1 1 ⟨7, 0⟩
    (by decide) (by decide) (by decide) (by decide) (by decide)

/-! ## Lemmas: the candidate loop of `create_socket` -/

theorem create_socket_loop_server_socket (shutdown : SOCKET → ShutdownResult)
    (cs : List addrinfo) (self : Socket) (bind_result : Int) :
    (create_socket_loop shutdown cs self bind_result).1.server_socket = INVALID_SOCKET ↔
      (∀ c ∈ cs, ¬ c.succeeds) ∧ last_socket cs self.server_socket = INVALID_SOCKET := by
  induction cs generalizing self bind_result with
  | nil => simp [create_socket_loop, last_socket]
  | cons p rest ih =>
      unfold create_socket_loop create_socket_iteration
      simp only [last_socket, List.forall_mem_cons]
      by_cases h1 : p.socket_result = INVALID_SOCKET
      · simp [h1, ih, addrinfo.succeeds]
      · by_cases h2 : p.setsockopt_result = SOCKET_ERROR
        · simp [h1, h2, ih, addrinfo.succeeds]
        · by_cases h3 : p.bind_result = SOCKET_ERROR
          · simp [h1, h2, h3, ih, addrinfo.succeeds]
          · simp [h1, h2, h3, addrinfo.succeeds]

theorem create_socket_loop_bind_result (shutdown : SOCKET → ShutdownResult)
    (cs : List addrinfo) (self : Socket) (bind_result : Int) :
    (create_socket_loop shutdown cs self bind_result).2 = SOCKET_ERROR ↔
      (∀ c ∈ cs, ¬ c.succeeds) ∧
        (bind_result = SOCKET_ERROR ∨
          ∃ c ∈ cs, c.opens ∧ c.setsockopt_result ≠ SOCKET_ERROR) := by
  induction cs generalizing self bind_result with
  | nil => simp [create_socket_loop]
  | cons p rest ih =>
      unfold create_socket_loop create_socket_iteration
      simp only [List.forall_mem_cons, List.exists_mem_cons_iff]
      by_cases h1 : p.socket_result = INVALID_SOCKET
      · simp [h1, ih, addrinfo.succeeds, addrinfo.opens]
      · by_cases h2 : p.setsockopt_result = SOCKET_ERROR
        · simp [h1, h2, ih, addrinfo.succeeds, addrinfo.opens]
        · by_cases h3 : p.bind_result = SOCKET_ERROR
          · simp [h1, h2, h3, ih, addrinfo.succeeds, addrinfo.opens]
          · simp [h1, h2, h3, addrinfo.succeeds, addrinfo.opens]

theorem last_socket_eq (cs : List addrinfo) (d : SOCKET) :
    last_socket cs d = match cs.getLast? with
      | none => d
      | some c => c.socket_result := by
  induction cs generalizing d with
  | nil => rfl
  | cons p rest ih =>
      rw [last_socket, ih]
      cases rest with
      | nil => rfl
      | cons q rest =>
          rw [List.getLast?_cons_cons]
          cases h : (q :: rest).getLast? with
          | none => simp at h
          | some c => rfl

theorem lifecycle_append (a b : List Event) : lifecycle (a ++ b) = lifecycle a ++ lifecycle b := by
  simp [lifecycle]

theorem lifecycle_close_socket_events (shutdown : SOCKET → ShutdownResult) (s : SOCKET) :
    lifecycle (close_socket_events shutdown s) = [Life.closed s] := by
  unfold close_socket_events lifecycle
  simp only []
  split_ifs <;> simp [life_of]

theorem opened_then_closed_append (a b : List SOCKET) :
    opened_then_closed (a ++ b) = opened_then_closed a ++ opened_then_closed b := by
  simp [opened_then_closed]

theorem create_socket_iteration_extends (shutdown : SOCKET → ShutdownResult) (p : addrinfo)
    (self : Socket) (bind_result : Int) :
    self.os <+: (create_socket_iteration shutdown p self bind_result).1.os := by
  unfold create_socket_iteration
  simp only [Socket.close_socket]
  split_ifs <;> simp [List.append_assoc]

theorem create_socket_loop_extends (shutdown : SOCKET → ShutdownResult) (cs : List addrinfo)
    (self : Socket) (bind_result : Int) :
    self.os <+: (create_socket_loop shutdown cs self bind_result).1.os := by
  induction cs generalizing self bind_result with
  | nil => exact List.prefix_refl _
  | cons p rest ih =>
      have hp := create_socket_iteration_extends shutdown p self bind_result
      unfold create_socket_loop
      rcases hit : create_socket_iteration shutdown p self bind_result with ⟨s, b, brk⟩
      rw [hit] at hp
      cases brk with
      | true => exact hp
      | false => exact hp.trans (ih s b)

theorem create_socket_iteration_is_open (shutdown : SOCKET → ShutdownResult) (p : addrinfo)
    (self : Socket) (bind_result : Int) :
    (create_socket_iteration shutdown p self bind_result).1.is_open = true ↔
      (create_socket_iteration shutdown p self bind_result).1.server_socket ≠ INVALID_SOCKET := by
  unfold create_socket_iteration
  simp only [Socket.close_socket]
  split_ifs <;> simp_all

theorem create_socket_loop_is_open (shutdown : SOCKET → ShutdownResult) (cs : List addrinfo)
    (self : Socket) (bind_result : Int)
    (h : self.is_open = true ↔ self.server_socket ≠ INVALID_SOCKET) :
    (create_socket_loop shutdown cs self bind_result).1.is_open = true ↔
      (create_socket_loop shutdown cs self bind_result).1.server_socket ≠ INVALID_SOCKET := by
  induction cs generalizing self bind_result with
  | nil => exact h
  | cons p rest ih =>
      have hp := create_socket_iteration_is_open shutdown p self bind_result
      unfold create_socket_loop
      rcases hit : create_socket_iteration shutdown p self bind_result with ⟨s, b, brk⟩
      rw [hit] at hp
      cases brk with
      | true => exact hp
      | false => exact ih s b hp

theorem create_socket_iteration_lifecycle (shutdown : SOCKET → ShutdownResult) (p : addrinfo)
    (self : Socket) (bind_result : Int) (L : List Life)
    (h : lifecycle self.os = L ++ pending self) :
    ∃ ss, lifecycle (create_socket_iteration shutdown p self bind_result).1.os =
      L ++ opened_then_closed ss ++
        pending (create_socket_iteration shutdown p self bind_result).1 := by
  refine ⟨if self.is_open then [self.server_socket] else [], ?_⟩
  have hc := lifecycle_close_socket_events shutdown self.server_socket
  unfold lifecycle at hc
  unfold create_socket_iteration
  simp only [Socket.close_socket]
  cases hopen : self.is_open <;>
    simp only [pending, hopen] at h <;>
    split_ifs <;>
    simp_all [pending, opened_then_closed, lifecycle, life_of]

theorem create_socket_loop_lifecycle (shutdown : SOCKET → ShutdownResult) (cs : List addrinfo)
    (self : Socket) (bind_result : Int) (L : List Life)
    (h : lifecycle self.os = L ++ pending self) :
    ∃ ss, lifecycle (create_socket_loop shutdown cs self bind_result).1.os =
      L ++ opened_then_closed ss ++
        pending (create_socket_loop shutdown cs self bind_result).1 := by
  induction cs generalizing self bind_result L with
  | nil => exact ⟨[], by simpa [create_socket_loop, opened_then_closed] using h⟩
  | cons p rest ih =>
      obtain ⟨ss, hp⟩ := create_socket_iteration_lifecycle shutdown p self bind_result L h
      unfold create_socket_loop
      rcases hit : create_socket_iteration shutdown p self bind_result with ⟨s, b, brk⟩
      rw [hit] at hp
      cases brk with
      | true => exact ⟨ss, hp⟩
      | false =>
          obtain ⟨ss2, h2⟩ := ih s b (L ++ opened_then_closed ss) hp
          exact ⟨ss ++ ss2, by simpa [opened_then_closed_append, List.append_assoc] using h2⟩

/-! ## Lemmas: `create_socket` -/

theorem socket_create_socket_raised_create (shutdown : SOCKET → ShutdownResult)
    (getsockname_result : Int) (self : Socket) (cs : List addrinfo) :
    (Socket.create_socket shutdown getsockname_result self cs).raised =
        some Exception.failed_to_create_socket ↔
      (create_socket_loop shutdown cs { self with server_socket := INVALID_SOCKET }
        SOCKET_NOERROR).1.server_socket = INVALID_SOCKET := by
  unfold Socket.create_socket
  simp only []
  split_ifs <;> simp_all

theorem socket_create_socket_raised_bind (shutdown : SOCKET → ShutdownResult)
    (getsockname_result : Int) (self : Socket) (cs : List addrinfo) :
    (Socket.create_socket shutdown getsockname_result self cs).raised =
        some Exception.failed_to_bind ↔
      (create_socket_loop shutdown cs { self with server_socket := INVALID_SOCKET }
        SOCKET_NOERROR).1.server_socket ≠ INVALID_SOCKET ∧
      (create_socket_loop shutdown cs { self with server_socket := INVALID_SOCKET }
        SOCKET_NOERROR).2 = SOCKET_ERROR := by
  unfold Socket.create_socket
  simp only []
  split_ifs <;> simp_all

theorem windows_create_socket_raised_create (shutdown : SOCKET → ShutdownResult)
    (bound_port : Int) (self : WindowsTcpSocket) (cs : List addrinfo) :
    (WindowsTcpSocket.create_socket shutdown bound_port self cs).raised =
        some Exception.failed_to_create_socket ↔
      (create_socket_loop shutdown cs { self with server_socket := INVALID_SOCKET }
        SOCKET_NOERROR).1.server_socket = INVALID_SOCKET := by
  unfold WindowsTcpSocket.create_socket
  simp only []
  split_ifs <;> simp_all

theorem windows_create_socket_raised_bind (shutdown : SOCKET → ShutdownResult)
    (bound_port : Int) (self : WindowsTcpSocket) (cs : List addrinfo) :
    (WindowsTcpSocket.create_socket shutdown bound_port self cs).raised =
        some Exception.failed_to_bind ↔
      (create_socket_loop shutdown cs { self with server_socket := INVALID_SOCKET }
        SOCKET_NOERROR).1.server_socket ≠ INVALID_SOCKET ∧
      (create_socket_loop shutdown cs { self with server_socket := INVALID_SOCKET }
        SOCKET_NOERROR).2 = SOCKET_ERROR := by
  unfold WindowsTcpSocket.create_socket
  simp only []
  split_ifs <;> simp_all

theorem last_socket_invalid_iff (cs : List addrinfo) :
    last_socket cs INVALID_SOCKET = INVALID_SOCKET ↔ ∀ c, cs.getLast? = some c → ¬ c.opens := by
  rw [last_socket_eq]
  cases h : cs.getLast? with
  | none => simp
  | some c => simp [addrinfo.opens]

theorem loop_socket_invalid_iff (shutdown : SOCKET → ShutdownResult) (self : Socket)
    (cs : List addrinfo) :
    (create_socket_loop shutdown cs { self with server_socket := INVALID_SOCKET }
        SOCKET_NOERROR).1.server_socket = INVALID_SOCKET ↔
      (∀ c ∈ cs, ¬ c.succeeds) ∧ ∀ c, cs.getLast? = some c → ¬ c.opens := by
  rw [create_socket_loop_server_socket, last_socket_invalid_iff]

theorem loop_bind_failed_iff (shutdown : SOCKET → ShutdownResult) (self : Socket)
    (cs : List addrinfo) (hreuse : ∀ c ∈ cs, c.opens → c.setsockopt_result ≠ SOCKET_ERROR) :
    ((create_socket_loop shutdown cs { self with server_socket := INVALID_SOCKET }
        SOCKET_NOERROR).1.server_socket ≠ INVALID_SOCKET ∧
      (create_socket_loop shutdown cs { self with server_socket := INVALID_SOCKET }
        SOCKET_NOERROR).2 = SOCKET_ERROR) ↔
      (∀ c ∈ cs, ¬ c.succeeds) ∧ ∃ c, cs.getLast? = some c ∧ c.opens := by
  rw [Ne, loop_socket_invalid_iff, create_socket_loop_bind_result]
  constructor
  · rintro ⟨h1, h2, _⟩
    refine ⟨h2, ?_⟩
    by_contra hc
    exact h1 ⟨h2, fun c hc1 hc2 => hc ⟨c, hc1, hc2⟩⟩
  · rintro ⟨h1, c, hc1, hc2⟩
    refine ⟨fun h => h.2 c hc1 hc2, h1, Or.inr ⟨c, List.mem_of_getLast?_eq_some hc1, hc2, ?_⟩⟩
    exact hreuse c (List.mem_of_getLast?_eq_some hc1) hc2

/-! ## C7 – C9: `create_socket` -/

/-- C7, the defect: one candidate whose socket opens as descriptor `3` and on which
`setsockopt` fails. No candidate was bound (`bind` is not even called), yet
`create_socket` returns without raising in both implementations, with
`server_socket = 3` and `is_open = true`. -/
theorem C7_create_socket_returns_unbound :
    (¬ ∃ c ∈ [candidate_reuse_fails], c.succeeds) ∧
    Socket.create_socket shutdown_not_connected SOCKET_NOERROR fresh_socket
        [candidate_reuse_fails] =
      { self := { fresh_socket with
          server_socket := 3, is_open := true,
          os := [Event.socket 3, Event.setsockopt 3 SOCKET_ERROR,
            Event.getsockname 3 SOCKET_NOERROR] },
        raised := none } ∧
    WindowsTcpSocket.create_socket shutdown_not_connected 0 fresh_socket
        [candidate_reuse_fails] =
      { self := { fresh_socket with
          server_socket := 3, is_open := true,
          os := [Event.socket 3, Event.setsockopt 3 SOCKET_ERROR, Event.getsockname 3 0] },
        raised := none } := by
  refine ⟨?_, ?_, ?_⟩ <;> decide

/-- C8, refuted as stated: the first candidate opens a socket and fails to bind, the
second fails to open one. A candidate did open a socket and none was bound, yet
the error raised is "Failed to create socket.", not "Failed to bind port/service". -/
theorem C8_counterexample :
    (∃ c ∈ [candidate_bind_fails, candidate_no_socket], c.opens) ∧
    (∀ c ∈ [candidate_bind_fails, candidate_no_socket], c.bind_result = SOCKET_ERROR) ∧
    (Socket.create_socket shutdown_not_connected SOCKET_NOERROR fresh_socket
        [candidate_bind_fails, candidate_no_socket]).raised =
      some Exception.failed_to_create_socket ∧
    (WindowsTcpSocket.create_socket shutdown_not_connected 0 fresh_socket
        [candidate_bind_fails, candidate_no_socket]).raised =
      some Exception.failed_to_create_socket := by
  refine ⟨?_, ?_, ?_, ?_⟩ <;> decide

/-- C8, as amended: `create_socket` (both implementations) raises "Failed to create
socket." if and only if no candidate was opened, reuse-enabled and bound, and the
last candidate, if there is one, failed to open a socket, for every candidate
list; and, when enabling address reuse succeeds on every candidate that opens a
socket, it raises "Failed to bind port/service" if and only if no candidate was
opened, reuse-enabled and bound, and the last candidate opened a socket. -/
theorem C8_failure_classes (shutdown : SOCKET → ShutdownResult)
    (getsockname_result bound_port : Int) (self : Socket) (cs : List addrinfo) :
    (((Socket.create_socket shutdown getsockname_result self cs).raised =
          some Exception.failed_to_create_socket ↔
        (∀ c ∈ cs, ¬ c.succeeds) ∧ ∀ c, cs.getLast? = some c → ¬ c.opens) ∧
      ((∀ c ∈ cs, c.opens → c.setsockopt_result ≠ SOCKET_ERROR) →
        ((Socket.create_socket shutdown getsockname_result self cs).raised =
            some Exception.failed_to_bind ↔
          (∀ c ∈ cs, ¬ c.succeeds) ∧ ∃ c, cs.getLast? = some c ∧ c.opens))) ∧
    (((WindowsTcpSocket.create_socket shutdown bound_port self cs).raised =
          some Exception.failed_to_create_socket ↔
        (∀ c ∈ cs, ¬ c.succeeds) ∧ ∀ c, cs.getLast? = some c → ¬ c.opens) ∧
      ((∀ c ∈ cs, c.opens → c.setsockopt_result ≠ SOCKET_ERROR) →
        ((WindowsTcpSocket.create_socket shutdown bound_port self cs).raised =
            some Exception.failed_to_bind ↔
          (∀ c ∈ cs, ¬ c.succeeds) ∧ ∃ c, cs.getLast? = some c ∧ c.opens))) := by
  refine ⟨⟨?_, fun hreuse => ?_⟩, ?_, fun hreuse => ?_⟩
  · rw [socket_create_socket_raised_create, loop_socket_invalid_iff]
  · rw [socket_create_socket_raised_bind, loop_bind_failed_iff shutdown self cs hreuse]
  · rw [windows_create_socket_raised_create, loop_socket_invalid_iff]
  · rw [windows_create_socket_raised_bind, loop_bind_failed_iff shutdown self cs hreuse]

theorem opened_of_opened_then_closed (ss : List SOCKET) :
    (opened_then_closed ss).filterMap Life.opening = ss := by
  induction ss with
  | nil => rfl
  | cons s ss ih =>
      unfold opened_then_closed at ih ⊢
      simp [ih, Life.opening]

theorem closed_of_opened_then_closed (ss : List SOCKET) :
    (opened_then_closed ss).filterMap Life.closing = ss := by
  induction ss with
  | nil => rfl
  | cons s ss ih =>
      unfold opened_then_closed at ih ⊢
      simp [ih, Life.closing]

/-- A trace whose openings and closings pair up: the sockets closed are the sockets
opened, each closed right after it was opened. -/
theorem paired_of_lifecycle (os : List Event) (ss : List SOCKET)
    (h : lifecycle os = opened_then_closed ss) :
    lifecycle os = opened_then_closed (opened_sockets os) ∧
      closed_sockets os = opened_sockets os := by
  have ho : opened_sockets os = ss := by
    rw [opened_sockets, h, opened_of_opened_then_closed]
  have hc : closed_sockets os = ss := by
    rw [closed_sockets, h, closed_of_opened_then_closed]
  rw [ho, hc]
  exact ⟨h, rfl⟩

theorem lifecycle_new_of_extends (before after : List Event) (L : List Life)
    (hp : before <+: after) (h : lifecycle after = lifecycle before ++ L) :
    lifecycle (after.drop before.length) = L := by
  obtain ⟨new, rfl⟩ := hp
  rw [lifecycle_append] at h
  rw [List.drop_left]
  exact List.append_cancel_left h

/-- The state in which the candidate loop of `create_socket` ends when the function
is entered with `is_open = false`: the trace extends the old one, every socket
opened was closed again except the listening socket while `is_open` holds, and
`is_open` holds exactly when the listening socket is valid. -/
theorem create_socket_loop_entry (shutdown : SOCKET → ShutdownResult) (self : Socket)
    (cs : List addrinfo) (hentry : self.is_open = false) :
    self.os <+: (create_socket_loop shutdown cs { self with server_socket := INVALID_SOCKET }
        SOCKET_NOERROR).1.os ∧
    ((create_socket_loop shutdown cs { self with server_socket := INVALID_SOCKET }
        SOCKET_NOERROR).1.is_open = true ↔
      (create_socket_loop shutdown cs { self with server_socket := INVALID_SOCKET }
        SOCKET_NOERROR).1.server_socket ≠ INVALID_SOCKET) ∧
    ∃ ss, lifecycle (create_socket_loop shutdown cs { self with server_socket := INVALID_SOCKET }
        SOCKET_NOERROR).1.os =
      lifecycle self.os ++ opened_then_closed ss ++
        pending (create_socket_loop shutdown cs { self with server_socket := INVALID_SOCKET }
          SOCKET_NOERROR).1 := by
  refine ⟨?_, ?_, ?_⟩
  · exact create_socket_loop_extends shutdown cs { self with server_socket := INVALID_SOCKET } _
  · apply create_socket_loop_is_open
    simp [hentry]
  · apply create_socket_loop_lifecycle
    simp [pending, hentry]

theorem socket_create_socket_cleanup (shutdown : SOCKET → ShutdownResult)
    (getsockname_result : Int) (self : Socket) (cs : List addrinfo)
    (hentry : self.is_open = false)
    (hraised : (Socket.create_socket shutdown getsockname_result self cs).raised =
        some Exception.failed_to_create_socket ∨
      (Socket.create_socket shutdown getsockname_result self cs).raised =
        some Exception.failed_to_bind) :
    (∃ ss, lifecycle ((Socket.create_socket shutdown getsockname_result self cs).new_os self) =
      opened_then_closed ss) ∧
    (Socket.create_socket shutdown getsockname_result self cs).self.is_open = false := by
  obtain ⟨hp, hk, ss, hl⟩ := create_socket_loop_entry shutdown self cs hentry
  unfold Outcome.new_os
  unfold Socket.create_socket at hraised ⊢
  simp only [] at hraised ⊢
  split_ifs at hraised ⊢ with h1 h2 h3
  · have hclosed : (create_socket_loop shutdown cs { self with server_socket := INVALID_SOCKET }
        SOCKET_NOERROR).1.is_open = false := by
      rw [← Bool.not_eq_true, hk]
      simpa using h1
    refine ⟨⟨ss, ?_⟩, hclosed⟩
    apply lifecycle_new_of_extends _ _ _ hp
    simpa [pending, hclosed, List.append_assoc] using hl
  · have hopen := hk.mpr h1
    refine ⟨⟨ss ++ [(create_socket_loop shutdown cs { self with server_socket := INVALID_SOCKET }
        SOCKET_NOERROR).1.server_socket], ?_⟩, rfl⟩
    apply lifecycle_new_of_extends
    · exact hp.trans (by simp [Socket.close_socket])
    · simp [Socket.close_socket, lifecycle_append, lifecycle_close_socket_events, hl, pending,
        hopen, opened_then_closed_append, opened_then_closed, List.append_assoc]
  · simp at hraised
  · simp at hraised

theorem windows_create_socket_cleanup (shutdown : SOCKET → ShutdownResult)
    (bound_port : Int) (self : WindowsTcpSocket) (cs : List addrinfo)
    (hentry : self.is_open = false)
    (hraised : (WindowsTcpSocket.create_socket shutdown bound_port self cs).raised =
        some Exception.failed_to_create_socket ∨
      (WindowsTcpSocket.create_socket shutdown bound_port self cs).raised =
        some Exception.failed_to_bind) :
    (∃ ss, lifecycle ((WindowsTcpSocket.create_socket shutdown bound_port self cs).new_os self) =
      opened_then_closed ss) ∧
    (WindowsTcpSocket.create_socket shutdown bound_port self cs).self.is_open = false := by
  obtain ⟨hp, hk, ss, hl⟩ := create_socket_loop_entry shutdown self cs hentry
  unfold Outcome.new_os
  unfold WindowsTcpSocket.create_socket at hraised ⊢
  simp only [] at hraised ⊢
  split_ifs at hraised ⊢ with h1 h2 h3
  · have hclosed : (create_socket_loop shutdown cs { self with server_socket := INVALID_SOCKET }
        SOCKET_NOERROR).1.is_open = false := by
      rw [← Bool.not_eq_true, hk]
      simpa using h1
    refine ⟨⟨ss, ?_⟩, hclosed⟩
    apply lifecycle_new_of_extends _ _ _ hp
    simpa [pending, hclosed, List.append_assoc] using hl
  · have hopen := hk.mpr h1
    refine ⟨⟨ss ++ [(create_socket_loop shutdown cs { self with server_socket := INVALID_SOCKET }
        SOCKET_NOERROR).1.server_socket], ?_⟩, rfl⟩
    apply lifecycle_new_of_extends
    · exact hp.trans (by simp [Socket.close_socket])
    · simp [Socket.close_socket, lifecycle_append, lifecycle_close_socket_events, hl, pending,
        hopen, opened_then_closed_append, opened_then_closed, List.append_assoc]
  · simp at hraised
  · simp at hraised

/-- C8, witness: a first candidate that opens a socket and fails to bind, then a
second of the same kind: "Failed to bind port/service" is raised. A first
candidate on which enabling address reuse fails, then one that fails to open a
socket: "Failed to create socket." is raised. -/
theorem C8_failure_classes_witness :
    ((Socket.create_socket shutdown_not_connected SOCKET_NOERROR fresh_socket
        [candidate_bind_fails, candidate_bind_fails]).raised = some Exception.failed_to_bind ∧
      (∀ c ∈ [candidate_bind_fails, candidate_bind_fails], ¬ c.succeeds) ∧
      ∃ c, [candidate_bind_fails, candidate_bind_fails].getLast? = some c ∧ c.opens) ∧
    ((Socket.create_socket shutdown_not_connected SOCKET_NOERROR fresh_socket
        [candidate_reuse_fails, candidate_no_socket]).raised =
        some Exception.failed_to_create_socket ∧
      (WindowsTcpSocket.create_socket shutdown_not_connected 0 fresh_socket
        [candidate_reuse_fails, candidate_no_socket]).raised =
        some Exception.failed_to_create_socket) :=
  ⟨⟨by decide,
    ((C8_failure_classes shutdown_not_connected SOCKET_NOERROR 0 fresh_socket
      [candidate_bind_fails, candidate_bind_fails]).1.2 (by decide)).mp (by decide)⟩,
    (C8_failure_classes shutdown_not_connected SOCKET_NOERROR 0 fresh_socket
      [candidate_reuse_fails, candidate_no_socket]).1.1.mpr (by decide),
    (C8_failure_classes shutdown_not_connected SOCKET_NOERROR 0 fresh_socket
      [candidate_reuse_fails, candidate_no_socket]).2.1.mpr (by decide)⟩

/-- C9, refuted as stated: entered with `is_open = false`, the single candidate is
opened as descriptor `3` and bound, then the port lookup of `get_bound_port` fails:
`create_socket` exits by raising "Unable to get bound port." with the socket it
opened not passed to `close_socket` and `is_open` true. -/
theorem C9_counterexample :
    fresh_socket.is_open = false ∧
    (Socket.create_socket shutdown_not_connected SOCKET_ERROR fresh_socket
      [candidate_bound]).raised = some Exception.unable_to_get_bound_port ∧
    opened_sockets ((Socket.create_socket shutdown_not_connected SOCKET_ERROR fresh_socket
      [candidate_bound]).new_os fresh_socket) = [3] ∧
    closed_sockets ((Socket.create_socket shutdown_not_connected SOCKET_ERROR fresh_socket
      [candidate_bound]).new_os fresh_socket) = [] ∧
    (Socket.create_socket shutdown_not_connected SOCKET_ERROR fresh_socket
      [candidate_bound]).self.is_open = true := by
  refine ⟨?_, ?_, ?_, ?_, ?_⟩ <;> decide

/-- C9, as amended: when `create_socket` (either implementation) is entered with
`is_open = false` and exits by raising "Failed to create socket." or "Failed to bind
port/service", the openings and closings it made pair up, every socket it opened
being passed to `close_socket` once, before the next one is opened and before the
error is raised; the sockets closed are exactly the sockets opened; and `is_open` is
false on exit. -/
theorem C9_cleanup_before_failure (shutdown : SOCKET → ShutdownResult)
    (getsockname_result bound_port : Int) (self : Socket) (cs : List addrinfo)
    (hentry : self.is_open = false) :
    (((Socket.create_socket shutdown getsockname_result self cs).raised =
          some Exception.failed_to_create_socket ∨
        (Socket.create_socket shutdown getsockname_result self cs).raised =
          some Exception.failed_to_bind) →
      lifecycle ((Socket.create_socket shutdown getsockname_result self cs).new_os self) =
        opened_then_closed
          (opened_sockets ((Socket.create_socket shutdown getsockname_result self cs).new_os self)) ∧
      closed_sockets ((Socket.create_socket shutdown getsockname_result self cs).new_os self) =
        opened_sockets ((Socket.create_socket shutdown getsockname_result self cs).new_os self) ∧
      (Socket.create_socket shutdown getsockname_result self cs).self.is_open = false) ∧
    (((WindowsTcpSocket.create_socket shutdown bound_port self cs).raised =
          some Exception.failed_to_create_socket ∨
        (WindowsTcpSocket.create_socket shutdown bound_port self cs).raised =
          some Exception.failed_to_bind) →
      lifecycle ((WindowsTcpSocket.create_socket shutdown bound_port self cs).new_os self) =
        opened_then_closed
          (opened_sockets ((WindowsTcpSocket.create_socket shutdown bound_port self cs).new_os self)) ∧
      closed_sockets ((WindowsTcpSocket.create_socket shutdown bound_port self cs).new_os self) =
        opened_sockets ((WindowsTcpSocket.create_socket shutdown bound_port self cs).new_os self) ∧
      (WindowsTcpSocket.create_socket shutdown bound_port self cs).self.is_open = false) := by
  constructor
  · intro hraised
    obtain ⟨⟨ss, hss⟩, hopen⟩ :=
      socket_create_socket_cleanup shutdown getsockname_result self cs hentry hraised
    obtain ⟨h1, h2⟩ := paired_of_lifecycle _ ss hss
    exact ⟨h1, h2, hopen⟩
  · intro hraised
    obtain ⟨⟨ss, hss⟩, hopen⟩ :=
      windows_create_socket_cleanup shutdown bound_port self cs hentry hraised
    obtain ⟨h1, h2⟩ := paired_of_lifecycle _ ss hss
    exact ⟨h1, h2, hopen⟩

/-- C9, witness: two candidates that open descriptor `3` and fail to bind; the error
is "Failed to bind port/service", descriptor `3` was opened twice and closed twice,
each time right after it was opened. -/
theorem C9_cleanup_before_failure_witness :
    fresh_socket.is_open = false ∧
    opened_sockets ((Socket.create_socket shutdown_not_connected SOCKET_NOERROR fresh_socket
      [candidate_bind_fails, candidate_bind_fails]).new_os fresh_socket) = [3, 3] ∧
    (lifecycle ((Socket.create_socket shutdown_not_connected SOCKET_NOERROR fresh_socket
        [candidate_bind_fails, candidate_bind_fails]).new_os fresh_socket) =
      opened_then_closed
        (opened_sockets ((Socket.create_socket shutdown_not_connected SOCKET_NOERROR fresh_socket
          [candidate_bind_fails, candidate_bind_fails]).new_os fresh_socket)) ∧
    closed_sockets ((Socket.create_socket shutdown_not_connected SOCKET_NOERROR fresh_socket
        [candidate_bind_fails, candidate_bind_fails]).new_os fresh_socket) =
      opened_sockets ((Socket.create_socket shutdown_not_connected SOCKET_NOERROR fresh_socket
        [candidate_bind_fails, candidate_bind_fails]).new_os fresh_socket) ∧
    (Socket.create_socket shutdown_not_connected SOCKET_NOERROR fresh_socket
      [candidate_bind_fails, candidate_bind_fails]).self.is_open = false) :=
  ⟨by decide, by decide,
    (C9_cleanup_before_failure shutdown_not_connected SOCKET_NOERROR 0 fresh_socket
      [candidate_bind_fails, candidate_bind_fails] (by decide)).1 (Or.inr (by decide))⟩

/-! ## C10: `listen` -/

set_option maxRecDepth 100000

/-! ## Lemmas: the readiness sets -/

theorem mem_FD_SET (s x : SOCKET) (set : fd_set) : s ∈ FD_SET x set ↔ s = x ∨ s ∈ set := by
  unfold FD_SET
  split_ifs with h
  · constructor
    · exact Or.inr
    · rintro (rfl | h2)
      · exact h
      · exact h2
  · simp [or_comm]

theorem or_rotate_left_right (a b c : Prop) : ((a ∨ b) ∨ c) ↔ (b ∨ a ∨ c) := by
  tauto

theorem reset_loop_mem (cs : List Connection) (read_list write_list : fd_set) (s : SOCKET) :
    (s ∈ (reset_loop cs (read_list, write_list)).1 ↔ s ∈ read_list ∨ ∃ c ∈ cs, c.socket = s) ∧
    (s ∈ (reset_loop cs (read_list, write_list)).2 ↔ s ∈ write_list ∨ ∃ c ∈ cs, c.socket = s) := by
  induction cs generalizing read_list write_list with
  | nil => simp [reset_loop]
  | cons c rest ih =>
      rw [reset_loop]
      obtain ⟨h1, h2⟩ := ih (FD_SET c.socket read_list) (FD_SET c.socket write_list)
      rw [h1, h2, mem_FD_SET, mem_FD_SET]
      simp only [List.exists_mem_cons_iff]
      have e : s = c.socket ↔ c.socket = s := eq_comm
      rw [e]
      exact ⟨or_rotate_left_right _ _ _, or_rotate_left_right _ _ _⟩

theorem socket_reset_connections (self : Socket) :
    self.reset_socket_lists.connections =
      self.connections.filter (fun c => decide (c.socket ≠ INVALID_SOCKET)) := by
  unfold Socket.reset_socket_lists
  simp [closed]

theorem socket_reset_lists (self : Socket) (s : SOCKET) :
    (s ∈ self.reset_socket_lists.read_list ↔
      ∃ c ∈ self.reset_socket_lists.connections, c.socket = s) ∧
    (s ∈ self.reset_socket_lists.write_list ↔
      ∃ c ∈ self.reset_socket_lists.connections, c.socket = s) := by
  have h := reset_loop_mem (self.connections.filter (fun c => !closed c)) FD_ZERO FD_ZERO s
  unfold Socket.reset_socket_lists
  simpa [FD_ZERO] using h

theorem windows_reset_eq (self : Socket) :
    WindowsTcpSocket.reset_socket_lists self = Socket.reset_socket_lists self := rfl

/-! ## C11: the per-cycle cleanup -/

/-- C11: after `reset_socket_lists` (both implementations) the connection set holds
exactly the entries whose socket was not `INVALID_SOCKET`, in their original
order, and the read set and the write set each hold exactly the sockets of those
remaining entries. -/
theorem C11_reset_socket_lists (self : Socket) :
    (self.reset_socket_lists.connections =
        self.connections.filter (fun c => decide (c.socket ≠ INVALID_SOCKET)) ∧
      (∀ c ∈ self.reset_socket_lists.connections, c.socket ≠ INVALID_SOCKET) ∧
      (∀ s, s ∈ self.reset_socket_lists.read_list ↔
        ∃ c ∈ self.reset_socket_lists.connections, c.socket = s) ∧
      (∀ s, s ∈ self.reset_socket_lists.write_list ↔
        ∃ c ∈ self.reset_socket_lists.connections, c.socket = s)) ∧
    ((WindowsTcpSocket.reset_socket_lists self).connections =
        self.connections.filter (fun c => decide (c.socket ≠ INVALID_SOCKET)) ∧
      (∀ c ∈ (WindowsTcpSocket.reset_socket_lists self).connections,
        c.socket ≠ INVALID_SOCKET) ∧
      (∀ s, s ∈ (WindowsTcpSocket.reset_socket_lists self).read_list ↔
        ∃ c ∈ (WindowsTcpSocket.reset_socket_lists self).connections, c.socket = s) ∧
      (∀ s, s ∈ (WindowsTcpSocket.reset_socket_lists self).write_list ↔
        ∃ c ∈ (WindowsTcpSocket.reset_socket_lists self).connections, c.socket = s)) := by
  have key : self.reset_socket_lists.connections =
        self.connections.filter (fun c => decide (c.socket ≠ INVALID_SOCKET)) ∧
      (∀ c ∈ self.reset_socket_lists.connections, c.socket ≠ INVALID_SOCKET) ∧
      (∀ s, s ∈ self.reset_socket_lists.read_list ↔
        ∃ c ∈ self.reset_socket_lists.connections, c.socket = s) ∧
      (∀ s, s ∈ self.reset_socket_lists.write_list ↔
        ∃ c ∈ self.reset_socket_lists.connections, c.socket = s) := by
    refine ⟨socket_reset_connections self, ?_, fun s => (socket_reset_lists self s).1,
      fun s => (socket_reset_lists self s).2⟩
    intro c hc
    rw [socket_reset_connections, List.mem_filter] at hc
    simpa using hc.2
  rw [windows_reset_eq]
  exact ⟨key, key⟩

/-! ## Lemmas: `get_last_socket` -/

theorem to_unsigned_valid (width : Nat) (s : Int) (hw : 32 ≤ width)
    (h : valid_descriptor s) :
    (to_unsigned width s : Int) = s ∧ to_unsigned width s < 2147483647 := by
  obtain ⟨h0, h1⟩ := h
  have hpow : (2 : Int) ^ 31 ≤ (2 : Int) ^ width :=
    pow_le_pow_right₀ (by norm_num) (by omega)
  have h31 : (2 : Int) ^ 31 = 2147483648 := by norm_num
  rw [h31] at hpow
  have hmod : s % (2 : Int) ^ width = s := Int.emod_eq_of_lt h0 (by omega)
  unfold to_unsigned
  rw [hmod]
  constructor
  · exact Int.toNat_of_nonneg h0
  · omega

theorem last_socket_loop_valid (width : Nat) (hw : 32 ≤ width) (cs : List Connection)
    (last : Nat) (hlast : last < 2147483647) (hcs : ∀ c ∈ cs, valid_descriptor c.socket) :
    last ≤ last_socket_loop width cs last ∧
    (∀ c ∈ cs, c.socket ≤ (last_socket_loop width cs last : Int)) ∧
    (last_socket_loop width cs last = last ∨
      ∃ c ∈ cs, (last_socket_loop width cs last : Int) = c.socket) ∧
    last_socket_loop width cs last < 2147483647 := by
  induction cs generalizing last with
  | nil => simp [last_socket_loop, hlast]
  | cons c rest ih =>
      have hc := to_unsigned_valid width c.socket hw (hcs c (List.mem_cons_self _ _))
      have hrest : ∀ x ∈ rest, valid_descriptor x.socket :=
        fun x hx => hcs x (List.mem_cons_of_mem _ hx)
      have hmod : to_unsigned width c.socket % 2 ^ 32 = to_unsigned width c.socket := by
        apply Nat.mod_eq_of_lt
        have := hc.2
        norm_num
        omega
      rw [last_socket_loop]
      split_ifs with hgt
      · rw [hmod]
        obtain ⟨h1, h2, h3, h4⟩ := ih (to_unsigned width c.socket) hc.2 hrest
        refine ⟨by omega, ?_, ?_, h4⟩
        · intro x hx
          rcases List.mem_cons.mp hx with rfl | hx
          · have h1c : (to_unsigned width x.socket : Int) ≤
                (last_socket_loop width rest (to_unsigned width x.socket) : Int) := by
              exact_mod_cast h1
            exact le_of_eq_of_le hc.1.symm h1c
          · exact h2 x hx
        · rcases h3 with h3 | ⟨x, hx, h3⟩
          · right
            exact ⟨c, List.mem_cons_self _ _, by rw [h3]; exact hc.1⟩
          · right
            exact ⟨x, List.mem_cons_of_mem _ hx, h3⟩
      · obtain ⟨h1, h2, h3, h4⟩ := ih last hlast hrest
        refine ⟨h1, ?_, ?_, h4⟩
        · intro x hx
          rcases List.mem_cons.mp hx with rfl | hx
          · have h1c : (to_unsigned width x.socket : Int) ≤
                (last_socket_loop width rest last : Int) := by
              have : to_unsigned width x.socket ≤ last_socket_loop width rest last := by omega
              exact_mod_cast this
            exact le_of_eq_of_le hc.1.symm h1c
          · exact h2 x hx
        · rcases h3 with h3 | ⟨x, hx, h3⟩
          · left
            exact h3
          · right
            exact ⟨x, List.mem_cons_of_mem _ hx, h3⟩

theorem socket_reset_server_socket (self : Socket) :
    self.reset_socket_lists.server_socket = self.server_socket := rfl

theorem socket_reset_os (self : Socket) : self.reset_socket_lists.os = self.os := rfl

theorem socket_reset_valid (self : Socket)
    (hentries : ∀ c ∈ self.connections, c.socket = INVALID_SOCKET ∨ valid_descriptor c.socket) :
    ∀ c ∈ self.reset_socket_lists.connections, valid_descriptor c.socket := by
  intro c hc
  rw [socket_reset_connections, List.mem_filter] at hc
  rcases hentries c hc.1 with h | h
  · simp [h] at hc
  · exact h

theorem get_last_socket_valid (width : Nat) (hw : 32 ≤ width) (self : Socket)
    (hserver : valid_descriptor self.server_socket)
    (hentries : ∀ c ∈ self.connections, valid_descriptor c.socket) :
    self.server_socket ≤ (WindowsTcpSocket.get_last_socket width self : Int) ∧
    (∀ c ∈ self.connections, c.socket ≤ (WindowsTcpSocket.get_last_socket width self : Int)) ∧
    ((WindowsTcpSocket.get_last_socket width self : Int) = self.server_socket ∨
      ∃ c ∈ self.connections, (WindowsTcpSocket.get_last_socket width self : Int) = c.socket) ∧
    WindowsTcpSocket.get_last_socket width self < 2147483647 := by
  have hs := to_unsigned_valid width self.server_socket hw hserver
  have hmod : to_unsigned width self.server_socket % 2 ^ 32 =
      to_unsigned width self.server_socket := by
    apply Nat.mod_eq_of_lt
    have := hs.2
    norm_num
    omega
  unfold WindowsTcpSocket.get_last_socket
  rw [hmod]
  obtain ⟨h1, h2, h3, h4⟩ :=
    last_socket_loop_valid width hw self.connections (to_unsigned width self.server_socket)
      hs.2 hentries
  refine ⟨?_, h2, ?_, h4⟩
  · have h1c : (to_unsigned width self.server_socket : Int) ≤
        (last_socket_loop width self.connections (to_unsigned width self.server_socket) : Int) := by
      exact_mod_cast h1
    exact le_of_eq_of_le hs.1.symm h1c
  · rcases h3 with h3 | h3
    · left
      rw [h3]
      exact hs.1
    · right
      exact h3

theorem socket_get_last_socket_eq (self : Socket) :
    self.get_last_socket = WindowsTcpSocket.get_last_socket 32 self := rfl

/-! ## C12: the descriptor count of `select` -/

/-- C12, refuted as stated: with `INVALID_SOCKET` as the listening socket value and
an entry for descriptor `5`, `get_last_socket` returns `4294967295`, which is
neither of the two socket values, and the count `last_socket + 1` wraps around to
`0`, which is not greater than the descriptor `5` of the read set. -/
theorem C12_counterexample :
    unbound_socket.reset_socket_lists.get_last_socket = 4294967295 ∧
    unbound_socket.reset_socket_lists.read_list = [5] ∧
    unbound_socket.reset_socket_lists.select_nfds = 0 ∧
    (Socket.select shutdown_not_connected ⟨1, [5], []⟩ unbound_socket).self.os =
      [Event.select 0 [5] [5] 1] := by
  refine ⟨?_, ?_, ?_, ?_⟩ <;> decide

/-- C12, as amended: when the listening socket is a valid descriptor and every
entry of the connection set is a valid descriptor or `INVALID_SOCKET`, then
`get_last_socket`, applied as `select` applies it to the set left by
`reset_socket_lists`, returns a value that is greater than or equal to the
listening socket and to the socket of every entry, and equal to one of them (in
`WindowsTcpSocket` it returns the same value, for a `SOCKET` type of 32 bits or
more); the count `last_socket + 1` that `select` passes to the OS does not wrap
around and is strictly greater than every descriptor of the read set and of the
write set. -/
theorem C12_descriptor_count (width : Nat) (shutdown : SOCKET → ShutdownResult)
    (answer : SelectAnswer) (self : Socket) (hw : 32 ≤ width)
    (hserver : valid_descriptor self.server_socket)
    (hentries : ∀ c ∈ self.connections,
      c.socket = INVALID_SOCKET ∨ valid_descriptor c.socket) :
    (self.server_socket ≤ (self.reset_socket_lists.get_last_socket : Int) ∧
      (∀ c ∈ self.reset_socket_lists.connections,
        c.socket ≤ (self.reset_socket_lists.get_last_socket : Int)) ∧
      ((self.reset_socket_lists.get_last_socket : Int) = self.server_socket ∨
        ∃ c ∈ self.reset_socket_lists.connections,
          (self.reset_socket_lists.get_last_socket : Int) = c.socket)) ∧
    WindowsTcpSocket.get_last_socket width (WindowsTcpSocket.reset_socket_lists self) =
      self.reset_socket_lists.get_last_socket ∧
    (self.reset_socket_lists.select_nfds = self.reset_socket_lists.get_last_socket + 1 ∧
      (∀ s ∈ self.reset_socket_lists.read_list,
        s < (self.reset_socket_lists.select_nfds : Int)) ∧
      (∀ s ∈ self.reset_socket_lists.write_list,
        s < (self.reset_socket_lists.select_nfds : Int)) ∧
      ∃ rest, (Socket.select shutdown answer self).self.os =
        self.os ++ Event.select (self.reset_socket_lists.get_last_socket + 1)
          self.reset_socket_lists.read_list self.reset_socket_lists.write_list
          answer.result :: rest) := by
  have hvalid := socket_reset_valid self hentries
  have hserver2 : valid_descriptor self.reset_socket_lists.server_socket := hserver
  obtain ⟨a1, a2, a3, a4⟩ := get_last_socket_valid 32 (le_refl _) self.reset_socket_lists
    hserver2 hvalid
  obtain ⟨b1, b2, b3, b4⟩ := get_last_socket_valid width hw self.reset_socket_lists
    hserver2 hvalid
  rw [← socket_get_last_socket_eq] at a1 a2 a3 a4
  have hnfds : self.reset_socket_lists.select_nfds =
      self.reset_socket_lists.get_last_socket + 1 := by
    unfold Socket.select_nfds
    apply Nat.mod_eq_of_lt
    norm_num
    omega
  have hbelow : ∀ s, (∃ c ∈ self.reset_socket_lists.connections, c.socket = s) →
      s < (self.reset_socket_lists.select_nfds : Int) := by
    rintro s ⟨c, hc, rfl⟩
    have := a2 c hc
    rw [hnfds]
    push_cast
    exact Int.lt_add_one_iff.mpr this
  refine ⟨⟨a1, a2, a3⟩, ?_, hnfds, ?_, ?_, ?_⟩
  · rw [windows_reset_eq]
    have hmax : ∀ (x y : Nat), (self.server_socket ≤ (x : Int) ∧
        (∀ c ∈ self.reset_socket_lists.connections, c.socket ≤ (x : Int)) ∧
        ((x : Int) = self.server_socket ∨
          ∃ c ∈ self.reset_socket_lists.connections, (x : Int) = c.socket)) →
        (self.server_socket ≤ (y : Int) ∧
        (∀ c ∈ self.reset_socket_lists.connections, c.socket ≤ (y : Int)) ∧
        ((y : Int) = self.server_socket ∨
          ∃ c ∈ self.reset_socket_lists.connections, (y : Int) = c.socket)) → x ≤ y := by
      rintro x y ⟨_, _, hx3⟩ ⟨hy1, hy2, _⟩
      rcases hx3 with hx3 | ⟨c, hc, hx3⟩
      · have : (x : Int) ≤ (y : Int) := hx3 ▸ hy1
        exact_mod_cast this
      · have : (x : Int) ≤ (y : Int) := hx3 ▸ hy2 c hc
        exact_mod_cast this
    exact Nat.le_antisymm (hmax _ _ ⟨b1, b2, b3⟩ ⟨a1, a2, a3⟩) (hmax _ _ ⟨a1, a2, a3⟩ ⟨b1, b2, b3⟩)
  · intro s hs
    exact hbelow s ((socket_reset_lists self s).1.mp hs)
  · intro s hs
    exact hbelow s ((socket_reset_lists self s).2.mp hs)
  · unfold Socket.select
    simp only [hnfds, socket_reset_os]
    split_ifs
    · exact ⟨close_socket_events shutdown self.reset_socket_lists.server_socket, by
        simp [Socket.close_socket, socket_reset_os]⟩
    · exact ⟨[], rfl⟩

/-- C12, witness: a listener on descriptor `4` with a peer on descriptor `7`; the
highest descriptor is `7` and the count passed is `8`. -/
theorem C12_descriptor_count_witness :
    serving_socket.reset_socket_lists.get_last_socket = 7 ∧
    serving_socket.reset_socket_lists.select_nfds =
      serving_socket.reset_socket_lists.get_last_socket + 1 ∧
    WindowsTcpSocket.get_last_socket 64 (WindowsTcpSocket.reset_socket_lists serving_socket) =
      serving_socket.reset_socket_lists.get_last_socket :=
  ⟨by decide,
    (C12_descriptor_count 64 shutdown_not_connected ⟨1, [7], [7]⟩ serving_socket (by decide)
      (by decide) (by decide)).2.2.1,
    (C12_descriptor_count 64 shutdown_not_connected ⟨1, [7], [7]⟩ serving_socket (by decide)
      (by decide) (by decide)).2.1⟩

/-! ## C13: `select` -/

/-- C13: `select` returns `true` exactly when the readiness wait returned `0`, and
`open` then makes no further call in that cycle; it returns `false` when the wait
returned a positive value; when the wait returned the error value it calls
`close_socket` on the listening socket once and then raises "Failed to poll
connections.", which also ends `open`. -/
theorem C13_select (MAX_INPUT : Nat) (shutdown : SOCKET → ShutdownResult) (io : CycleIO)
    (self : Socket) (ceiling : Nat) :
    (((Socket.select shutdown io.select self).raised = none ∧
        (Socket.select shutdown io.select self).timed_out = true) ↔ io.select.result = 0) ∧
    (io.select.result = 0 →
      (Socket.select shutdown io.select self).self.os =
        self.os ++ [Event.select self.reset_socket_lists.select_nfds
          self.reset_socket_lists.read_list self.reset_socket_lists.write_list 0] ∧
      Socket.open_cycle MAX_INPUT shutdown io self ceiling =
        { self := (Socket.select shutdown io.select self).self, ceiling := ceiling,
          flow := Control.next }) ∧
    (0 < io.select.result →
      (Socket.select shutdown io.select self).raised = none ∧
      (Socket.select shutdown io.select self).timed_out = false) ∧
    (io.select.result = SOCKET_ERROR →
      (Socket.select shutdown io.select self).raised = some Exception.failed_to_poll ∧
      (Socket.select shutdown io.select self).self.os =
        self.os ++ [Event.select self.reset_socket_lists.select_nfds
          self.reset_socket_lists.read_list self.reset_socket_lists.write_list SOCKET_ERROR] ++
          close_socket_events shutdown self.server_socket ∧
      closed_sockets ((Socket.select shutdown io.select self).self.os.drop self.os.length) =
        [self.server_socket] ∧
      (Socket.open_cycle MAX_INPUT shutdown io self ceiling).flow =
        Control.raised Exception.failed_to_poll) := by
  refine ⟨?_, ?_, ?_, ?_⟩
  · unfold Socket.select
    simp only []
    split_ifs with h
    · simp [h, SOCKET_ERROR]
    · simp
  · intro h
    have h0 : ¬ (0 : Int) = SOCKET_ERROR := by decide
    constructor
    · simp [Socket.select, h, h0, socket_reset_os]
    · simp [Socket.open_cycle, Socket.select, h, h0]
  · intro h
    have h2 : ¬ io.select.result = SOCKET_ERROR := by
      intro e
      rw [e] at h
      exact absurd h (by decide)
    have h3 : ¬ io.select.result = 0 := by omega
    simp [Socket.select, h2, h3]
  · intro h
    have hl := lifecycle_close_socket_events shutdown self.server_socket
    unfold lifecycle at hl
    refine ⟨?_, ?_, ?_, ?_⟩
    · simp [Socket.select, h]
    · simp [Socket.select, h, Socket.close_socket, socket_reset_os, socket_reset_server_socket]
    · simp [Socket.select, h, Socket.close_socket, socket_reset_os, socket_reset_server_socket,
        closed_sockets, lifecycle_append, hl, lifecycle, life_of, Life.closing]
    · simp [Socket.open_cycle, Socket.select, h]

/-! ## C14: `handle_connection` -/

/-- C14: `handle_connection` makes exactly one `accept` call; if it returns a valid
descriptor, the connection set is the old one followed by one entry for that
descriptor, so that a descriptor that was not in the set is in it exactly once,
as the last entry; if it returns `INVALID_SOCKET`, "Failed to accept from client."
is raised and the connection set and the read set are unchanged. -/
theorem C14_handle_connection (answer : AcceptAnswer) (self : Socket) :
    (Socket.handle_connection answer self).new_os self =
      [Event.accept self.server_socket answer.client] ∧
    (answer.client ≠ INVALID_SOCKET →
      (Socket.handle_connection answer self).raised = none ∧
      (Socket.handle_connection answer self).self.connections =
        self.connections ++ [{ socket := answer.client, handle := 0 }] ∧
      ((∀ c ∈ self.connections, c.socket ≠ answer.client) →
        List.countP (fun c => decide (c.socket = answer.client))
          (Socket.handle_connection answer self).self.connections = 1)) ∧
    (answer.client = INVALID_SOCKET →
      (Socket.handle_connection answer self).raised = some Exception.failed_to_accept ∧
      (Socket.handle_connection answer self).self.connections = self.connections ∧
      (Socket.handle_connection answer self).self.read_list = self.read_list) := by
  refine ⟨?_, ?_, ?_⟩
  · unfold Socket.handle_connection Outcome.new_os
    simp only []
    split_ifs <;> simp
  · intro h
    refine ⟨?_, ?_, ?_⟩
    · simp [Socket.handle_connection, h]
    · simp [Socket.handle_connection, h]
    · intro hnew
      have h0 : List.countP (fun c => decide (c.socket = answer.client)) self.connections = 0 := by
        rw [List.countP_eq_zero]
        intro c hc
        simpa using hnew c hc
      simp [Socket.handle_connection, h, List.countP_append, h0]
  · intro h
    simp [Socket.handle_connection, h]

/-! ## C20: `close_socket` -/

/-- C20: `close_socket` (both implementations) has no raising exit; for every socket
and every answer of `shutdown` the calls it makes are the `shutdown`, then a line
on `std::cerr` exactly when `shutdown` failed with an error other than "not
connected", then one `close` of that socket; nothing else of the object
changes. -/
theorem C20_close_socket (shutdown : SOCKET → ShutdownResult) (self : Socket) (s : SOCKET) :
    ((Socket.close_socket shutdown self s) =
        { self with os := self.os ++ close_socket_events shutdown s } ∧
      (WindowsTcpSocket.close_socket shutdown self s) =
        { self with os := self.os ++ close_socket_events shutdown s }) ∧
    close_socket_events shutdown s =
      [Event.shutdown s (shutdown s).result] ++
        (if (shutdown s).result = SOCKET_ERROR ∧ (shutdown s).not_connected = false then
          [Event.cerr shutdown_failed_text] else []) ++
        [Event.close s] ∧
    (Event.cerr shutdown_failed_text ∈ close_socket_events shutdown s ↔
      ((shutdown s).result = SOCKET_ERROR ∧ (shutdown s).not_connected = false)) ∧
    closed_sockets (close_socket_events shutdown s) = [s] ∧
    (close_socket_events shutdown s).getLast? = some (Event.close s) := by
  have hshape : close_socket_events shutdown s =
      [Event.shutdown s (shutdown s).result] ++
        (if (shutdown s).result = SOCKET_ERROR ∧ (shutdown s).not_connected = false then
          [Event.cerr shutdown_failed_text] else []) ++
        [Event.close s] := by
    unfold close_socket_events
    simp only []
    by_cases h1 : (shutdown s).result = SOCKET_ERROR
    · cases h2 : (shutdown s).not_connected <;> simp [h1, h2, SOCKET_ERROR, SOCKET_NOERROR]
    · simp [h1]
  refine ⟨⟨rfl, rfl⟩, hshape, ?_, ?_, ?_⟩
  · rw [hshape]
    split_ifs with h <;> simp [h]
  · simp [closed_sockets, lifecycle_close_socket_events, Life.closing]
  · rw [hshape]
    split_ifs <;> simp

/-! ## C18: a read error in `receive_data` -/

theorem receive_loop_error (MAX_INPUT : Nat) (pre post : List RecvResult) (request : List Byte) :
    (receive_loop MAX_INPUT (pre ++ RecvResult.error :: post) request).exit ≠ none ∧
    (receive_loop MAX_INPUT (pre ++ RecvResult.error :: post) request).recv_calls ≤
      pre.length + 1 ∧
    ((receive_loop MAX_INPUT (pre ++ RecvResult.error :: post) request).recv_calls =
        pre.length + 1 →
      (receive_loop MAX_INPUT (pre ++ RecvResult.error :: post) request).exit =
        some RxExit.recv_error) := by
  induction pre generalizing request with
  | nil => simp [receive_loop, RxRun.recv_calls]
  | cons r pre ih =>
      cases r with
      | error => simp [receive_loop, RxRun.recv_calls]
      | data bs =>
          simp only [List.cons_append, receive_loop, List.append_eq]
          split_ifs with h1 h2
          · simp [RxRun.recv_calls]
          · simp [RxRun.recv_calls]
          · obtain ⟨a, b, c⟩ := ih (append_chunk MAX_INPUT request bs)
            simp only [RxRun.recv_calls, List.length_cons] at b c ⊢
            refine ⟨a, by omega, ?_⟩
            intro h
            exact c (by omega)

theorem recv_events_returned (MAX_INPUT : Nat) (connection : SOCKET) (script : List RecvResult)
    (run : RxRun) (h : run.exit ≠ none) :
    ∀ e ∈ recv_events MAX_INPUT connection script run,
      ∃ r, e = Event.recv connection (MAX_INPUT - 1) r := by
  intro e he
  unfold recv_events at he
  simp only [h, if_false, List.append_nil, List.mem_map] at he
  obtain ⟨r, _, rfl⟩ := he
  exact ⟨r, rfl⟩

theorem windows_receive_data_os (MAX_INPUT : Nat) (connection : SOCKET)
    (script : List RecvResult) :
    (WindowsTcpSocket.receive_data MAX_INPUT connection script).os =
      recv_events MAX_INPUT connection script (receive_loop MAX_INPUT script []) := rfl

/-- C18: when a `recv` call returns the error value after any reads, `receive_data`
(both implementations) has left its loop and returned, without a further `recv`
call; if the loop got as far as that call, it was left because of the error; the
only calls made are `recv` calls (no `shutdown`, no `close`); and in `open`, when
the socket is not in the write set, the servicing of the entry moves on with the
connection set and everything else but the trace unchanged. -/
theorem C18_read_error_soft_fail (MAX_INPUT : Nat) (connection : SOCKET)
    (pre post : List RecvResult) (shutdown : SOCKET → ShutdownResult) (io : ServiceIO)
    (self : Socket) (ceiling i : Nat) (c : Connection) :
    ((Socket.receive_data MAX_INPUT connection (pre ++ RecvResult.error :: post)).run.exit ≠
        none ∧
      (Socket.receive_data MAX_INPUT connection
        (pre ++ RecvResult.error :: post)).run.recv_calls ≤ pre.length + 1 ∧
      ((Socket.receive_data MAX_INPUT connection
          (pre ++ RecvResult.error :: post)).run.recv_calls = pre.length + 1 →
        (Socket.receive_data MAX_INPUT connection (pre ++ RecvResult.error :: post)).run.exit =
          some RxExit.recv_error) ∧
      (∀ e ∈ (Socket.receive_data MAX_INPUT connection (pre ++ RecvResult.error :: post)).os,
        ∃ r, e = Event.recv connection (MAX_INPUT - 1) r)) ∧
    ((WindowsTcpSocket.receive_data MAX_INPUT connection
        (pre ++ RecvResult.error :: post)).run.exit ≠ none ∧
      (WindowsTcpSocket.receive_data MAX_INPUT connection
        (pre ++ RecvResult.error :: post)).run.recv_calls ≤ pre.length + 1 ∧
      ((WindowsTcpSocket.receive_data MAX_INPUT connection
          (pre ++ RecvResult.error :: post)).run.recv_calls = pre.length + 1 →
        (WindowsTcpSocket.receive_data MAX_INPUT connection
          (pre ++ RecvResult.error :: post)).run.exit = some RxExit.recv_error) ∧
      (∀ e ∈ (WindowsTcpSocket.receive_data MAX_INPUT connection
          (pre ++ RecvResult.error :: post)).os,
        ∃ r, e = Event.recv connection (MAX_INPUT - 1) r)) ∧
    (self.connections[i]? = some c → c.socket ≠ INVALID_SOCKET →
      c.socket ≠ self.server_socket → FD_ISSET c.socket self.read_list = true →
      FD_ISSET c.socket self.write_list = false →
      io.recv = pre ++ RecvResult.error :: post →
      Socket.open_body MAX_INPUT shutdown io self ceiling i =
        { self := { self with
            os := self.os ++ (Socket.receive_data MAX_INPUT c.socket io.recv).os },
          ceiling := ceiling, flow := Control.next }) := by
  obtain ⟨h1, h2, h3⟩ := receive_loop_error MAX_INPUT pre post []
  refine ⟨⟨?_, ?_, ?_, ?_⟩, ⟨?_, ?_, ?_, ?_⟩, ?_⟩
  · rw [socket_receive_data_run]; exact h1
  · rw [socket_receive_data_run]; exact h2
  · rw [socket_receive_data_run]; exact h3
  · rw [socket_receive_data_os]
    exact recv_events_returned _ _ _ _ h1
  · rw [windows_receive_data_run]; exact h1
  · rw [windows_receive_data_run]; exact h2
  · rw [windows_receive_data_run]; exact h3
  · rw [windows_receive_data_os]
    exact recv_events_returned _ _ _ _ h1
  · intro hentry hvalid hpeer hread hwrite hrecv
    have hexit : (Socket.receive_data MAX_INPUT c.socket io.recv).run.exit ≠ none := by
      rw [socket_receive_data_run, hrecv]
      exact (receive_loop_error MAX_INPUT pre post []).1
    unfold Socket.open_body
    simp [hentry, hvalid, hpeer, hread, hwrite, hexit]

/-! ## Lemmas: what the loop body of `open` leaves unchanged -/

theorem open_body_frame (MAX_INPUT : Nat) (shutdown : SOCKET → ShutdownResult) (io : ServiceIO)
    (self : Socket) (ceiling i : Nat) :
    (Socket.open_body MAX_INPUT shutdown io self ceiling i).self.server_socket =
      self.server_socket ∧
    (Socket.open_body MAX_INPUT shutdown io self ceiling i).self.read_list = self.read_list ∧
    (Socket.open_body MAX_INPUT shutdown io self ceiling i).self.max_connections =
      self.max_connections ∧
    (Socket.open_body MAX_INPUT shutdown io self ceiling i).self.connections.length =
      self.connections.length := by
  unfold Socket.open_body
  cases h : self.connections[i]? with
  | none => simp
  | some c =>
      simp only []
      split_ifs <;> simp [Socket.write_data, Socket.close_socket] <;> split_ifs <;> simp

theorem open_body_other_entries (MAX_INPUT : Nat) (shutdown : SOCKET → ShutdownResult)
    (io : ServiceIO) (self : Socket) (ceiling i j : Nat) (hj : j ≠ i) :
    (Socket.open_body MAX_INPUT shutdown io self ceiling i).self.connections[j]? =
      self.connections[j]? := by
  unfold Socket.open_body
  cases h : self.connections[i]? with
  | none => simp
  | some c =>
      simp only []
      split_ifs <;> simp [Socket.write_data, Socket.close_socket] <;> split_ifs <;>
        simp [List.getElem?_set, hj.symm]

theorem open_body_entry (MAX_INPUT : Nat) (shutdown : SOCKET → ShutdownResult)
    (io : ServiceIO) (self : Socket) (ceiling i : Nat) (c : Connection)
    (hc : self.connections[i]? = some c) :
    (Socket.open_body MAX_INPUT shutdown io self ceiling i).self.connections[i]? = some c ∨
    (Socket.open_body MAX_INPUT shutdown io self ceiling i).self.connections[i]? =
      some { c with socket := INVALID_SOCKET } := by
  have hi : i < self.connections.length := by
    rw [List.getElem?_eq_some_iff] at hc
    exact hc.1
  unfold Socket.open_body
  simp only [hc]
  split_ifs <;> simp [Socket.write_data, Socket.close_socket, hc] <;> split_ifs <;>
    simp [List.getElem?_set, hc, hi]

theorem open_body_write_list (MAX_INPUT : Nat) (shutdown : SOCKET → ShutdownResult)
    (io : ServiceIO) (self : Socket) (ceiling i : Nat) (s : SOCKET) :
    (FD_ISSET s (Socket.open_body MAX_INPUT shutdown io self ceiling i).self.write_list = true →
      FD_ISSET s self.write_list = true) ∧
    ((∀ c, self.connections[i]? = some c → c.socket ≠ s) →
      FD_ISSET s (Socket.open_body MAX_INPUT shutdown io self ceiling i).self.write_list =
        FD_ISSET s self.write_list) := by
  unfold Socket.open_body
  cases h : self.connections[i]? with
  | none => simp
  | some c =>
      simp only []
      constructor
      · split_ifs <;> simp [Socket.write_data, Socket.close_socket] <;> split_ifs <;>
          simp [FD_ISSET, FD_CLR] <;> tauto
      · intro hne
        have hcs : c.socket ≠ s := hne c rfl
        split_ifs <;> simp [Socket.write_data, Socket.close_socket] <;> split_ifs <;>
          simp [FD_ISSET, FD_CLR, hcs.symm]

theorem recv_events_not_accept (MAX_INPUT : Nat) (connection : SOCKET)
    (script : List RecvResult) (run : RxRun) :
    ∀ e ∈ recv_events MAX_INPUT connection script run, is_accept e = false := by
  intro e he
  unfold recv_events at he
  rw [List.mem_append] at he
  rcases he with he | he
  · rw [List.mem_map] at he
    obtain ⟨r, _, rfl⟩ := he
    rfl
  · split_ifs at he
    · simp only [List.mem_singleton] at he
      subst he
      rfl
    · simp at he

theorem close_socket_events_not_accept (shutdown : SOCKET → ShutdownResult) (s : SOCKET) :
    ∀ e ∈ close_socket_events shutdown s, is_accept e = false := by
  intro e he
  unfold close_socket_events at he
  simp only [] at he
  split_ifs at he <;> simp at he <;> rcases he with rfl | rfl | rfl <;> rfl

theorem open_body_os (MAX_INPUT : Nat) (shutdown : SOCKET → ShutdownResult)
    (io : ServiceIO) (self : Socket) (ceiling i : Nat) :
    ∀ e ∈ (Socket.open_body MAX_INPUT shutdown io self ceiling i).self.os,
      e ∈ self.os ∨ is_accept e = false := by
  intro e
  have hrx : ∀ s, ∀ e ∈ (Socket.receive_data MAX_INPUT s io.recv).os, is_accept e = false := by
    intro s
    rw [socket_receive_data_os]
    exact recv_events_not_accept _ _ _ _
  have hcl := close_socket_events_not_accept shutdown
  unfold Socket.open_body
  cases h : self.connections[i]? with
  | none =>
      intro he
      exact Or.inl he
  | some c =>
      simp only []
      split_ifs <;> simp [Socket.write_data, Socket.close_socket] <;> (try split_ifs) <;>
        (try simp) <;> intro he <;> aesop

theorem open_body_sockets (MAX_INPUT : Nat) (shutdown : SOCKET → ShutdownResult)
    (io : ServiceIO) (self : Socket) (ceiling i j : Nat) (c : Connection)
    (hc : (Socket.open_body MAX_INPUT shutdown io self ceiling i).self.connections[j]? = some c) :
    ∃ c0, self.connections[j]? = some c0 ∧
      (c = c0 ∨ c = { c0 with socket := INVALID_SOCKET }) := by
  by_cases hj : j = i
  · subst hj
    have hlen := (open_body_frame MAX_INPUT shutdown io self ceiling j).2.2.2
    have hj : j < self.connections.length := by
      rw [List.getElem?_eq_some_iff] at hc
      obtain ⟨h, _⟩ := hc
      omega
    have h0 : self.connections[j]? = some self.connections[j] := List.getElem?_eq_getElem hj
    refine ⟨self.connections[j], h0, ?_⟩
    rcases open_body_entry MAX_INPUT shutdown io self ceiling j _ h0 with h | h
    · rw [h] at hc
      exact Or.inl (Option.some.inj hc).symm
    · rw [h] at hc
      exact Or.inr (Option.some.inj hc).symm
  · rw [open_body_other_entries MAX_INPUT shutdown io self ceiling i j hj] at hc
    exact ⟨c, hc, Or.inl rfl⟩

/-! ## Lemmas: the loop over the connection set -/

theorem open_for_cons (MAX_INPUT : Nat) (shutdown : SOCKET → ShutdownResult)
    (service : Nat → ServiceIO) (i : Nat) (rest : List Nat) (self : Socket) (ceiling : Nat) :
    Socket.open_for MAX_INPUT shutdown service (i :: rest) self ceiling =
      if (Socket.open_body MAX_INPUT shutdown (service i) self ceiling i).flow = Control.next then
        Socket.open_for MAX_INPUT shutdown service rest
          (Socket.open_body MAX_INPUT shutdown (service i) self ceiling i).self
          (Socket.open_body MAX_INPUT shutdown (service i) self ceiling i).ceiling
      else Socket.open_body MAX_INPUT shutdown (service i) self ceiling i := by
  rw [Socket.open_for]
  cases h : (Socket.open_body MAX_INPUT shutdown (service i) self ceiling i).flow <;> simp [h]
  all_goals
    cases h2 : Socket.open_body MAX_INPUT shutdown (service i) self ceiling i
    simp_all

/-- A property of the listener that every iteration of the loop body preserves is
preserved by the loop. -/
theorem open_for_preserves (MAX_INPUT : Nat) (shutdown : SOCKET → ShutdownResult)
    (service : Nat → ServiceIO) (P : Socket → Prop)
    (hstep : ∀ self ceiling i, P self →
      P (Socket.open_body MAX_INPUT shutdown (service i) self ceiling i).self)
    (idxs : List Nat) (self : Socket) (ceiling : Nat) (h : P self) :
    P (Socket.open_for MAX_INPUT shutdown service idxs self ceiling).self := by
  induction idxs generalizing self ceiling with
  | nil => exact h
  | cons i rest ih =>
      rw [open_for_cons]
      split_ifs
      · exact ih _ _ (hstep self ceiling i h)
      · exact hstep self ceiling i h

theorem open_for_frame (MAX_INPUT : Nat) (shutdown : SOCKET → ShutdownResult)
    (service : Nat → ServiceIO) (idxs : List Nat) (self : Socket) (ceiling : Nat) :
    (Socket.open_for MAX_INPUT shutdown service idxs self ceiling).self.server_socket =
      self.server_socket ∧
    (Socket.open_for MAX_INPUT shutdown service idxs self ceiling).self.read_list =
      self.read_list ∧
    (Socket.open_for MAX_INPUT shutdown service idxs self ceiling).self.max_connections =
      self.max_connections ∧
    (Socket.open_for MAX_INPUT shutdown service idxs self ceiling).self.connections.length =
      self.connections.length := by
  apply open_for_preserves MAX_INPUT shutdown service
    (fun x => x.server_socket = self.server_socket ∧ x.read_list = self.read_list ∧
      x.max_connections = self.max_connections ∧
      x.connections.length = self.connections.length)
  · intro x ceiling i hx
    obtain ⟨h1, h2, h3, h4⟩ := open_body_frame MAX_INPUT shutdown (service i) x ceiling i
    exact ⟨h1.trans hx.1, h2.trans hx.2.1, h3.trans hx.2.2.1, h4.trans hx.2.2.2⟩
  · exact ⟨rfl, rfl, rfl, rfl⟩

theorem open_for_os (MAX_INPUT : Nat) (shutdown : SOCKET → ShutdownResult)
    (service : Nat → ServiceIO) (idxs : List Nat) (self : Socket) (ceiling : Nat) :
    ∀ e ∈ (Socket.open_for MAX_INPUT shutdown service idxs self ceiling).self.os,
      e ∈ self.os ∨ is_accept e = false := by
  apply open_for_preserves MAX_INPUT shutdown service
    (fun x => ∀ e ∈ x.os, e ∈ self.os ∨ is_accept e = false)
  · intro x ceiling i hx e he
    rcases open_body_os MAX_INPUT shutdown (service i) x ceiling i e he with h | h
    · exact hx e h
    · exact Or.inr h
  · exact fun e he => Or.inl he

theorem open_for_sockets (MAX_INPUT : Nat) (shutdown : SOCKET → ShutdownResult)
    (service : Nat → ServiceIO) (idxs : List Nat) (self : Socket) (ceiling : Nat) :
    ∀ (j : Nat) (c : Connection),
      (Socket.open_for MAX_INPUT shutdown service idxs self ceiling).self.connections[j]? =
        some c →
      ∃ c0, self.connections[j]? = some c0 ∧
        (c = c0 ∨ c = { c0 with socket := INVALID_SOCKET }) := by
  apply open_for_preserves MAX_INPUT shutdown service
    (fun x => ∀ (j : Nat) (c : Connection), x.connections[j]? = some c →
      ∃ c0, self.connections[j]? = some c0 ∧
        (c = c0 ∨ c = { c0 with socket := INVALID_SOCKET }))
  · intro x ceiling i hx j c hc
    obtain ⟨c1, h1, h2⟩ := open_body_sockets MAX_INPUT shutdown (service i) x ceiling i j c hc
    obtain ⟨c0, h3, h4⟩ := hx j c1 h1
    refine ⟨c0, h3, ?_⟩
    rcases h2 with rfl | rfl
    · exact h4
    · rcases h4 with rfl | rfl
      · exact Or.inr rfl
      · exact Or.inr rfl
  · exact fun j c hc => ⟨c, hc, Or.inl rfl⟩

theorem open_for_write_list_subset (MAX_INPUT : Nat) (shutdown : SOCKET → ShutdownResult)
    (service : Nat → ServiceIO) (idxs : List Nat) (self : Socket) (ceiling : Nat) (s : SOCKET) :
    FD_ISSET s (Socket.open_for MAX_INPUT shutdown service idxs self ceiling).self.write_list =
        true →
      FD_ISSET s self.write_list = true := by
  apply open_for_preserves MAX_INPUT shutdown service
    (fun x => FD_ISSET s x.write_list = true → FD_ISSET s self.write_list = true)
  · intro x ceiling i hx h
    exact hx ((open_body_write_list MAX_INPUT shutdown (service i) x ceiling i s).1 h)
  · exact id

theorem open_for_not_visited (MAX_INPUT : Nat) (shutdown : SOCKET → ShutdownResult)
    (service : Nat → ServiceIO) (idxs : List Nat) (self : Socket) (ceiling : Nat) (j : Nat)
    (hj : j ∉ idxs) :
    (Socket.open_for MAX_INPUT shutdown service idxs self ceiling).self.connections[j]? =
      self.connections[j]? := by
  induction idxs generalizing self ceiling with
  | nil => rfl
  | cons i rest ih =>
      have hji : j ≠ i := fun e => hj (e ▸ List.mem_cons_self _ _)
      have hrest : j ∉ rest := fun h => hj (List.mem_cons_of_mem _ h)
      rw [open_for_cons]
      split_ifs
      · rw [ih _ _ hrest]
        exact open_body_other_entries MAX_INPUT shutdown (service i) self ceiling i j hji
      · exact open_body_other_entries MAX_INPUT shutdown (service i) self ceiling i j hji

theorem open_for_write_list_keep (MAX_INPUT : Nat) (shutdown : SOCKET → ShutdownResult)
    (service : Nat → ServiceIO) (idxs : List Nat) (self : Socket) (ceiling : Nat) (s : SOCKET)
    (hs : s ≠ INVALID_SOCKET)
    (hne : ∀ j ∈ idxs, ∀ c, self.connections[j]? = some c → c.socket ≠ s) :
    FD_ISSET s (Socket.open_for MAX_INPUT shutdown service idxs self ceiling).self.write_list =
      FD_ISSET s self.write_list := by
  induction idxs generalizing self ceiling with
  | nil => rfl
  | cons i rest ih =>
      have hstep := (open_body_write_list MAX_INPUT shutdown (service i) self ceiling i s).2
        (hne i (List.mem_cons_self _ _))
      rw [open_for_cons]
      split_ifs
      · rw [ih, hstep]
        intro j hj c hc
        obtain ⟨c0, h0, h1⟩ :=
          open_body_sockets MAX_INPUT shutdown (service i) self ceiling i j c hc
        rcases h1 with rfl | rfl
        · exact hne j (List.mem_cons_of_mem _ hj) _ h0
        · exact fun e => hs e.symm
      · exact hstep

theorem open_for_append (MAX_INPUT : Nat) (shutdown : SOCKET → ShutdownResult)
    (service : Nat → ServiceIO) (a b : List Nat) (self : Socket) (ceiling : Nat) :
    Socket.open_for MAX_INPUT shutdown service (a ++ b) self ceiling =
      if (Socket.open_for MAX_INPUT shutdown service a self ceiling).flow = Control.next then
        Socket.open_for MAX_INPUT shutdown service b
          (Socket.open_for MAX_INPUT shutdown service a self ceiling).self
          (Socket.open_for MAX_INPUT shutdown service a self ceiling).ceiling
      else Socket.open_for MAX_INPUT shutdown service a self ceiling := by
  induction a generalizing self ceiling with
  | nil => simp [Socket.open_for]
  | cons i rest ih =>
      rw [List.cons_append, open_for_cons, open_for_cons]
      split_ifs with h1 h2
      · rw [ih, if_pos h2]
      · rw [ih, if_neg h2]
      · rfl

/-! ## C16: an accept attempt past capacity -/

theorem socket_select_ok (shutdown : SOCKET → ShutdownResult) (answer : SelectAnswer)
    (self : Socket) (h : (Socket.select shutdown answer self).raised = none) :
    (Socket.select shutdown answer self).self.server_socket = self.server_socket ∧
    (Socket.select shutdown answer self).self.max_connections = self.max_connections ∧
    (Socket.select shutdown answer self).self.connections =
      self.reset_socket_lists.connections ∧
    (Socket.select shutdown answer self).self.os =
      self.os ++ [Event.select self.reset_socket_lists.select_nfds
        self.reset_socket_lists.read_list self.reset_socket_lists.write_list answer.result] := by
  unfold Socket.select at h ⊢
  simp only [] at h ⊢
  split_ifs at h ⊢ with h1
  exact ⟨rfl, rfl, rfl, rfl⟩

theorem open_body_raises (MAX_INPUT : Nat) (shutdown : SOCKET → ShutdownResult)
    (io : ServiceIO) (self : Socket) (ceiling i : Nat) (e : Exception)
    (h : (Socket.open_body MAX_INPUT shutdown io self ceiling i).flow = Control.raised e) :
    e = Exception.failed_to_get_host_name := by
  unfold Socket.open_body at h
  cases hc : self.connections[i]? with
  | none => simp [hc] at h
  | some c =>
      simp only [hc] at h
      split_ifs at h <;> simp [Socket.write_data] at h <;> (try split_ifs at h) <;>
        simp at h <;> exact h.symm

theorem open_for_raises (MAX_INPUT : Nat) (shutdown : SOCKET → ShutdownResult)
    (service : Nat → ServiceIO) (idxs : List Nat) (self : Socket) (ceiling : Nat)
    (e : Exception)
    (h : (Socket.open_for MAX_INPUT shutdown service idxs self ceiling).flow =
      Control.raised e) :
    e = Exception.failed_to_get_host_name := by
  induction idxs generalizing self ceiling with
  | nil => simp [Socket.open_for] at h
  | cons i rest ih =>
      rw [open_for_cons] at h
      split_ifs at h
      · exact ih _ _ h
      · exact open_body_raises MAX_INPUT shutdown (service i) self ceiling i e h

/-- C16: in a cycle of `open` in which `select` reports the listening socket
readable while the counter `ceiling` has reached `max_connections`, the accept
statement changes nothing (no `accept` call, no exception, no entry added), and
the cycle is the servicing of the connections already in the set. -/
theorem C16_accept_skipped_at_capacity (MAX_INPUT : Nat) (shutdown : SOCKET → ShutdownResult)
    (io : CycleIO) (self : Socket) (ceiling : Nat)
    (hsel : (Socket.select shutdown io.select self).raised = none)
    (hwait : (Socket.select shutdown io.select self).timed_out = false)
    (_hready : FD_ISSET self.server_socket
      (Socket.select shutdown io.select self).self.read_list = true)
    (hfull : ceiling = self.max_connections) :
    Socket.open_accept io.accept (Socket.select shutdown io.select self).self ceiling =
      { self := (Socket.select shutdown io.select self).self, ceiling := ceiling,
        flow := Control.next } ∧
    Socket.open_cycle MAX_INPUT shutdown io self ceiling =
      Socket.open_for MAX_INPUT shutdown io.service
        (List.range self.reset_socket_lists.connections.length)
        (Socket.select shutdown io.select self).self ceiling ∧
    (∀ e ∈ (Socket.open_cycle MAX_INPUT shutdown io self ceiling).self.os,
      e ∈ self.os ∨ is_accept e = false) ∧
    (Socket.open_cycle MAX_INPUT shutdown io self ceiling).self.connections.length =
      self.reset_socket_lists.connections.length ∧
    (Socket.open_cycle MAX_INPUT shutdown io self ceiling).flow ≠
      Control.raised Exception.failed_to_accept := by
  obtain ⟨h1, h2, h3, h4⟩ := socket_select_ok shutdown io.select self hsel
  have haccept : Socket.open_accept io.accept (Socket.select shutdown io.select self).self
      ceiling =
      { self := (Socket.select shutdown io.select self).self, ceiling := ceiling,
        flow := Control.next } := by
    unfold Socket.open_accept
    rw [h1, h2, hfull]
    simp
  have hcycle : Socket.open_cycle MAX_INPUT shutdown io self ceiling =
      Socket.open_for MAX_INPUT shutdown io.service
        (List.range self.reset_socket_lists.connections.length)
        (Socket.select shutdown io.select self).self ceiling := by
    unfold Socket.open_cycle
    simp only [hsel, hwait, haccept, h3]
    simp
  refine ⟨haccept, hcycle, ?_, ?_, ?_⟩
  · rw [hcycle]
    intro e he
    rcases open_for_os MAX_INPUT shutdown io.service _ _ _ e he with h | h
    · rw [h4, List.mem_append] at h
      rcases h with h | h
      · exact Or.inl h
      · simp only [List.mem_singleton] at h
        subst h
        exact Or.inr rfl
    · exact Or.inr h
  · rw [hcycle, (open_for_frame MAX_INPUT shutdown io.service _ _ _).2.2.2, h3]
  · rw [hcycle]
    intro h
    exact absurd (open_for_raises MAX_INPUT shutdown io.service _ _ _ _ h) (by decide)

/-- C16, witness: the listener `full_socket` has capacity one and one peer; the
listening socket is reported readable and the accept statement is skipped. -/
theorem C16_accept_skipped_at_capacity_witness :
    FD_ISSET full_socket.server_socket
      (Socket.select shutdown_not_connected cycle_answers.select full_socket).self.read_list =
        true ∧
    Socket.open_accept cycle_answers.accept
        (Socket.select shutdown_not_connected cycle_answers.select full_socket).self 1 =
      { self := (Socket.select shutdown_not_connected cycle_answers.select full_socket).self,
        ceiling := 1, flow := Control.next } ∧
    (Socket.open_cycle 4096 shutdown_not_connected cycle_answers full_socket 1).self.connections =
      [⟨4, 0⟩, ⟨INVALID_SOCKET, 0⟩] :=
  ⟨by decide,
    (C16_accept_skipped_at_capacity 4096 shutdown_not_connected cycle_answers full_socket 1
      (by decide) (by decide) (by decide) (by decide)).1,
    by decide⟩

/-! ## C19: what becomes of a connection whose receive failed -/

theorem open_body_closes (MAX_INPUT : Nat) (shutdown : SOCKET → ShutdownResult)
    (io : ServiceIO) (self : Socket) (ceiling i : Nat) (c : Connection)
    (hc : self.connections[i]? = some c) (hvalid : c.socket ≠ INVALID_SOCKET)
    (hwritable : FD_ISSET c.socket self.write_list = true)
    (hflow : (Socket.open_body MAX_INPUT shutdown io self ceiling i).flow = Control.next) :
    (Socket.open_body MAX_INPUT shutdown io self ceiling i).self.connections[i]? =
      some { c with socket := INVALID_SOCKET } := by
  have hi : i < self.connections.length := by
    rw [List.getElem?_eq_some_iff] at hc
    exact hc.1
  unfold Socket.open_body at hflow ⊢
  simp only [hc] at hflow ⊢
  split_ifs at hflow ⊢ <;> simp_all [Socket.write_data, Socket.close_socket] <;>
    (try split_ifs at hflow ⊢) <;> simp_all [List.getElem?_set]

theorem open_body_keeps (MAX_INPUT : Nat) (shutdown : SOCKET → ShutdownResult)
    (io : ServiceIO) (self : Socket) (ceiling i : Nat) (c : Connection)
    (hc : self.connections[i]? = some c)
    (hwritable : FD_ISSET c.socket self.write_list = false) :
    (Socket.open_body MAX_INPUT shutdown io self ceiling i).self.connections =
      self.connections := by
  unfold Socket.open_body
  simp only [hc]
  split_ifs <;> simp_all [Socket.write_data, Socket.close_socket]

theorem range_split (n i : Nat) (h : i < n) :
    ∃ a b, List.range n = a ++ i :: b ∧ i ∉ a ∧ i ∉ b := by
  obtain ⟨a, b, hab⟩ := List.append_of_mem (List.mem_range.mpr h)
  have hnd := List.nodup_range n
  rw [hab] at hnd
  refine ⟨a, b, hab, ?_, ?_⟩
  · intro ha
    have := (List.nodup_append.mp hnd).2.2
    exact this ha (List.mem_cons_self _ _)
  · have := (List.nodup_append.mp hnd).2.1
    exact (List.nodup_cons.mp this).1

theorem open_for_entry_closed (MAX_INPUT : Nat) (shutdown : SOCKET → ShutdownResult)
    (service : Nat → ServiceIO) (a b : List Nat) (i : Nat) (self : Socket) (ceiling : Nat)
    (c : Connection) (hia : i ∉ a) (hib : i ∉ b)
    (hc : self.connections[i]? = some c) (hvalid : c.socket ≠ INVALID_SOCKET)
    (hunique : ∀ j c', j ≠ i → self.connections[j]? = some c' → c'.socket ≠ c.socket)
    (hwritable : FD_ISSET c.socket self.write_list = true)
    (hflow : (Socket.open_for MAX_INPUT shutdown service (a ++ i :: b) self ceiling).flow =
      Control.next) :
    (Socket.open_for MAX_INPUT shutdown service (a ++ i :: b) self ceiling).self.connections[i]? =
      some { c with socket := INVALID_SOCKET } := by
  have hc1 : (Socket.open_for MAX_INPUT shutdown service a self ceiling).self.connections[i]? =
      some c := by
    rw [open_for_not_visited MAX_INPUT shutdown service a self ceiling i hia]
    exact hc
  have hw1 : FD_ISSET c.socket
      (Socket.open_for MAX_INPUT shutdown service a self ceiling).self.write_list = true := by
    rw [open_for_write_list_keep MAX_INPUT shutdown service a self ceiling c.socket hvalid]
    · exact hwritable
    · intro j hj c' hc'
      exact hunique j c' (fun e => hia (e ▸ hj)) hc'
  rw [open_for_append] at hflow ⊢
  by_cases h1 : (Socket.open_for MAX_INPUT shutdown service a self ceiling).flow = Control.next
  · rw [if_pos h1] at hflow ⊢
    rw [open_for_cons] at hflow ⊢
    split_ifs at hflow ⊢ with h2
    · rw [open_for_not_visited MAX_INPUT shutdown service b _ _ i hib]
      exact open_body_closes MAX_INPUT shutdown (service i) _ _ i c hc1 hvalid hw1 h2
    · exact absurd hflow h2
  · rw [if_neg h1] at hflow
    exact absurd hflow h1

theorem open_for_entry_kept (MAX_INPUT : Nat) (shutdown : SOCKET → ShutdownResult)
    (service : Nat → ServiceIO) (a b : List Nat) (i : Nat) (self : Socket) (ceiling : Nat)
    (c : Connection) (hia : i ∉ a) (hib : i ∉ b)
    (hc : self.connections[i]? = some c)
    (hwritable : FD_ISSET c.socket self.write_list = false) :
    (Socket.open_for MAX_INPUT shutdown service (a ++ i :: b) self ceiling).self.connections[i]? =
      some c := by
  have hc1 : (Socket.open_for MAX_INPUT shutdown service a self ceiling).self.connections[i]? =
      some c := by
    rw [open_for_not_visited MAX_INPUT shutdown service a self ceiling i hia]
    exact hc
  have hw1 : FD_ISSET c.socket
      (Socket.open_for MAX_INPUT shutdown service a self ceiling).self.write_list = false := by
    rw [← Bool.not_eq_true]
    intro h
    have := open_for_write_list_subset MAX_INPUT shutdown service a self ceiling c.socket h
    rw [hwritable] at this
    exact Bool.false_ne_true this
  have hbody := open_body_keeps MAX_INPUT shutdown (service i)
    (Socket.open_for MAX_INPUT shutdown service a self ceiling).self
    (Socket.open_for MAX_INPUT shutdown service a self ceiling).ceiling i c hc1 hw1
  rw [open_for_append]
  split_ifs with h1
  · rw [open_for_cons]
    split_ifs with h2
    · rw [open_for_not_visited MAX_INPUT shutdown service b _ _ i hib, hbody]
      exact hc1
    · rw [hbody]
      exact hc1
  · exact hc1

/-- C19, refuted as stated: the peer `7` is reported readable and not writable and
its `recv` fails; `receive_data` ends because of the read error, the cycle ends,
and after the `reset_socket_lists` call of the following cycle the entry of `7`
is still in the connection set. -/
theorem C19_counterexample :
    (Socket.receive_data 4096 7 (read_error_answers.service 1).recv).run.exit =
      some RxExit.recv_error ∧
    (Socket.open_cycle 4096 shutdown_not_connected read_error_answers serving_socket 1).flow =
      Control.next ∧
    (Socket.open_cycle 4096 shutdown_not_connected read_error_answers serving_socket 1).self.os =
      [Event.select 8 [4, 7] [4, 7] 1, Event.recv 7 4095 RecvResult.error] ∧
    (Socket.open_cycle 4096 shutdown_not_connected read_error_answers serving_socket
      1).self.reset_socket_lists.connections = [⟨4, 0⟩, ⟨7, 0⟩] := by
  refine ⟨?_, ?_, ?_, ?_⟩ <;> decide

/-- C19, as amended: take a cycle of `open` whose loop over the connection set
starts in the state `self`, and a peer entry of it that is readable, on which
`receive_data` ends because of a read error, and whose socket occurs in no other
entry. If the socket is also in the write set and the cycle runs to its end, the
write branch closes it and no entry with that socket is in the connection set
after the `reset_socket_lists` call of the following cycle; if the socket is not
in the write set, its entry is still in the connection set after that call. -/
theorem C19_reaped_through_write_side (MAX_INPUT : Nat) (shutdown : SOCKET → ShutdownResult)
    (service : Nat → ServiceIO) (self : Socket) (ceiling i : Nat) (c : Connection)
    (hentry : self.connections[i]? = some c)
    (hvalid : c.socket ≠ INVALID_SOCKET)
    (_hpeer : c.socket ≠ self.server_socket)
    (_hread : FD_ISSET c.socket self.read_list = true)
    (_herror : (Socket.receive_data MAX_INPUT c.socket (service i).recv).run.exit =
      some RxExit.recv_error)
    (hunique : ∀ j c', j ≠ i → self.connections[j]? = some c' → c'.socket ≠ c.socket) :
    (FD_ISSET c.socket self.write_list = true →
      (Socket.open_for MAX_INPUT shutdown service (List.range self.connections.length) self
        ceiling).flow = Control.next →
      ∀ c' ∈ (Socket.open_for MAX_INPUT shutdown service (List.range self.connections.length)
        self ceiling).self.reset_socket_lists.connections, c'.socket ≠ c.socket) ∧
    (FD_ISSET c.socket self.write_list = false →
      c ∈ (Socket.open_for MAX_INPUT shutdown service (List.range self.connections.length) self
        ceiling).self.reset_socket_lists.connections) := by
  have hi : i < self.connections.length := by
    rw [List.getElem?_eq_some_iff] at hentry
    exact hentry.1
  obtain ⟨a, b, hab, hia, hib⟩ := range_split self.connections.length i hi
  rw [hab]
  constructor
  · intro hw hflow c' hc'
    have hclosed := open_for_entry_closed MAX_INPUT shutdown service a b i self ceiling c hia hib
      hentry hvalid hunique hw hflow
    rw [socket_reset_connections, List.mem_filter] at hc'
    obtain ⟨j, hj⟩ := List.mem_iff_getElem?.mp hc'.1
    by_cases hji : j = i
    · subst hji
      rw [hclosed] at hj
      have := Option.some.inj hj
      rw [← this]
      exact fun e => hvalid e.symm
    · obtain ⟨c0, h0, h1⟩ :=
        open_for_sockets MAX_INPUT shutdown service (a ++ i :: b) self ceiling j c' hj
      rcases h1 with rfl | rfl
      · exact hunique j _ hji h0
      · exact fun e => hvalid e.symm
  · intro hw
    have hkept := open_for_entry_kept MAX_INPUT shutdown service a b i self ceiling c hia hib
      hentry hw
    rw [socket_reset_connections, List.mem_filter]
    exact ⟨List.mem_iff_getElem?.mpr ⟨i, hkept⟩, by simpa using hvalid⟩

/-- C19, witness: the peer `7` of `ready_socket` is readable and writable and its
`recv` fails; after the cycle and the next cleanup no entry has the socket `7`. -/
theorem C19_reaped_through_write_side_witness :
    FD_ISSET 7 ready_socket.write_list = true ∧
    (∀ c' ∈ (Socket.open_for 4096 shutdown_not_connected read_error_answers.service
        (List.range ready_socket.connections.length) ready_socket
        1).self.reset_socket_lists.connections, c'.socket ≠ 7) :=
  ⟨by decide,
    (C19_reaped_through_write_side 4096 shutdown_not_connected read_error_answers.service
      ready_socket 1 1 ⟨7, 0⟩ (by decide) (by decide) (by decide) (by decide) (by decide)
      (by
        intro j c' hj h
        match j, hj, h with
        | 0, _, h =>
            have : c' = ⟨4, 0⟩ := (Option.some.inj h).symm
            rw [this]
            decide
        | 1, hj, _ => exact absurd rfl hj
        | j + 2, _, h => exact absurd h (by simp [ready_socket]))).1 (by decide) (by decide)⟩

/-! ## C22: the two `write_data` functions -/

theorem after_blank_line_make_response (body : List Byte) (h : 0 ∉ body) :
    after_blank_line (make_response body) = some body := by
  unfold after_blank_line
  rw [make_response_eq body h, split_blank_line _ _ (std_to_string_digits _)]
  rfl

theorem write_data_body_length (client_ip : List Byte) (client_port : Nat)
    (hostname : List Byte) :
    (WindowsTcpSocket.write_data_body client_ip client_port hostname).length =
      (Socket.write_data_body client_ip client_port hostname).length + 2 := by
  simp only [WindowsTcpSocket.write_data_body, Socket.write_data_body, List.length_append]
  have h1 : (bytes "<p>client ip: ").length = 14 := by decide
  have h2 : (bytes "<p>host ip: ").length = 12 := by decide
  omega

/-- C22, evaluated on the code: for the peer `127.0.0.1:80` on the host `box` the
response of `Socket::write_data` carries the line `host ip: 127.0.0.1:80` and
`Content-Length: 68`, that of `WindowsTcpSocket::write_data` the line
`client ip: 127.0.0.1:80` and `Content-Length: 70`; the two byte strings differ,
and so do the bytes handed to `send`. For every peer address, port and host name
the body of the second is two bytes longer than that of the first, and the two
responses differ. -/
theorem C22_write_data_responses_differ :
    Socket.write_data_response service_answers.write =
      bytes ("HTTP/1.1 200 OK\r\nContent-Type: text/html; charset=UTF-8\r\n" ++
        "Connection: keep-alive\r\nContent-Length: 68\r\n\r\n" ++
        "<p>host ip: 127.0.0.1:80</p>\n<p>host name: box</p>\n<p>request</p>\n\r\n") ∧
    WindowsTcpSocket.write_data_response service_answers.write =
      bytes ("HTTP/1.1 200 OK\r\nContent-Type: text/html; charset=UTF-8\r\n" ++
        "Connection: keep-alive\r\nContent-Length: 70\r\n\r\n" ++
        "<p>client ip: 127.0.0.1:80</p>\n<p>host name: box</p>\n<p>request</p>\n\r\n") ∧
    Socket.write_data_response service_answers.write ≠
      WindowsTcpSocket.write_data_response service_answers.write ∧
    sends ((Socket.write_data service_answers.write serving_socket 7).new_os serving_socket) ≠
      sends ((WindowsTcpSocket.write_data service_answers.write serving_socket 7).new_os
        serving_socket) ∧
    (∀ (client_ip : List Byte) (client_port : Nat) (hostname : List Byte),
      (WindowsTcpSocket.write_data_body client_ip client_port hostname).length =
        (Socket.write_data_body client_ip client_port hostname).length + 2) ∧
    (∀ io : WriteIO,
      Socket.write_data_response io ≠ WindowsTcpSocket.write_data_response io) := by
  refine ⟨by decide, by decide, by decide, by decide, write_data_body_length, ?_⟩
  intro io h
  unfold Socket.write_data_response WindowsTcpSocket.write_data_response at h
  have h1 := after_blank_line_make_response _
    (socket_write_data_body_nul_free (get_in_ip io.client_addr) (get_in_port io.client_addr)
      io.hostname (from_c_str_nul_free _))
  have h2 := after_blank_line_make_response _
    (windows_write_data_body_nul_free (WindowsTcpSocket.get_in_ip io.client_addr)
      (WindowsTcpSocket.get_in_port io.client_addr) io.hostname (from_c_str_nul_free _))
  rw [h, h2] at h1
  have h3 := congrArg List.length (Option.some.inj h1)
  have h4 : (WindowsTcpSocket.write_data_body (WindowsTcpSocket.get_in_ip io.client_addr)
      (WindowsTcpSocket.get_in_port io.client_addr) io.hostname).length =
      (Socket.write_data_body (get_in_ip io.client_addr) (get_in_port io.client_addr)
        io.hostname).length + 2 := write_data_body_length _ _ _
  rw [h4] at h3
  omega

/-! ## C26: the open flag -/

theorem closed_sockets_append (a b : List Event) :
    closed_sockets (a ++ b) = closed_sockets a ++ closed_sockets b := by
  simp [closed_sockets, lifecycle_append]

theorem closed_sockets_close_socket_events (shutdown : SOCKET → ShutdownResult) (s : SOCKET) :
    closed_sockets (close_socket_events shutdown s) = [s] := by
  simp [closed_sockets, lifecycle_close_socket_events, Life.closing]

/-- C26, evaluated on the code: `close` and the bind-failure path of
`create_socket` leave `is_open` false, but the failure paths of `listen` and of
`select` close the listening socket and leave `is_open` as it was. On a bound
listener on descriptor `3` whose `::listen` call fails, and on a listening socket
`3` whose `::select` call fails, `is_open` is still true after the exception, and
the destructor closes descriptor `3` a second time. -/
theorem C26_open_flag_left_set :
    (∀ (shutdown : SOCKET → ShutdownResult) (self : Socket),
      (Socket.close shutdown self).is_open = false) ∧
    (∀ (shutdown : SOCKET → ShutdownResult) (r : Int) (self : Socket) (cs : List addrinfo),
      (Socket.create_socket shutdown r self cs).raised = some Exception.failed_to_bind →
      (Socket.create_socket shutdown r self cs).self.is_open = false) ∧
    (∀ (shutdown : SOCKET → ShutdownResult) (self : Socket) (count : Nat) (cb : event_callback),
      (Socket.listen shutdown SOCKET_ERROR self count cb).raised =
        some Exception.failed_to_listen ∧
      (Socket.listen shutdown SOCKET_ERROR self count cb).self.is_open = self.is_open ∧
      closed_sockets ((Socket.listen shutdown SOCKET_ERROR self count cb).new_os self) =
        [self.server_socket]) ∧
    (∀ (shutdown : SOCKET → ShutdownResult) (readable writable : fd_set) (self : Socket),
      (Socket.select shutdown ⟨SOCKET_ERROR, readable, writable⟩ self).raised =
        some Exception.failed_to_poll ∧
      (Socket.select shutdown ⟨SOCKET_ERROR, readable, writable⟩ self).self.is_open =
        self.is_open) ∧
    (bound_socket.is_open = true ∧ closed_sockets bound_socket.os = [] ∧
      listen_failed_socket.is_open = true ∧
      closed_sockets listen_failed_socket.os = [3] ∧
      closed_sockets (Socket.destructor shutdown_not_connected listen_failed_socket).os =
        [3, 3]) ∧
    (listening_socket.is_open = true ∧ closed_sockets listening_socket.os = [] ∧
      select_failed_socket.is_open = true ∧
      closed_sockets select_failed_socket.os = [3] ∧
      closed_sockets (Socket.destructor shutdown_not_connected select_failed_socket).os =
        [3, 3]) := by
  refine ⟨fun _ _ => rfl, ?_, ?_, ?_, by decide, by decide⟩
  · intro shutdown r self cs h
    unfold Socket.create_socket at h ⊢
    simp only [] at h ⊢
    split_ifs at h ⊢ <;> simp_all
  · intro shutdown self count cb
    refine ⟨by simp [Socket.listen], by simp [Socket.listen, Socket.close_socket], ?_⟩
    simp only [Socket.listen, Outcome.new_os, Socket.close_socket, if_true, List.append_assoc,
      List.drop_left]
    rw [closed_sockets_append, closed_sockets_close_socket_events]
    rfl
  · intro shutdown readable writable self
    refine ⟨by simp [Socket.select], ?_⟩
    simp [Socket.select, Socket.close_socket, Socket.reset_socket_lists]

/-! ## C27: when `write_data` raises -/

theorem open_body_raised_state (MAX_INPUT : Nat) (shutdown : SOCKET → ShutdownResult)
    (io : ServiceIO) (self : Socket) (ceiling i : Nat) (e : Exception)
    (h : (Socket.open_body MAX_INPUT shutdown io self ceiling i).flow = Control.raised e) :
    io.write.gethostname_result = SOCKET_ERROR ∧
    ∃ c rx, self.connections[i]? = some c ∧ c.socket ≠ INVALID_SOCKET ∧
      FD_ISSET c.socket self.write_list = true ∧
      (∀ x ∈ rx, ∃ r, x = Event.recv c.socket (MAX_INPUT - 1) r) ∧
      Socket.open_body MAX_INPUT shutdown io self ceiling i =
        { self := { self with
            os := self.os ++ rx ++
              [Event.getpeername c.socket, Event.gethostname SOCKET_ERROR] },
          ceiling := ceiling, flow := Control.raised Exception.failed_to_get_host_name } := by
  unfold Socket.open_body at h ⊢
  cases hc : self.connections[i]? with
  | none => simp [hc] at h
  | some c =>
    simp only [hc] at h ⊢
    by_cases hv : c.socket = INVALID_SOCKET
    · simp [hv] at h
    · rw [if_neg hv] at h ⊢
      by_cases hw : FD_ISSET c.socket self.write_list = true
      · by_cases hh : io.write.gethostname_result = SOCKET_ERROR
        · refine ⟨hh, c, ?_⟩
          by_cases hr : c.socket ≠ self.server_socket ∧ FD_ISSET c.socket self.read_list = true
          · by_cases hx : (Socket.receive_data MAX_INPUT c.socket io.recv).run.exit = none
            · simp [hr, hx] at h
            · refine ⟨(Socket.receive_data MAX_INPUT c.socket io.recv).os, rfl, hv, hw, ?_, ?_⟩
              · rw [socket_receive_data_os]
                exact recv_events_returned _ _ _ _
                  (by rw [← socket_receive_data_run MAX_INPUT c.socket io.recv]; exact hx)
              · simp [hr, hx, hw, hh, Socket.write_data]
          · refine ⟨[], rfl, hv, hw, by simp, ?_⟩
            simp [hr, hw, hh, Socket.write_data]
        · by_cases hr : c.socket ≠ self.server_socket ∧ FD_ISSET c.socket self.read_list = true
          · by_cases hx : (Socket.receive_data MAX_INPUT c.socket io.recv).run.exit = none
            · simp [hr, hx] at h
            · simp [hr, hx, hw, hh, Socket.write_data] at h
          · simp [hr, hw, hh, Socket.write_data] at h
      · by_cases hr : c.socket ≠ self.server_socket ∧ FD_ISSET c.socket self.read_list = true
        · by_cases hx : (Socket.receive_data MAX_INPUT c.socket io.recv).run.exit = none
          · simp [hr, hx] at h
          · simp [hr, hx, hw] at h
        · simp [hr, hw] at h

/-- C27: `write_data` (both implementations) raises exactly when `gethostname`
returns the error value, whatever `getpeername` left in the peer address (its
return value is discarded) and whatever `send` returns; when it raises, the
exception is "Failed to get host name.", the only calls made are `getpeername` and
`gethostname` (no `send`), and the object is otherwise unchanged (the socket is
not cleared from the write set). When the servicing of an entry in `open` ends
with an exception, it is this one: the calls made are the `recv` calls of
`receive_data`, `getpeername` and `gethostname` (no `send`, no `shutdown`, no
`close`), the socket is still in the write set, and the connection set and the
counter are unchanged. -/
theorem C27_write_data_raises_iff_host_name_fails (MAX_INPUT : Nat)
    (shutdown : SOCKET → ShutdownResult) (io : WriteIO) (self : Socket) (connection : SOCKET)
    (sio : ServiceIO) (ceiling i : Nat) :
    (((Socket.write_data io self connection).raised ≠ none ↔
        io.gethostname_result = SOCKET_ERROR) ∧
      ((WindowsTcpSocket.write_data io self connection).raised ≠ none ↔
        io.gethostname_result = SOCKET_ERROR)) ∧
    (io.gethostname_result = SOCKET_ERROR →
      Socket.write_data io self connection =
        { self := { self with
            os := self.os ++ [Event.getpeername connection, Event.gethostname SOCKET_ERROR] },
          raised := some Exception.failed_to_get_host_name } ∧
      WindowsTcpSocket.write_data io self connection =
        { self := { self with
            os := self.os ++ [Event.getpeername connection, Event.gethostname SOCKET_ERROR] },
          raised := some Exception.failed_to_get_host_name } ∧
      sends ((Socket.write_data io self connection).new_os self) = [] ∧
      sends ((WindowsTcpSocket.write_data io self connection).new_os self) = []) ∧
    (∀ e, (Socket.open_body MAX_INPUT shutdown sio self ceiling i).flow = Control.raised e →
      e = Exception.failed_to_get_host_name ∧
      sio.write.gethostname_result = SOCKET_ERROR ∧
      ∃ c rx, self.connections[i]? = some c ∧ c.socket ≠ INVALID_SOCKET ∧
        (∀ x ∈ rx, ∃ r, x = Event.recv c.socket (MAX_INPUT - 1) r) ∧
        (Socket.open_body MAX_INPUT shutdown sio self ceiling i).self.os =
          self.os ++ rx ++ [Event.getpeername c.socket, Event.gethostname SOCKET_ERROR] ∧
        FD_ISSET c.socket
          (Socket.open_body MAX_INPUT shutdown sio self ceiling i).self.write_list = true ∧
        (Socket.open_body MAX_INPUT shutdown sio self ceiling i).self.write_list =
          self.write_list ∧
        (Socket.open_body MAX_INPUT shutdown sio self ceiling i).self.connections =
          self.connections ∧
        (Socket.open_body MAX_INPUT shutdown sio self ceiling i).self.connections[i]? =
          some c ∧
        (Socket.open_body MAX_INPUT shutdown sio self ceiling i).ceiling = ceiling) := by
  refine ⟨⟨?_, ?_⟩, ?_, ?_⟩
  · unfold Socket.write_data
    simp only []
    split_ifs with h <;> simp [h]
  · unfold WindowsTcpSocket.write_data
    simp only []
    split_ifs with h <;> simp [h]
  · intro h
    refine ⟨?_, ?_, ?_, ?_⟩
    · simp [Socket.write_data, h]
    · simp [WindowsTcpSocket.write_data, h]
    · rw [socket_write_data_sends, if_pos h]
    · rw [windows_write_data_sends, if_pos h]
  · intro e h
    obtain ⟨hh, c, rx, hc, hv, hw, hrx, heq⟩ := open_body_raised_state _ _ _ _ _ _ _ h
    refine ⟨open_body_raises _ _ _ _ _ _ _ h, hh, c, rx, hc, hv, hrx, ?_⟩
    rw [heq]
    exact ⟨rfl, hw, rfl, rfl, hc, rfl⟩

/-! ## C24: the index of the terminating NUL -/

theorem recv_value_data (bs : List Byte) : ¬ (RecvResult.data bs).value = SOCKET_ERROR := by
  show ¬ ((bs.length : Int) = -1)
  omega

theorem receive_loop_log_pos (MAX_INPUT : Nat) (script : List RecvResult) (request : List Byte)
    (h : (receive_loop MAX_INPUT script request).exit ≠ none) :
    1 ≤ (receive_loop MAX_INPUT script request).log.length := by
  cases script with
  | nil => simp [receive_loop] at h
  | cons r rest =>
      cases r with
      | error => simp [receive_loop]
      | data bs =>
          simp only [receive_loop]
          split_ifs <;> simp

theorem nul_write_indices_bounds (MAX_INPUT : Nat) (script : List RecvResult)
    (request : List Byte)
    (h : ∀ r ∈ script, r.value = SOCKET_ERROR ∨
      (0 ≤ r.value ∧ r.value ≤ (MAX_INPUT : Int) - 1)) :
    ∀ idx ∈ nul_write_indices MAX_INPUT script request,
      0 ≤ idx ∧ idx ≤ (MAX_INPUT : Int) - 1 ∧ idx ≠ SOCKET_ERROR := by
  induction script generalizing request with
  | nil => simp [nul_write_indices]
  | cons r rest ih =>
      intro idx hidx
      have hrest : ∀ r ∈ rest, r.value = SOCKET_ERROR ∨
          (0 ≤ r.value ∧ r.value ≤ (MAX_INPUT : Int) - 1) :=
        fun r hr => h r (List.mem_cons_of_mem _ hr)
      have hr := h r (List.mem_cons_self _ _)
      unfold nul_write_indices at hidx
      simp only [] at hidx
      split_ifs at hidx with h1 h2 h3
      · simp at hidx
      · simp only [List.mem_singleton] at hidx
        subst hidx
        rcases hr with hr | hr
        · exact absurd hr h1
        · exact ⟨hr.1, hr.2, h1⟩
      · simp only [List.mem_singleton] at hidx
        subst hidx
        rcases hr with hr | hr
        · exact absurd hr h1
        · exact ⟨hr.1, hr.2, h1⟩
      · rw [List.mem_cons] at hidx
        rcases hidx with hidx | hidx
        · subst hidx
          rcases hr with hr | hr
          · exact absurd hr h1
          · exact ⟨hr.1, hr.2, h1⟩
        · exact ih _ hrest idx hidx

theorem nul_write_indices_length (MAX_INPUT : Nat) (script : List RecvResult)
    (request : List Byte) :
    (nul_write_indices MAX_INPUT script request).length =
      (receive_loop MAX_INPUT script request).successful_reads := by
  induction script generalizing request with
  | nil => simp [nul_write_indices, receive_loop, RxRun.successful_reads]
  | cons r rest ih =>
      cases r with
      | error =>
          simp [nul_write_indices, receive_loop, RxRun.successful_reads, RecvResult.value]
      | data bs =>
          unfold nul_write_indices receive_loop
          simp only [if_neg (recv_value_data bs)]
          have hz : ((RecvResult.data bs).value = 0) ↔ bs.length = 0 := by
            show ((bs.length : Int) = 0) ↔ bs.length = 0
            omega
          by_cases h1 : is_end (append_chunk MAX_INPUT request bs) = true
          · simp [h1, RxRun.successful_reads]
          · by_cases h2 : bs.length = 0
            · simp [h1, h2, hz, RxRun.successful_reads]
            · have h3 : ¬ (RecvResult.data bs).value = 0 := fun e => h2 (hz.mp e)
              simp only [h1, h2, h3, if_false, List.length_cons, ih, RxRun.successful_reads,
                Bool.false_eq_true]
              by_cases he : (receive_loop MAX_INPUT rest
                  (append_chunk MAX_INPUT request bs)).exit = some RxExit.recv_error
              · have := receive_loop_log_pos MAX_INPUT rest (append_chunk MAX_INPUT request bs)
                  (by rw [he]; simp)
                simp only [he, if_true]
                omega
              · simp only [he, if_false]
                omega

/-- C24: when every `recv` call returns the error value or a count between `0` and
the requested length `MAX_INPUT - 1`, every value of `bytes_rx` with which
`buffer[bytes_rx] = 0` is executed in `receive_data` (both implementations run the
same loop) lies between `0` and `MAX_INPUT - 1`, so inside `buffer`, and is not the
error value; the statement is executed once for every read that returned a
count. -/
theorem C24_nul_index_in_bounds (MAX_INPUT : Nat) (connection : SOCKET)
    (script : List RecvResult)
    (hrecv : ∀ r ∈ script, r.value = SOCKET_ERROR ∨
      (0 ≤ r.value ∧ r.value ≤ (MAX_INPUT : Int) - 1)) :
    (∀ idx ∈ nul_write_indices MAX_INPUT script [],
      0 ≤ idx ∧ idx ≤ (MAX_INPUT : Int) - 1 ∧ idx ≠ SOCKET_ERROR ∧ idx.toNat < MAX_INPUT) ∧
    (nul_write_indices MAX_INPUT script []).length =
      (Socket.receive_data MAX_INPUT connection script).run.successful_reads ∧
    (nul_write_indices MAX_INPUT script []).length =
      (WindowsTcpSocket.receive_data MAX_INPUT connection script).run.successful_reads := by
  refine ⟨?_, ?_, ?_⟩
  · intro idx hidx
    have h := nul_write_indices_bounds MAX_INPUT script [] hrecv idx hidx
    refine ⟨h.1, h.2.1, h.2.2, ?_⟩
    have h0 := h.1
    have h1 := h.2.1
    omega
  · rw [socket_receive_data_run]
    exact nul_write_indices_length _ _ _
  · rw [windows_receive_data_run]
    exact nul_write_indices_length _ _ _

/-- C24, witness: with a buffer of `8` bytes, a read of `7` bytes is followed by an
empty read, which ends the loop before the failed read: the terminating NUL is
written at index `7`, then at index `0`. -/
theorem C24_nul_index_in_bounds_witness :
    nul_write_indices 8 [RecvResult.data [71, 69, 84, 32, 47, 32, 72], RecvResult.data [],
      RecvResult.error] [] = [7, 0] ∧
    (∀ idx ∈ nul_write_indices 8 [RecvResult.data [71, 69, 84, 32, 47, 32, 72],
        RecvResult.data [], RecvResult.error] [],
      0 ≤ idx ∧ idx ≤ ((8 : Nat) : Int) - 1 ∧ idx ≠ SOCKET_ERROR ∧ idx.toNat < 8) :=
  ⟨by decide,
    (C24_nul_index_in_bounds 8 5 [RecvResult.data [71, 69, 84, 32, 47, 32, 72],
      RecvResult.data [], RecvResult.error] (by decide)).1⟩

/-! ## C23: the stopping rule of the receive loop -/

theorem last_four_iff (text : List Byte) :
    (4 ≤ text.length ∧ text.drop (text.length - 4) = CRLFCRLF) ↔ is_end text = true := by
  rw [is_end_iff, List.suffix_iff_eq_drop]
  have hl : CRLFCRLF.length = 4 := rfl
  rw [hl]
  constructor
  · intro h
    exact h.2.symm
  · intro h
    have := congrArg List.length h
    simp only [List.length_drop, hl] at this
    exact ⟨by omega, h.symm⟩

theorem stop_rule_error (request : List Byte) (rest : List RecvResult) :
    stop_rule request (RecvResult.error :: rest) 0 = true := by
  simp [stop_rule]

theorem stop_rule_data_zero (MAX_INPUT : Nat) (request bs : List Byte) (rest : List RecvResult) :
    stop_rule request (RecvResult.data bs :: rest) 0 =
      (decide (bs.length = 0) || is_end (append_chunk MAX_INPUT request bs)) := by
  have h := last_four_iff (request ++ from_c_str bs)
  simp only [stop_rule, List.getElem?_cons_zero, List.take_succ_cons, List.take_zero,
    accumulated, List.append_nil, append_chunk_eq]
  congr 1
  rw [Bool.eq_iff_iff]
  simpa using h

theorem stop_rule_data_succ (request bs : List Byte) (rest : List RecvResult) (j : Nat) :
    stop_rule request (RecvResult.data bs :: rest) (j + 1) =
      stop_rule (request ++ from_c_str bs) rest j := by
  simp only [stop_rule, List.getElem?_cons_succ, List.take_succ_cons, accumulated,
    List.append_assoc]

theorem forall_lt_succ_shift (P : Nat → Prop) (j : Nat) :
    (∀ i < j + 1, P i) ↔ (P 0 ∧ ∀ i < j, P (i + 1)) := by
  constructor
  · intro h
    exact ⟨h 0 (by omega), fun i hi => h (i + 1) (by omega)⟩
  · rintro ⟨h0, h⟩ i hi
    cases i with
    | zero => exact h0
    | succ i => exact h i (by omega)

/-- The loop is left after read `k` (counted from `0`) exactly when `k` is the first
read at which the stopping rule holds. -/
theorem receive_loop_exact (MAX_INPUT : Nat) (script : List RecvResult) (request : List Byte)
    (k : Nat) :
    ((receive_loop MAX_INPUT script request).exit ≠ none ∧
        (receive_loop MAX_INPUT script request).log.length = k + 1) ↔
      (stop_rule request script k = true ∧ ∀ j < k, stop_rule request script j = false) := by
  induction script generalizing request k with
  | nil => simp [receive_loop, stop_rule]
  | cons r rest ih =>
      cases r with
      | error =>
          cases k with
          | zero => simp [receive_loop, stop_rule_error]
          | succ j =>
              simp only [receive_loop, List.length_singleton]
              constructor
              · intro h
                omega
              · intro h
                have := h.2 0 (by omega)
                rw [stop_rule_error] at this
                exact absurd this (by simp)
      | data bs =>
          have h0 := stop_rule_data_zero MAX_INPUT request bs rest
          simp only [receive_loop]
          by_cases h1 : is_end (append_chunk MAX_INPUT request bs) = true
          · have hs : stop_rule request (RecvResult.data bs :: rest) 0 = true := by
              rw [h0, h1]; simp
            rw [if_pos h1]
            cases k with
            | zero => simp [hs]
            | succ j =>
                simp only [List.length_singleton]
                constructor
                · intro h
                  omega
                · intro h
                  have := h.2 0 (by omega)
                  rw [hs] at this
                  exact absurd this (by simp)
          · rw [if_neg h1]
            by_cases h2 : bs.length = 0
            · have hs : stop_rule request (RecvResult.data bs :: rest) 0 = true := by
                rw [h0]; simp [h2]
              rw [if_pos h2]
              cases k with
              | zero => simp [hs]
              | succ j =>
                  simp only [List.length_singleton]
                  constructor
                  · intro h
                    omega
                  · intro h
                    have := h.2 0 (by omega)
                    rw [hs] at this
                    exact absurd this (by simp)
            · have hs : stop_rule request (RecvResult.data bs :: rest) 0 = false := by
                rw [h0]; simp [h2, h1]
              rw [if_neg h2]
              simp only [List.length_cons]
              cases k with
              | zero =>
                  rw [hs]
                  constructor
                  · intro h
                    have := receive_loop_log_pos MAX_INPUT rest
                      (append_chunk MAX_INPUT request bs) h.1
                    omega
                  · intro h
                    exact absurd h.1 (by simp)
              | succ j =>
                  have e := ih (append_chunk MAX_INPUT request bs) j
                  rw [append_chunk_eq] at e ⊢
                  rw [stop_rule_data_succ, forall_lt_succ_shift, hs]
                  simp only [stop_rule_data_succ, true_and]
                  rw [← e]
                  constructor
                  · intro h
                    exact ⟨h.1, by omega⟩
                  · intro h
                    exact ⟨h.1, by omega⟩

/-- The loop is still waiting in `recv` when all answers are consumed exactly when
the stopping rule holds at none of the reads; every answer was consumed then. -/
theorem receive_loop_never_stops (MAX_INPUT : Nat) (script : List RecvResult)
    (request : List Byte) :
    ((receive_loop MAX_INPUT script request).exit = none ↔
      ∀ j, stop_rule request script j = false) ∧
    ((receive_loop MAX_INPUT script request).exit = none →
      (receive_loop MAX_INPUT script request).log.length = script.length) := by
  induction script generalizing request with
  | nil => simp [receive_loop, stop_rule]
  | cons r rest ih =>
      cases r with
      | error =>
          simp only [receive_loop]
          refine ⟨⟨fun h => absurd h (by simp), fun h => ?_⟩, fun h => absurd h (by simp)⟩
          have := h 0
          rw [stop_rule_error] at this
          exact absurd this (by simp)
      | data bs =>
          have h0 := stop_rule_data_zero MAX_INPUT request bs rest
          simp only [receive_loop]
          by_cases h1 : is_end (append_chunk MAX_INPUT request bs) = true
          · rw [if_pos h1]
            refine ⟨⟨fun h => absurd h (by simp), fun h => ?_⟩, fun h => absurd h (by simp)⟩
            have := h 0
            rw [h0, h1] at this
            simp at this
          · rw [if_neg h1]
            by_cases h2 : bs.length = 0
            · rw [if_pos h2]
              refine ⟨⟨fun h => absurd h (by simp), fun h => ?_⟩, fun h => absurd h (by simp)⟩
              have := h 0
              rw [h0] at this
              simp [h2] at this
            · rw [if_neg h2]
              have e := ih (append_chunk MAX_INPUT request bs)
              rw [append_chunk_eq] at e ⊢
              simp only [List.length_cons]
              refine ⟨⟨fun h j => ?_, fun h => ?_⟩, fun h => ?_⟩
              · cases j with
                | zero => rw [h0]; simp [h2, h1]
                | succ j =>
                    rw [stop_rule_data_succ]
                    exact e.1.mp h j
              · apply e.1.mpr
                intro j
                have := h (j + 1)
                rwa [stop_rule_data_succ] at this
              · rw [e.2 h]

theorem receive_loop_stop_calls (MAX_INPUT : Nat) (script : List RecvResult) (k : Nat) :
    ((receive_loop MAX_INPUT script []).exit ≠ none ∧
        (receive_loop MAX_INPUT script []).recv_calls = k + 1) ↔
      (stop_rule [] script k = true ∧ ∀ j < k, stop_rule [] script j = false) := by
  rw [← receive_loop_exact MAX_INPUT script [] k]
  unfold RxRun.recv_calls
  constructor
  · rintro ⟨h1, h2⟩
    rw [if_neg h1] at h2
    exact ⟨h1, h2⟩
  · rintro ⟨h1, h2⟩
    rw [if_neg h1]
    exact ⟨h1, h2⟩

/-- C23: `receive_data` (both implementations) leaves its loop after read `k`
(counted from `0`; `k + 1` calls of `recv` made, and no further one) exactly when
`k` is the first read that returned the error value, or returned `0` bytes, or
after which the accumulated request (every chunk appended as a C string) has at
least four characters of which the last four are `\r\n\r\n`; its `recv` calls are
then the first `k + 1` reads. When no read is of that kind the loop consumes every
answer and waits in a further `recv`. The test of the loop looks at the last four
characters only: a terminator inside a text that does not end in one does not
satisfy it. -/
theorem C23_stopping_rule (MAX_INPUT : Nat) (connection : SOCKET) (script : List RecvResult)
    (k : Nat) :
    (((Socket.receive_data MAX_INPUT connection script).run.exit ≠ none ∧
        (Socket.receive_data MAX_INPUT connection script).run.recv_calls = k + 1) ↔
      (stop_rule [] script k = true ∧ ∀ j < k, stop_rule [] script j = false)) ∧
    (((WindowsTcpSocket.receive_data MAX_INPUT connection script).run.exit ≠ none ∧
        (WindowsTcpSocket.receive_data MAX_INPUT connection script).run.recv_calls = k + 1) ↔
      (stop_rule [] script k = true ∧ ∀ j < k, stop_rule [] script j = false)) ∧
    ((stop_rule [] script k = true ∧ ∀ j < k, stop_rule [] script j = false) →
      (Socket.receive_data MAX_INPUT connection script).os =
        (script.take (k + 1)).map (fun r => Event.recv connection (MAX_INPUT - 1) r) ∧
      (WindowsTcpSocket.receive_data MAX_INPUT connection script).os =
        (script.take (k + 1)).map (fun r => Event.recv connection (MAX_INPUT - 1) r)) ∧
    (((Socket.receive_data MAX_INPUT connection script).run.exit = none ↔
        ∀ j, stop_rule [] script j = false) ∧
      ((WindowsTcpSocket.receive_data MAX_INPUT connection script).run.exit = none ↔
        ∀ j, stop_rule [] script j = false) ∧
      ((Socket.receive_data MAX_INPUT connection script).run.exit = none →
        (Socket.receive_data MAX_INPUT connection script).run.recv_calls =
          script.length + 1)) ∧
    (∀ pre post : List Byte, ¬ CRLFCRLF <:+ pre ++ CRLFCRLF ++ post →
      is_end (pre ++ CRLFCRLF ++ post) = false) := by
  rw [socket_receive_data_os, windows_receive_data_os, socket_receive_data_run,
    windows_receive_data_run]
  refine ⟨receive_loop_stop_calls _ _ _, receive_loop_stop_calls _ _ _, ?_,
    ⟨(receive_loop_never_stops _ _ _).1, (receive_loop_never_stops _ _ _).1, ?_⟩, ?_⟩
  · intro h
    have h2 := (receive_loop_exact MAX_INPUT script [] k).mpr h
    have e : recv_events MAX_INPUT connection script (receive_loop MAX_INPUT script []) =
        (script.take (k + 1)).map (fun r => Event.recv connection (MAX_INPUT - 1) r) := by
      unfold recv_events
      rw [if_neg h2.1, h2.2, List.append_nil]
    exact ⟨e, e⟩
  · intro h
    unfold RxRun.recv_calls
    rw [(receive_loop_never_stops MAX_INPUT script []).2 h, if_pos h]
  · intro pre post h
    rw [← Bool.not_eq_true, is_end_iff]
    exact h

/-! ## Lemmas: the servicing of one entry, case by case -/

theorem open_body_skip (MAX_INPUT : Nat) (shutdown : SOCKET → ShutdownResult) (io : ServiceIO)
    (self : Socket) (ceiling i : Nat)
    (h : ∀ c, self.connections[i]? = some c → c.socket = INVALID_SOCKET) :
    Socket.open_body MAX_INPUT shutdown io self ceiling i =
      { self := self, ceiling := ceiling, flow := Control.next } := by
  unfold Socket.open_body
  cases hc : self.connections[i]? with
  | none => rfl
  | some c => simp [h c hc]

theorem open_body_eq (MAX_INPUT : Nat) (shutdown : SOCKET → ShutdownResult) (io : ServiceIO)
    (self : Socket) (ceiling i : Nat) (c : Connection)
    (hc : self.connections[i]? = some c) (hv : c.socket ≠ INVALID_SOCKET) :
    Socket.open_body MAX_INPUT shutdown io self ceiling i =
      if open_body_waits MAX_INPUT io self c = true then
        { self := { self with os := self.os ++ open_body_reads MAX_INPUT io self c },
          ceiling := ceiling, flow := Control.blocked }
      else if FD_ISSET c.socket self.write_list = true then
        if io.write.gethostname_result = SOCKET_ERROR then
          { self := { self with
              os := self.os ++ open_body_reads MAX_INPUT io self c ++
                [Event.getpeername c.socket, Event.gethostname SOCKET_ERROR] },
            ceiling := ceiling, flow := Control.raised Exception.failed_to_get_host_name }
        else
          { self := { self with
              os := self.os ++ open_body_reads MAX_INPUT io self c ++
                write_data_calls io.write c.socket ++ close_socket_events shutdown c.socket,
              write_list := FD_CLR c.socket self.write_list,
              connections := self.connections.set i { c with socket := INVALID_SOCKET } },
            ceiling := (ceiling + 2 ^ 32 - 1) % 2 ^ 32, flow := Control.next }
      else
        { self := { self with os := self.os ++ open_body_reads MAX_INPUT io self c },
          ceiling := ceiling, flow := Control.next } := by
  unfold Socket.open_body open_body_waits open_body_reads read_test
  simp only [hc]
  rw [if_neg hv]
  by_cases hr : c.socket ≠ self.server_socket ∧ FD_ISSET c.socket self.read_list = true
  · by_cases hx : (Socket.receive_data MAX_INPUT c.socket io.recv).run.exit = none
    · simp [hr, hx]
    · by_cases hw : FD_ISSET c.socket self.write_list = true
      · by_cases hh : io.write.gethostname_result = SOCKET_ERROR
        · simp [hr, hx, hw, hh, Socket.write_data]
        · simp [hr, hx, hw, hh, Socket.write_data, Socket.close_socket, write_data_calls]
      · simp [hr, hx, hw]
  · have hr2 : (decide (c.socket ≠ self.server_socket) && FD_ISSET c.socket self.read_list) =
        false := by
      rw [Bool.eq_false_iff]
      intro h
      apply hr
      simpa using h
    by_cases hw : FD_ISSET c.socket self.write_list = true
    · by_cases hh : io.write.gethostname_result = SOCKET_ERROR
      · simp [hr, hr2, hw, hh, Socket.write_data]
      · simp [hr, hr2, hw, hh, Socket.write_data, Socket.close_socket, write_data_calls]
    · simp [hr, hr2, hw]

theorem recv_events_is_recv (MAX_INPUT : Nat) (connection : SOCKET) (script : List RecvResult)
    (run : RxRun) : ∀ e ∈ recv_events MAX_INPUT connection script run, is_recv e = true := by
  intro e he
  unfold recv_events at he
  rw [List.mem_append] at he
  rcases he with he | he
  · rw [List.mem_map] at he
    obtain ⟨r, _, rfl⟩ := he
    rfl
  · split_ifs at he
    · simp only [List.mem_singleton] at he
      subst he
      rfl
    · simp at he

theorem open_body_reads_is_recv (MAX_INPUT : Nat) (io : ServiceIO) (self : Socket)
    (c : Connection) : ∀ e ∈ open_body_reads MAX_INPUT io self c, is_recv e = true := by
  intro e he
  unfold open_body_reads at he
  split_ifs at he
  · rw [socket_receive_data_os] at he
    exact recv_events_is_recv _ _ _ _ e he
  · simp at he

/-- The calls of `write_data` on `s` are neither `accept`, `select` nor `recv` calls,
and none of them is a call of `write_data` or `close_socket` on another socket. -/
theorem write_data_calls_class (io : WriteIO) (s : SOCKET) :
    ∀ e ∈ write_data_calls io s, is_recv e = false ∧ is_accept e = false ∧
      is_select e = false ∧ ∀ x, x ≠ s → writes_or_closes x e = false := by
  intro e he
  unfold write_data_calls at he
  simp only [List.mem_cons, List.mem_singleton, List.not_mem_nil, or_false] at he
  rcases he with rfl | rfl | rfl <;>
    refine ⟨rfl, rfl, rfl, fun x hx => ?_⟩ <;>
    simp [writes_or_closes, Ne.symm hx]

theorem close_socket_events_class (shutdown : SOCKET → ShutdownResult) (s : SOCKET) :
    ∀ e ∈ close_socket_events shutdown s, is_recv e = false ∧ is_accept e = false ∧
      is_select e = false ∧ ∀ x, x ≠ s → writes_or_closes x e = false := by
  intro e he
  unfold close_socket_events at he
  simp only [List.mem_append, List.mem_singleton] at he
  rcases he with (rfl | he) | rfl
  · exact ⟨rfl, rfl, rfl, fun x hx => by simp [writes_or_closes, Ne.symm hx]⟩
  · split_ifs at he
    all_goals
      first
        | (simp only [List.mem_singleton] at he
           subst he
           exact ⟨rfl, rfl, rfl, fun x _ => rfl⟩)
        | simp at he
  · exact ⟨rfl, rfl, rfl, fun x hx => by simp [writes_or_closes, Ne.symm hx]⟩

theorem is_recv_class (e : Event) (h : is_recv e = true) :
    is_accept e = false ∧ is_select e = false ∧ ∀ x, writes_or_closes x e = false := by
  cases e <;> simp [is_recv] at h <;> exact ⟨rfl, rfl, fun _ => rfl⟩

/-- The calls made while one entry is serviced: `recv` calls, and, only for an
entry whose socket is in the write set, calls of `write_data` and `close_socket`
on that socket. -/
theorem open_body_new_events (MAX_INPUT : Nat) (shutdown : SOCKET → ShutdownResult)
    (io : ServiceIO) (self : Socket) (ceiling i : Nat) :
    ∃ new, (Socket.open_body MAX_INPUT shutdown io self ceiling i).self.os = self.os ++ new ∧
      ∀ e ∈ new, is_accept e = false ∧ is_select e = false ∧
        (is_recv e = true ∨
          (is_recv e = false ∧ ∃ c, self.connections[i]? = some c ∧
            FD_ISSET c.socket self.write_list = true ∧
            ∀ x, x ≠ c.socket → writes_or_closes x e = false)) := by
  by_cases hskip : ∀ c, self.connections[i]? = some c → c.socket = INVALID_SOCKET
  · rw [open_body_skip _ _ _ _ _ _ hskip]
    exact ⟨[], by simp, by simp⟩
  · push_neg at hskip
    obtain ⟨c, hc, hv⟩ := hskip
    have hrd : ∀ e ∈ open_body_reads MAX_INPUT io self c,
        is_accept e = false ∧ is_select e = false ∧
        (is_recv e = true ∨
          (is_recv e = false ∧ ∃ c, self.connections[i]? = some c ∧
            FD_ISSET c.socket self.write_list = true ∧
            ∀ x, x ≠ c.socket → writes_or_closes x e = false)) := by
      intro e he
      have h1 := open_body_reads_is_recv _ _ _ _ e he
      have h2 := is_recv_class e h1
      exact ⟨h2.1, h2.2.1, Or.inl h1⟩
    rw [open_body_eq _ _ _ _ _ _ c hc hv]
    split_ifs with h1 h2 h3
    · exact ⟨_, rfl, hrd⟩
    · refine ⟨open_body_reads MAX_INPUT io self c ++
        [Event.getpeername c.socket, Event.gethostname SOCKET_ERROR],
        by simp [List.append_assoc], ?_⟩
      intro e he
      rw [List.mem_append] at he
      rcases he with he | he
      · exact hrd e he
      · simp only [List.mem_cons, List.mem_singleton, List.not_mem_nil, or_false] at he
        rcases he with rfl | rfl
        · exact ⟨rfl, rfl, Or.inr ⟨rfl, c, hc, h2, fun x hx => by
            simp [writes_or_closes, Ne.symm hx]⟩⟩
        · exact ⟨rfl, rfl, Or.inr ⟨rfl, c, hc, h2, fun x _ => rfl⟩⟩
    · refine ⟨open_body_reads MAX_INPUT io self c ++ write_data_calls io.write c.socket ++
        close_socket_events shutdown c.socket, by simp [List.append_assoc], ?_⟩
      intro e he
      rw [List.mem_append, List.mem_append] at he
      rcases he with (he | he) | he
      · exact hrd e he
      · have := write_data_calls_class _ _ e he
        exact ⟨this.2.1, this.2.2.1, Or.inr ⟨this.1, c, hc, h2, this.2.2.2⟩⟩
      · have := close_socket_events_class _ _ e he
        exact ⟨this.2.1, this.2.2.1, Or.inr ⟨this.1, c, hc, h2, this.2.2.2⟩⟩
    · exact ⟨_, rfl, hrd⟩

/-- The calls made by the loop over the connection set extend the trace; each of
them satisfies whatever holds of every call made while an entry is serviced in a
state satisfying an invariant of the loop. -/
theorem open_for_new_events (MAX_INPUT : Nat) (shutdown : SOCKET → ShutdownResult)
    (service : Nat → ServiceIO) (Inv : Socket → Prop) (Q : Event → Prop)
    (hinv : ∀ self ceiling i, Inv self →
      Inv (Socket.open_body MAX_INPUT shutdown (service i) self ceiling i).self)
    (hstep : ∀ self ceiling i, Inv self →
      ∃ new, (Socket.open_body MAX_INPUT shutdown (service i) self ceiling i).self.os =
        self.os ++ new ∧ ∀ e ∈ new, Q e)
    (idxs : List Nat) (self : Socket) (ceiling : Nat) (h : Inv self) :
    ∃ new, (Socket.open_for MAX_INPUT shutdown service idxs self ceiling).self.os =
      self.os ++ new ∧ ∀ e ∈ new, Q e := by
  induction idxs generalizing self ceiling with
  | nil => exact ⟨[], by simp [Socket.open_for], by simp⟩
  | cons i rest ih =>
      obtain ⟨new1, h1, hq1⟩ := hstep self ceiling i h
      rw [open_for_cons]
      split_ifs
      · obtain ⟨new2, h2, hq2⟩ := ih _
          (Socket.open_body MAX_INPUT shutdown (service i) self ceiling i).ceiling
          (hinv self ceiling i h)
        refine ⟨new1 ++ new2, ?_, ?_⟩
        · rw [h2, h1, List.append_assoc]
        · intro e he
          rw [List.mem_append] at he
          rcases he with he | he
          · exact hq1 e he
          · exact hq2 e he
      · exact ⟨new1, h1, hq1⟩

/-! ## Lemmas: sockets outside the write set -/

theorem open_for_singleton (MAX_INPUT : Nat) (shutdown : SOCKET → ShutdownResult)
    (service : Nat → ServiceIO) (i : Nat) (self : Socket) (ceiling : Nat) :
    Socket.open_for MAX_INPUT shutdown service [i] self ceiling =
      Socket.open_body MAX_INPUT shutdown (service i) self ceiling i := by
  rw [open_for_cons]
  split_ifs with h
  · simp only [Socket.open_for]
    rw [← h]
  · rfl

theorem open_for_untouched (MAX_INPUT : Nat) (shutdown : SOCKET → ShutdownResult)
    (service : Nat → ServiceIO) (idxs : List Nat) (self : Socket) (ceiling : Nat) (s : SOCKET)
    (h : FD_ISSET s self.write_list = false) :
    ∃ new, (Socket.open_for MAX_INPUT shutdown service idxs self ceiling).self.os =
      self.os ++ new ∧ ∀ e ∈ new, writes_or_closes s e = false := by
  apply open_for_new_events MAX_INPUT shutdown service
    (fun x => FD_ISSET s x.write_list = false) (fun e => writes_or_closes s e = false)
  · intro x ceiling i hx
    rw [← Bool.not_eq_true] at hx ⊢
    exact fun h2 => hx ((open_body_write_list MAX_INPUT shutdown (service i) x ceiling i s).1 h2)
  · intro x ceiling i hx
    obtain ⟨new, h1, h2⟩ := open_body_new_events MAX_INPUT shutdown (service i) x ceiling i
    refine ⟨new, h1, fun e he => ?_⟩
    rcases (h2 e he).2.2 with h3 | ⟨_, c, _, hw, h3⟩
    · exact (is_recv_class e h3).2.2 s
    · apply h3
      intro e2
      rw [e2, hw] at hx
      exact absurd hx (by simp)
  · exact h

theorem open_for_keeps_unwritable (MAX_INPUT : Nat) (shutdown : SOCKET → ShutdownResult)
    (service : Nat → ServiceIO) (idxs : List Nat) (self : Socket) (ceiling j : Nat)
    (c : Connection) (hc : self.connections[j]? = some c)
    (h : FD_ISSET c.socket self.write_list = false) :
    (Socket.open_for MAX_INPUT shutdown service idxs self ceiling).self.connections[j]? =
      some c := by
  have := open_for_preserves MAX_INPUT shutdown service
    (fun x => FD_ISSET c.socket x.write_list = false ∧ x.connections[j]? = some c)
    (by
      intro x ceiling i hx
      refine ⟨?_, ?_⟩
      · have h1 := hx.1
        rw [← Bool.not_eq_true] at h1 ⊢
        exact fun h2 =>
          h1 ((open_body_write_list MAX_INPUT shutdown (service i) x ceiling i c.socket).1 h2)
      · by_cases hij : j = i
        · subst hij
          rw [open_body_keeps MAX_INPUT shutdown (service j) x ceiling j c hx.2 hx.1]
          exact hx.2
        · rw [open_body_other_entries MAX_INPUT shutdown (service i) x ceiling i j hij]
          exact hx.2)
    idxs self ceiling ⟨h, hc⟩
  exact this.2

theorem socket_select_write_list (shutdown : SOCKET → ShutdownResult) (answer : SelectAnswer)
    (self : Socket) (s : SOCKET) (h : (Socket.select shutdown answer self).raised = none)
    (hs : FD_ISSET s (Socket.select shutdown answer self).self.write_list = true) :
    s ∈ answer.writable := by
  unfold Socket.select at h hs
  simp only [] at h hs
  split_ifs at h hs
  simp only [FD_ISSET, decide_eq_true_eq, List.mem_filter] at hs
  exact hs.2

theorem open_start_accepts (shutdown : SOCKET → ShutdownResult) (io : CycleIO) (self : Socket)
    (ceiling : Nat)
    (hsel : (Socket.select shutdown io.select self).raised = none)
    (hready : FD_ISSET self.server_socket
      (Socket.select shutdown io.select self).self.read_list = true)
    (hroom : ceiling < self.max_connections)
    (hclient : io.accept.client ≠ INVALID_SOCKET) :
    Socket.open_start shutdown io self ceiling =
      { self := { (Socket.select shutdown io.select self).self with
          os := (Socket.select shutdown io.select self).self.os ++
            [Event.accept self.server_socket io.accept.client],
          read_list := FD_SET io.accept.client
            (Socket.select shutdown io.select self).self.read_list,
          connections := (Socket.select shutdown io.select self).self.connections ++
            [{ socket := io.accept.client }] },
        ceiling := (ceiling + 1) % 2 ^ 32, flow := Control.next } := by
  have h := socket_select_ok shutdown io.select self hsel
  unfold Socket.open_start Socket.open_accept Socket.handle_connection
  rw [h.1, h.2.1]
  simp [hready, hroom, hclient, h.1, h.2.1]

theorem open_cycle_loop (MAX_INPUT : Nat) (shutdown : SOCKET → ShutdownResult) (io : CycleIO)
    (self : Socket) (ceiling : Nat)
    (hsel : (Socket.select shutdown io.select self).raised = none)
    (hwait : (Socket.select shutdown io.select self).timed_out = false)
    (hstart : (Socket.open_start shutdown io self ceiling).flow = Control.next) :
    Socket.open_cycle MAX_INPUT shutdown io self ceiling =
      Socket.open_for MAX_INPUT shutdown io.service
        (List.range (Socket.open_start shutdown io self ceiling).self.connections.length)
        (Socket.open_start shutdown io self ceiling).self
        (Socket.open_start shutdown io self ceiling).ceiling := by
  unfold Socket.open_start at hstart ⊢
  unfold Socket.open_cycle
  simp only [hsel, hwait, hstart]
  simp

/-! ## C25: a peer accepted in a cycle -/

/-- C25, refuted as stated: in a cycle in which `handle_connection` accepts the
client `8` (it is appended to the connection set and put into the read set), the
loop services the peer `7` first; the host-name lookup of `write_data` fails, the
exception leaves `open`, and no `recv` call is made on `8` in that cycle. -/
theorem C25_counterexample :
    (Socket.open_start shutdown_not_connected host_name_fails_answers serving_socket
      1).self.connections = [⟨4, 0⟩, ⟨7, 0⟩, ⟨8, 0⟩] ∧
    (Socket.open_start shutdown_not_connected host_name_fails_answers serving_socket
      1).self.read_list = [4, 8] ∧
    (Socket.open_cycle 4096 shutdown_not_connected host_name_fails_answers serving_socket
      1).flow = Control.raised Exception.failed_to_get_host_name ∧
    (Socket.open_cycle 4096 shutdown_not_connected host_name_fails_answers serving_socket
      1).self.os =
      [Event.select 8 [4, 7] [4, 7] 2, Event.accept 4 8, Event.getpeername 7,
        Event.gethostname SOCKET_ERROR] ∧
    (∀ e ∈ (Socket.open_cycle 4096 shutdown_not_connected host_name_fails_answers
      serving_socket 1).self.os, is_recv e = false) := by
  decide

/-- C25, as amended: in a cycle of `open` in which `handle_connection` accepts a
client `c` (a descriptor other than the listening socket), `c` is appended to the
connection set and put into the read set, and the write set is left as the wait
returned it. When the servicing of the entries before it runs to its end (none
raises, none keeps waiting in `recv`), the calls that follow are those of
`receive_data` on `c`, and nothing else if `c` was not in the write set returned
by the wait. Whether or not the loop gets that far, if `c` was not in that write
set no call of `write_data` or `close_socket` is made on `c` in the cycle and its
entry keeps the value `c`. -/
theorem C25_accepted_peer_is_read (MAX_INPUT : Nat) (shutdown : SOCKET → ShutdownResult)
    (io : CycleIO) (self : Socket) (ceiling : Nat)
    (hsel : (Socket.select shutdown io.select self).raised = none)
    (hwait : (Socket.select shutdown io.select self).timed_out = false)
    (hready : FD_ISSET self.server_socket
      (Socket.select shutdown io.select self).self.read_list = true)
    (hroom : ceiling < self.max_connections)
    (hclient : io.accept.client ≠ INVALID_SOCKET)
    (hnew : io.accept.client ≠ self.server_socket) :
    ((Socket.open_start shutdown io self ceiling).flow = Control.next ∧
      (Socket.open_start shutdown io self ceiling).self.connections =
        (Socket.select shutdown io.select self).self.connections ++
          [{ socket := io.accept.client }] ∧
      FD_ISSET io.accept.client (Socket.open_start shutdown io self ceiling).self.read_list =
        true ∧
      (Socket.open_start shutdown io self ceiling).self.write_list =
        (Socket.select shutdown io.select self).self.write_list ∧
      (Socket.open_start shutdown io self ceiling).self.os =
        (Socket.select shutdown io.select self).self.os ++
          [Event.accept self.server_socket io.accept.client]) ∧
    ((Socket.open_for MAX_INPUT shutdown io.service
        (List.range (Socket.select shutdown io.select self).self.connections.length)
        (Socket.open_start shutdown io self ceiling).self
        (Socket.open_start shutdown io self ceiling).ceiling).flow = Control.next →
      ∃ rest, (Socket.open_cycle MAX_INPUT shutdown io self ceiling).self.os =
        (Socket.open_for MAX_INPUT shutdown io.service
          (List.range (Socket.select shutdown io.select self).self.connections.length)
          (Socket.open_start shutdown io self ceiling).self
          (Socket.open_start shutdown io self ceiling).ceiling).self.os ++
        (Socket.receive_data MAX_INPUT io.accept.client
          (io.service (Socket.select shutdown io.select self).self.connections.length).recv).os ++
        rest ∧
        (io.accept.client ∉ io.select.writable → rest = [])) ∧
    (io.accept.client ∉ io.select.writable →
      (∃ new, (Socket.open_cycle MAX_INPUT shutdown io self ceiling).self.os = self.os ++ new ∧
        ∀ e ∈ new, writes_or_closes io.accept.client e = false) ∧
      (Socket.open_cycle MAX_INPUT shutdown io self ceiling).self.connections[
        (Socket.select shutdown io.select self).self.connections.length]? =
          some { socket := io.accept.client }) := by
  have hst := open_start_accepts shutdown io self ceiling hsel hready hroom hclient
  have hsok := socket_select_ok shutdown io.select self hsel
  have hflow : (Socket.open_start shutdown io self ceiling).flow = Control.next := by
    rw [hst]
  have hconn : (Socket.open_start shutdown io self ceiling).self.connections =
      (Socket.select shutdown io.select self).self.connections ++
        [{ socket := io.accept.client }] := by
    rw [hst]
  have hwl : (Socket.open_start shutdown io self ceiling).self.write_list =
      (Socket.select shutdown io.select self).self.write_list := by
    rw [hst]
  have hrl : FD_ISSET io.accept.client
      (Socket.open_start shutdown io self ceiling).self.read_list = true := by
    rw [hst]
    simp [FD_ISSET, mem_FD_SET]
  have hos : (Socket.open_start shutdown io self ceiling).self.os =
      (Socket.select shutdown io.select self).self.os ++
        [Event.accept self.server_socket io.accept.client] := by
    rw [hst]
  have hsrv : (Socket.open_start shutdown io self ceiling).self.server_socket =
      self.server_socket := by
    rw [hst]
    exact hsok.1
  have hentry : (Socket.open_start shutdown io self ceiling).self.connections[
      (Socket.select shutdown io.select self).self.connections.length]? =
        some { socket := io.accept.client } := by
    rw [hconn]
    simp
  have hcycle := open_cycle_loop MAX_INPUT shutdown io self ceiling hsel hwait hflow
  have hlen : (Socket.open_start shutdown io self ceiling).self.connections.length =
      (Socket.select shutdown io.select self).self.connections.length + 1 := by
    rw [hconn]
    simp
  have hnotw : io.accept.client ∉ io.select.writable →
      FD_ISSET io.accept.client (Socket.open_start shutdown io self ceiling).self.write_list =
        false := by
    intro h
    rw [hwl, ← Bool.not_eq_true]
    exact fun h2 => h (socket_select_write_list shutdown io.select self _ hsel h2)
  refine ⟨⟨hflow, hconn, hrl, hwl, hos⟩, ?_, ?_⟩
  · intro hbefore
    rw [hcycle, hlen, List.range_succ, open_for_append, if_pos hbefore, open_for_singleton]
    have hfr := open_for_frame MAX_INPUT shutdown io.service
      (List.range (Socket.select shutdown io.select self).self.connections.length)
      (Socket.open_start shutdown io self ceiling).self
      (Socket.open_start shutdown io self ceiling).ceiling
    have hc := open_for_not_visited MAX_INPUT shutdown io.service
      (List.range (Socket.select shutdown io.select self).self.connections.length)
      (Socket.open_start shutdown io self ceiling).self
      (Socket.open_start shutdown io self ceiling).ceiling
      (Socket.select shutdown io.select self).self.connections.length (by simp)
    rw [hentry] at hc
    have hread : read_test (Socket.open_for MAX_INPUT shutdown io.service
        (List.range (Socket.select shutdown io.select self).self.connections.length)
        (Socket.open_start shutdown io self ceiling).self
        (Socket.open_start shutdown io self ceiling).ceiling).self
        { socket := io.accept.client } = true := by
      unfold read_test
      rw [hfr.1, hfr.2.1, hsrv, hrl]
      simp [hnew]
    have hreads : open_body_reads MAX_INPUT
        (io.service (Socket.select shutdown io.select self).self.connections.length)
        (Socket.open_for MAX_INPUT shutdown io.service
          (List.range (Socket.select shutdown io.select self).self.connections.length)
          (Socket.open_start shutdown io self ceiling).self
          (Socket.open_start shutdown io self ceiling).ceiling).self
        { socket := io.accept.client } =
        (Socket.receive_data MAX_INPUT io.accept.client
          (io.service (Socket.select shutdown io.select self).self.connections.length).recv).os := by
      unfold open_body_reads
      rw [if_pos hread]
    rw [open_body_eq _ _ _ _ _ _ _ hc hclient, hreads]
    have hw2 : io.accept.client ∉ io.select.writable →
        ¬ FD_ISSET io.accept.client (Socket.open_for MAX_INPUT shutdown io.service
          (List.range (Socket.select shutdown io.select self).self.connections.length)
          (Socket.open_start shutdown io self ceiling).self
          (Socket.open_start shutdown io self ceiling).ceiling).self.write_list = true := by
      intro h h2
      have := open_for_write_list_subset _ _ _ _ _ _ _ h2
      rw [hnotw h] at this
      exact absurd this (by simp)
    split_ifs with h1 h2 h3
    · exact ⟨[], by simp, fun _ => rfl⟩
    · exact ⟨[Event.getpeername io.accept.client, Event.gethostname SOCKET_ERROR], by simp,
        fun h => absurd h2 (hw2 h)⟩
    · exact ⟨write_data_calls
          (io.service (Socket.select shutdown io.select self).self.connections.length).write
          io.accept.client ++ close_socket_events shutdown io.accept.client,
        by simp [List.append_assoc], fun h => absurd h2 (hw2 h)⟩
    · exact ⟨[], by simp, fun _ => rfl⟩
  · intro h
    refine ⟨?_, ?_⟩
    · obtain ⟨new, h1, h2⟩ := open_for_untouched MAX_INPUT shutdown io.service
        (List.range (Socket.open_start shutdown io self ceiling).self.connections.length)
        (Socket.open_start shutdown io self ceiling).self
        (Socket.open_start shutdown io self ceiling).ceiling io.accept.client (hnotw h)
      refine ⟨[Event.select self.reset_socket_lists.select_nfds self.reset_socket_lists.read_list
        self.reset_socket_lists.write_list io.select.result,
        Event.accept self.server_socket io.accept.client] ++ new, ?_, ?_⟩
      · rw [hcycle, h1, hos, hsok.2.2.2]
        simp [List.append_assoc]
      · intro e he
        rw [List.mem_append] at he
        rcases he with he | he
        · simp only [List.mem_cons, List.mem_singleton, List.not_mem_nil, or_false] at he
          rcases he with rfl | rfl <;> rfl
        · exact h2 e he
    · rw [hcycle]
      exact open_for_keeps_unwritable _ _ _ _ _ _ _ _ hentry (hnotw h)

/-- C25, witness: the listener `serving_socket` accepts the client `8` while its
peer `7` is writable; `7` is written to and closed, then `receive_data` is called
on `8` (its `recv` is still pending), and `8` is neither written to nor closed. -/
theorem C25_accepted_peer_is_read_witness :
    (Socket.open_cycle 4096 shutdown_not_connected cycle_answers serving_socket 1).self.os =
      (Socket.open_for 4096 shutdown_not_connected cycle_answers.service (List.range 2)
        (Socket.open_start shutdown_not_connected cycle_answers serving_socket 1).self
        (Socket.open_start shutdown_not_connected cycle_answers serving_socket 1).ceiling).self.os ++
      [Event.recv_pending 8 4095] ∧
    (Socket.open_cycle 4096 shutdown_not_connected cycle_answers serving_socket
      1).self.connections[2]? = some ⟨8, 0⟩ := by
  have h := C25_accepted_peer_is_read 4096 shutdown_not_connected cycle_answers serving_socket 1
    (by decide) (by decide) (by decide) (by decide) (by decide) (by decide)
  obtain ⟨rest, h1, h2⟩ := h.2.1 (by decide)
  have h3 := h2 (by decide)
  subst h3
  exact ⟨by simpa using h1, (h.2.2 (by decide)).2⟩

/-! ## Lemmas: how an entry comes to be marked -/

theorem open_body_marks (MAX_INPUT : Nat) (shutdown : SOCKET → ShutdownResult)
    (io : ServiceIO) (self : Socket) (ceiling i j : Nat) (c c' : Connection)
    (hc : self.connections[j]? = some c) (hv : c.socket ≠ INVALID_SOCKET)
    (hc' : (Socket.open_body MAX_INPUT shutdown io self ceiling i).self.connections[j]? =
      some c')
    (hm : c'.socket = INVALID_SOCKET) :
    i = j ∧ FD_ISSET c.socket self.write_list = true ∧
    (Socket.open_body MAX_INPUT shutdown io self ceiling i).self.os =
      self.os ++ open_body_reads MAX_INPUT io self c ++ write_data_calls io.write c.socket ++
        close_socket_events shutdown c.socket ∧
    (Socket.open_body MAX_INPUT shutdown io self ceiling i).flow = Control.next ∧
    FD_ISSET c.socket (Socket.open_body MAX_INPUT shutdown io self ceiling i).self.write_list =
      false := by
  by_cases hij : j = i
  · subst hij
    rw [open_body_eq _ _ _ _ _ _ c hc hv] at hc' ⊢
    split_ifs at hc' ⊢ with h1 h2 h3
    · simp only [hc, Option.some.injEq] at hc'
      exact absurd (hc' ▸ hm) hv
    · simp only [hc, Option.some.injEq] at hc'
      exact absurd (hc' ▸ hm) hv
    · exact ⟨rfl, h2, rfl, rfl, FD_ISSET_FD_CLR _ _⟩
    · simp only [hc, Option.some.injEq] at hc'
      exact absurd (hc' ▸ hm) hv
  · rw [open_body_other_entries _ _ _ _ _ _ _ hij, hc] at hc'
    simp only [Option.some.injEq] at hc'
    exact absurd (hc' ▸ hm) hv

/-- A socket that is still in the write set after an entry was serviced, with
control moving on, was not written to or closed while that entry was serviced. -/
theorem open_body_still_writable (MAX_INPUT : Nat) (shutdown : SOCKET → ShutdownResult)
    (io : ServiceIO) (self : Socket) (ceiling i : Nat) (s : SOCKET)
    (hw : FD_ISSET s (Socket.open_body MAX_INPUT shutdown io self ceiling i).self.write_list =
      true)
    (hflow : (Socket.open_body MAX_INPUT shutdown io self ceiling i).flow = Control.next) :
    ∃ new, (Socket.open_body MAX_INPUT shutdown io self ceiling i).self.os = self.os ++ new ∧
      ∀ e ∈ new, writes_or_closes s e = false := by
  by_cases hskip : ∀ c, self.connections[i]? = some c → c.socket = INVALID_SOCKET
  · rw [open_body_skip _ _ _ _ _ _ hskip]
    exact ⟨[], by simp, by simp⟩
  · push_neg at hskip
    obtain ⟨c, hc, hv⟩ := hskip
    have hrd : ∀ e ∈ open_body_reads MAX_INPUT io self c, writes_or_closes s e = false :=
      fun e he => (is_recv_class e (open_body_reads_is_recv _ _ _ _ e he)).2.2 s
    rw [open_body_eq _ _ _ _ _ _ c hc hv] at hw hflow ⊢
    by_cases h1 : open_body_waits MAX_INPUT io self c = true
    · rw [if_pos h1] at hflow
      simp at hflow
    · rw [if_neg h1] at hw hflow ⊢
      by_cases h2 : FD_ISSET c.socket self.write_list = true
      · rw [if_pos h2] at hw hflow ⊢
        by_cases h3 : io.write.gethostname_result = SOCKET_ERROR
        · rw [if_pos h3] at hflow
          simp at hflow
        · rw [if_neg h3] at hw hflow ⊢
          have hne : s ≠ c.socket := by
            intro e
            rw [e] at hw
            simp only [FD_ISSET_FD_CLR] at hw
            exact absurd hw (by simp)
          refine ⟨open_body_reads MAX_INPUT io self c ++ write_data_calls io.write c.socket ++
            close_socket_events shutdown c.socket, by simp [List.append_assoc], ?_⟩
          intro e he
          rw [List.mem_append, List.mem_append] at he
          rcases he with (he | he) | he
          · exact hrd e he
          · exact (write_data_calls_class _ _ e he).2.2.2 s hne
          · exact (close_socket_events_class _ _ e he).2.2.2 s hne
      · rw [if_neg h2] at hw hflow ⊢
        exact ⟨_, rfl, hrd⟩

theorem open_for_marks (MAX_INPUT : Nat) (shutdown : SOCKET → ShutdownResult)
    (service : Nat → ServiceIO) (idxs : List Nat) (self : Socket) (ceiling j : Nat)
    (c c' : Connection)
    (hc : self.connections[j]? = some c) (hv : c.socket ≠ INVALID_SOCKET)
    (hc' : (Socket.open_for MAX_INPUT shutdown service idxs self ceiling).self.connections[j]? =
      some c')
    (hm : c'.socket = INVALID_SOCKET) :
    FD_ISSET c.socket self.write_list = true ∧
    ∃ pre post, (Socket.open_for MAX_INPUT shutdown service idxs self ceiling).self.os =
        self.os ++ pre ++ write_data_calls (service j).write c.socket ++
          close_socket_events shutdown c.socket ++ post ∧
      (∀ e ∈ pre, writes_or_closes c.socket e = false) ∧
      (∀ e ∈ post, writes_or_closes c.socket e = false) := by
  have hwritable : FD_ISSET c.socket self.write_list = true := by
    by_contra h
    rw [Bool.not_eq_true] at h
    rw [open_for_keeps_unwritable _ _ _ _ _ _ _ _ hc h] at hc'
    simp only [Option.some.injEq] at hc'
    exact absurd (hc' ▸ hm) hv
  refine ⟨hwritable, ?_⟩
  clear hwritable
  induction idxs generalizing self ceiling with
  | nil =>
      simp only [Socket.open_for, hc, Option.some.injEq] at hc'
      exact absurd (hc' ▸ hm) hv
  | cons i rest ih =>
      rw [open_for_cons] at hc' ⊢
      rcases (by
          by_cases hij : j = i
          · subst hij
            exact open_body_entry MAX_INPUT shutdown (service j) self ceiling j c hc
          · left
            rw [open_body_other_entries _ _ _ _ _ _ _ hij]
            exact hc :
          (Socket.open_body MAX_INPUT shutdown (service i) self ceiling i).self.connections[j]? =
              some c ∨
            (Socket.open_body MAX_INPUT shutdown (service i) self ceiling i).self.connections[j]? =
              some { c with socket := INVALID_SOCKET }) with hst | hst
      · split_ifs at hc' ⊢ with hflow
        · have hw2 : FD_ISSET c.socket
              (Socket.open_body MAX_INPUT shutdown (service i) self ceiling i).self.write_list =
                true := by
            by_contra h
            rw [Bool.not_eq_true] at h
            rw [open_for_keeps_unwritable _ _ _ _ _ _ _ _ hst h] at hc'
            simp only [Option.some.injEq] at hc'
            exact absurd (hc' ▸ hm) hv
          obtain ⟨new, hn1, hn2⟩ := open_body_still_writable MAX_INPUT shutdown (service i) self
            ceiling i c.socket hw2 hflow
          obtain ⟨pre, post, h1, h2, h3⟩ := ih _ _ hst hc'
          refine ⟨new ++ pre, post, ?_, ?_, h3⟩
          · rw [h1, hn1]
            simp [List.append_assoc]
          · intro e he
            rw [List.mem_append] at he
            rcases he with he | he
            · exact hn2 e he
            · exact h2 e he
        · rw [hst] at hc'
          simp only [Option.some.injEq] at hc'
          exact absurd (hc' ▸ hm) hv
      · obtain ⟨hij, _, hos, hflow, hw⟩ := open_body_marks MAX_INPUT shutdown (service i) self
          ceiling i j c _ hc hv hst rfl
        subst hij
        rw [if_pos hflow]
        obtain ⟨post, hp1, hp2⟩ := open_for_untouched MAX_INPUT shutdown service rest
          (Socket.open_body MAX_INPUT shutdown (service i) self ceiling i).self
          (Socket.open_body MAX_INPUT shutdown (service i) self ceiling i).ceiling c.socket hw
        refine ⟨open_body_reads MAX_INPUT (service i) self c, post, ?_, ?_, hp2⟩
        · rw [hp1, hos]
        · exact fun e he => (is_recv_class e (open_body_reads_is_recv _ _ _ _ e he)).2.2 c.socket

/-! ## Lemmas: the parts of a cycle -/

theorem socket_select_os (shutdown : SOCKET → ShutdownResult) (answer : SelectAnswer)
    (self : Socket) :
    ∃ closing, (Socket.select shutdown answer self).self.os =
        self.os ++ Event.select self.reset_socket_lists.select_nfds
          self.reset_socket_lists.read_list self.reset_socket_lists.write_list answer.result ::
          closing ∧
      ∀ e ∈ closing, is_accept e = false ∧ is_select e = false ∧ is_recv e = false := by
  unfold Socket.select
  simp only []
  split_ifs with h
  · refine ⟨close_socket_events shutdown self.server_socket, ?_, ?_⟩
    · simp [Socket.close_socket, Socket.reset_socket_lists]
    · intro e he
      have := close_socket_events_class shutdown self.server_socket e he
      exact ⟨this.2.1, this.2.2.1, this.1⟩
  · exact ⟨[], by simp [Socket.reset_socket_lists], by simp⟩

theorem open_start_cases (shutdown : SOCKET → ShutdownResult) (io : CycleIO) (self : Socket)
    (ceiling : Nat) :
    (Socket.open_start shutdown io self ceiling).self.write_list =
      (Socket.select shutdown io.select self).self.write_list ∧
    ∃ accepted extra,
      (Socket.open_start shutdown io self ceiling).self.os =
        (Socket.select shutdown io.select self).self.os ++ accepted ∧
      (accepted = [] ∨
        accepted = [Event.accept (Socket.select shutdown io.select self).self.server_socket
          io.accept.client]) ∧
      (Socket.open_start shutdown io self ceiling).self.connections =
        (Socket.select shutdown io.select self).self.connections ++ extra := by
  unfold Socket.open_start Socket.open_accept Socket.handle_connection
  by_cases h1 : FD_ISSET (Socket.select shutdown io.select self).self.server_socket
      (Socket.select shutdown io.select self).self.read_list = true
  · by_cases h2 : ceiling < (Socket.select shutdown io.select self).self.max_connections
    · by_cases h3 : io.accept.client = INVALID_SOCKET
      · simp only [h1, h2, h3, if_true]
        exact ⟨by first | rfl | trivial, _, [], rfl, Or.inr rfl, by simp⟩
      · simp only [h1, h2, h3, if_true, if_false]
        exact ⟨by first | rfl | trivial, _, [{ socket := io.accept.client }], rfl, Or.inr rfl, rfl⟩
    · simp only [h1, h2, if_true, if_false]
      exact ⟨by first | rfl | trivial, [], [], by simp, Or.inl rfl, by simp⟩
  · simp only [h1, if_false]
    exact ⟨rfl, [], [], by simp, Or.inl rfl, by simp⟩

theorem open_cycle_cases (MAX_INPUT : Nat) (shutdown : SOCKET → ShutdownResult) (io : CycleIO)
    (self : Socket) (ceiling : Nat) :
    ((Socket.open_cycle MAX_INPUT shutdown io self ceiling).self =
        (Socket.select shutdown io.select self).self ∧
      ((Socket.select shutdown io.select self).raised ≠ none ∨
        (Socket.select shutdown io.select self).timed_out = true)) ∨
    ((Socket.select shutdown io.select self).raised = none ∧
      (Socket.select shutdown io.select self).timed_out = false ∧
      (Socket.open_start shutdown io self ceiling).flow ≠ Control.next ∧
      (Socket.open_cycle MAX_INPUT shutdown io self ceiling).self =
        (Socket.open_start shutdown io self ceiling).self) ∨
    ((Socket.select shutdown io.select self).raised = none ∧
      (Socket.select shutdown io.select self).timed_out = false ∧
      (Socket.open_start shutdown io self ceiling).flow = Control.next ∧
      Socket.open_cycle MAX_INPUT shutdown io self ceiling =
        Socket.open_for MAX_INPUT shutdown io.service
          (List.range (Socket.open_start shutdown io self ceiling).self.connections.length)
          (Socket.open_start shutdown io self ceiling).self
          (Socket.open_start shutdown io self ceiling).ceiling) := by
  cases hr : (Socket.select shutdown io.select self).raised with
  | some e =>
      left
      unfold Socket.open_cycle
      simp [hr]
  | none =>
      by_cases ht : (Socket.select shutdown io.select self).timed_out = true
      · left
        unfold Socket.open_cycle
        simp [hr, ht]
      · rw [Bool.not_eq_true] at ht
        right
        by_cases hf : (Socket.open_start shutdown io self ceiling).flow = Control.next
        · right
          exact ⟨rfl, ht, hf, open_cycle_loop MAX_INPUT shutdown io self ceiling hr ht hf⟩
        · left
          refine ⟨rfl, ht, hf, ?_⟩
          unfold Socket.open_start at hf ⊢
          unfold Socket.open_cycle
          simp only [hr, ht]
          cases hfl : (Socket.open_accept io.accept
              (Socket.select shutdown io.select self).self ceiling).flow with
          | next => exact absurd hfl hf
          | raised e => simp [hfl]
          | blocked => simp [hfl]

theorem open_body_read_then_write (MAX_INPUT : Nat) (shutdown : SOCKET → ShutdownResult)
    (io : ServiceIO) (self : Socket) (ceiling i : Nat) (c : Connection)
    (hc : self.connections[i]? = some c) (hv : c.socket ≠ INVALID_SOCKET)
    (hpeer : c.socket ≠ self.server_socket)
    (hread : FD_ISSET c.socket self.read_list = true)
    (hwrite : FD_ISSET c.socket self.write_list = true) :
    ∃ w, (Socket.open_body MAX_INPUT shutdown io self ceiling i).self.os =
        self.os ++ (Socket.receive_data MAX_INPUT c.socket io.recv).os ++ w ∧
      (∀ e ∈ w, is_recv e = false) ∧
      ((Socket.receive_data MAX_INPUT c.socket io.recv).run.exit = none →
        w = [] ∧
        (Socket.open_body MAX_INPUT shutdown io self ceiling i).flow = Control.blocked) ∧
      ((Socket.receive_data MAX_INPUT c.socket io.recv).run.exit ≠ none →
        w.head? = some (Event.getpeername c.socket)) := by
  have hrt : read_test self c = true := by
    unfold read_test
    simp [hpeer, hread]
  have hreads : open_body_reads MAX_INPUT io self c =
      (Socket.receive_data MAX_INPUT c.socket io.recv).os := by
    unfold open_body_reads
    rw [if_pos hrt]
  have hwaits : open_body_waits MAX_INPUT io self c = true ↔
      (Socket.receive_data MAX_INPUT c.socket io.recv).run.exit = none := by
    unfold open_body_waits
    simp [hrt]
  rw [open_body_eq _ _ _ _ _ _ c hc hv, hreads]
  by_cases h1 : open_body_waits MAX_INPUT io self c = true
  · rw [if_pos h1]
    exact ⟨[], by simp, by simp, fun _ => ⟨rfl, rfl⟩, fun h => absurd (hwaits.mp h1) h⟩
  · rw [if_neg h1, if_pos hwrite]
    have hx : ¬ (Socket.receive_data MAX_INPUT c.socket io.recv).run.exit = none :=
      fun h => h1 (hwaits.mpr h)
    by_cases h3 : io.write.gethostname_result = SOCKET_ERROR
    · rw [if_pos h3]
      refine ⟨[Event.getpeername c.socket, Event.gethostname SOCKET_ERROR], by simp, ?_,
        fun h => absurd h hx, fun _ => rfl⟩
      intro e he
      simp only [List.mem_cons, List.mem_singleton, List.not_mem_nil, or_false] at he
      rcases he with rfl | rfl <;> rfl
    · rw [if_neg h3]
      refine ⟨write_data_calls io.write c.socket ++ close_socket_events shutdown c.socket,
        by simp [List.append_assoc], ?_, fun h => absurd h hx, fun _ => rfl⟩
      intro e he
      rw [List.mem_append] at he
      rcases he with he | he
      · exact (write_data_calls_class _ _ e he).1
      · exact (close_socket_events_class _ _ e he).1

/-! ## C21: the order of a cycle -/

/-- C21: in every cycle of `open` the calls made are, in this order, the `select`
call (followed by the calls of `close_socket` when it failed), at most one
`accept` call, and the calls made while the connections are serviced, none of
which is an `accept` or a `select` call; nothing follows a failed or timed-out
`select`. When an entry whose socket is a peer in both the read set and the write
set is serviced, the calls made are the `recv` calls of `receive_data`, and, only
once `receive_data` has returned, further calls, the first of which is the
`getpeername` of `write_data` and none of which is a `recv`. An entry that is valid
when the loop over the connection set starts and is `INVALID_SOCKET` at the end of
the cycle had its socket reported writable, and the calls of the cycle contain the
calls of `write_data` on it (one `send`) immediately followed by those of
`close_socket` on it, with no other call of `write_data` or `close_socket` on that
socket before or after. -/
theorem C21_cycle_order (MAX_INPUT : Nat) (shutdown : SOCKET → ShutdownResult) (io : CycleIO)
    (self : Socket) (ceiling : Nat) :
    (∃ closing accepted serviced,
      (Socket.select shutdown io.select self).self.os =
        self.os ++ Event.select self.reset_socket_lists.select_nfds
          self.reset_socket_lists.read_list self.reset_socket_lists.write_list
          io.select.result :: closing ∧
      (Socket.open_cycle MAX_INPUT shutdown io self ceiling).self.os =
        (Socket.select shutdown io.select self).self.os ++ accepted ++ serviced ∧
      (∀ e ∈ closing, is_accept e = false ∧ is_select e = false ∧ is_recv e = false) ∧
      (accepted = [] ∨ accepted = [Event.accept self.server_socket io.accept.client]) ∧
      (∀ e ∈ serviced, is_accept e = false ∧ is_select e = false) ∧
      (((Socket.select shutdown io.select self).raised ≠ none ∨
          (Socket.select shutdown io.select self).timed_out = true) →
        accepted = [] ∧ serviced = [])) ∧
    (∀ (sio : ServiceIO) (st : Socket) (k i : Nat) (c : Connection),
      st.connections[i]? = some c → c.socket ≠ INVALID_SOCKET →
      c.socket ≠ st.server_socket → FD_ISSET c.socket st.read_list = true →
      FD_ISSET c.socket st.write_list = true →
      ∃ w, (Socket.open_body MAX_INPUT shutdown sio st k i).self.os =
          st.os ++ (Socket.receive_data MAX_INPUT c.socket sio.recv).os ++ w ∧
        (∀ e ∈ w, is_recv e = false) ∧
        ((Socket.receive_data MAX_INPUT c.socket sio.recv).run.exit = none →
          w = [] ∧ (Socket.open_body MAX_INPUT shutdown sio st k i).flow = Control.blocked) ∧
        ((Socket.receive_data MAX_INPUT c.socket sio.recv).run.exit ≠ none →
          w.head? = some (Event.getpeername c.socket))) ∧
    (∀ (j : Nat) (c c' : Connection),
      (Socket.open_start shutdown io self ceiling).self.connections[j]? = some c →
      c.socket ≠ INVALID_SOCKET →
      (Socket.open_cycle MAX_INPUT shutdown io self ceiling).self.connections[j]? = some c' →
      c'.socket = INVALID_SOCKET →
      c.socket ∈ io.select.writable ∧
      ∃ pre post, (Socket.open_cycle MAX_INPUT shutdown io self ceiling).self.os =
          (Socket.open_start shutdown io self ceiling).self.os ++ pre ++
            write_data_calls (io.service j).write c.socket ++
            close_socket_events shutdown c.socket ++ post ∧
        (∀ e ∈ pre, writes_or_closes c.socket e = false) ∧
        (∀ e ∈ post, writes_or_closes c.socket e = false)) := by
  obtain ⟨hwl, accepted, extra, hacc, hacc2, hconn⟩ := open_start_cases shutdown io self ceiling
  refine ⟨?_, ?_, ?_⟩
  · obtain ⟨closing, hcl, hclass⟩ := socket_select_os shutdown io.select self
    rcases open_cycle_cases MAX_INPUT shutdown io self ceiling with
      ⟨h1, _⟩ | ⟨hr, ht, _, h1⟩ | ⟨hr, ht, _, h1⟩
    · exact ⟨closing, [], [], hcl, by rw [h1]; simp, hclass, Or.inl rfl, by simp,
        fun _ => ⟨rfl, rfl⟩⟩
    · have hsrv := (socket_select_ok shutdown io.select self hr).1
      refine ⟨closing, accepted, [], hcl, by rw [h1, hacc]; simp, hclass, ?_, by simp, ?_⟩
      · rw [← hsrv]
        exact hacc2
      · rintro (h | h)
        · exact absurd hr h
        · rw [ht] at h
          exact absurd h (by simp)
    · have hsrv := (socket_select_ok shutdown io.select self hr).1
      obtain ⟨serviced, hs1, hs2⟩ := open_for_new_events MAX_INPUT shutdown io.service
        (fun _ => True) (fun e => is_accept e = false ∧ is_select e = false)
        (fun _ _ _ _ => trivial)
        (fun x k i _ => by
          obtain ⟨new, hn1, hn2⟩ := open_body_new_events MAX_INPUT shutdown (io.service i) x k i
          exact ⟨new, hn1, fun e he => ⟨(hn2 e he).1, (hn2 e he).2.1⟩⟩)
        (List.range (Socket.open_start shutdown io self ceiling).self.connections.length)
        (Socket.open_start shutdown io self ceiling).self
        (Socket.open_start shutdown io self ceiling).ceiling trivial
      refine ⟨closing, accepted, serviced, hcl, by rw [h1, hs1, hacc], hclass, ?_, hs2, ?_⟩
      · rw [← hsrv]
        exact hacc2
      · rintro (h | h)
        · exact absurd hr h
        · rw [ht] at h
          exact absurd h (by simp)
  · intro sio st k i c hc hv hpeer hread hwrite
    exact open_body_read_then_write MAX_INPUT shutdown sio st k i c hc hv hpeer hread hwrite
  · intro j c c' hc hv hc' hm
    rcases open_cycle_cases MAX_INPUT shutdown io self ceiling with
      ⟨h1, _⟩ | ⟨_, _, _, h1⟩ | ⟨hr, _, _, h1⟩
    · exfalso
      rw [h1] at hc'
      have hj : j < (Socket.select shutdown io.select self).self.connections.length := by
        by_contra hlt
        rw [List.getElem?_eq_none (by omega)] at hc'
        exact absurd hc' (by simp)
      rw [hconn, List.getElem?_append_left hj, hc'] at hc
      simp only [Option.some.injEq] at hc
      exact hv (hc ▸ hm)
    · exfalso
      rw [h1, hc] at hc'
      simp only [Option.some.injEq] at hc'
      exact hv (hc' ▸ hm)
    · rw [h1] at hc' ⊢
      obtain ⟨hw, hrest⟩ := open_for_marks MAX_INPUT shutdown io.service _ _ _ j c c' hc hv hc' hm
      rw [hwl] at hw
      exact ⟨socket_select_write_list shutdown io.select self _ hr hw, hrest⟩

/-! ## Lemmas: two runs that differ in the bytes read -/

theorem non_recv_append (a b : List Event) : non_recv (a ++ b) = non_recv a ++ non_recv b := by
  simp [non_recv]

theorem non_recv_of_recv (l : List Event) (h : ∀ e ∈ l, is_recv e = true) : non_recv l = [] := by
  unfold non_recv
  rw [List.filter_eq_nil_iff]
  intro e he
  simp [h e he]

theorem non_recv_reads (MAX_INPUT : Nat) (io : ServiceIO) (self : Socket) (c : Connection) :
    non_recv (open_body_reads MAX_INPUT io self c) = [] :=
  non_recv_of_recv _ (open_body_reads_is_recv MAX_INPUT io self c)

theorem sent_to_non_recv (s : SOCKET) (os : List Event) :
    sent_to s (non_recv os) = sent_to s os := by
  unfold sent_to non_recv
  rw [List.filterMap_filter]
  congr 1
  funext e
  cases e <;> simp [is_recv, sent_bytes_to]

theorem same_apart_refl (a : Socket) : same_apart_from_recv a a := ⟨rfl, rfl⟩

theorem same_apart_iff (a b : Socket) :
    same_apart_from_recv a b ↔
      (a.port = b.port ∧ a.queue_count = b.queue_count ∧
        a.max_connections = b.max_connections ∧ a.server_socket = b.server_socket ∧
        a.is_open = b.is_open ∧ a.connections = b.connections ∧
        a.read_list = b.read_list ∧ a.write_list = b.write_list) ∧
      non_recv a.os = non_recv b.os := by
  simp [same_apart_from_recv, Socket.mk.injEq, and_assoc]

theorem open_body_blocked_os (MAX_INPUT : Nat) (shutdown : SOCKET → ShutdownResult)
    (io : ServiceIO) (self : Socket) (ceiling i : Nat)
    (h : (Socket.open_body MAX_INPUT shutdown io self ceiling i).flow = Control.blocked) :
    non_recv (Socket.open_body MAX_INPUT shutdown io self ceiling i).self.os =
      non_recv self.os := by
  by_cases hskip : ∀ c, self.connections[i]? = some c → c.socket = INVALID_SOCKET
  · rw [open_body_skip _ _ _ _ _ _ hskip]
  · push_neg at hskip
    obtain ⟨c, hc, hv⟩ := hskip
    rw [open_body_eq _ _ _ _ _ _ c hc hv] at h ⊢
    split_ifs at h ⊢
    simp [non_recv_append, non_recv_reads]

theorem open_body_related (MAX_INPUT : Nat) (shutdown : SOCKET → ShutdownResult)
    (io1 io2 : ServiceIO) (a b : Socket) (ceiling i : Nat)
    (hab : same_apart_from_recv a b) (hw : io1.write = io2.write)
    (h1 : (Socket.open_body MAX_INPUT shutdown io1 a ceiling i).flow ≠ Control.blocked)
    (h2 : (Socket.open_body MAX_INPUT shutdown io2 b ceiling i).flow ≠ Control.blocked) :
    same_apart_from_recv (Socket.open_body MAX_INPUT shutdown io1 a ceiling i).self
      (Socket.open_body MAX_INPUT shutdown io2 b ceiling i).self ∧
    (Socket.open_body MAX_INPUT shutdown io1 a ceiling i).ceiling =
      (Socket.open_body MAX_INPUT shutdown io2 b ceiling i).ceiling ∧
    (Socket.open_body MAX_INPUT shutdown io1 a ceiling i).flow =
      (Socket.open_body MAX_INPUT shutdown io2 b ceiling i).flow := by
  obtain ⟨⟨hp, hq, hm, hsrv, hio, hconn, hrl, hwl⟩, ho⟩ := (same_apart_iff a b).mp hab
  by_cases hskip : ∀ c, a.connections[i]? = some c → c.socket = INVALID_SOCKET
  · rw [open_body_skip _ _ _ _ _ _ hskip, open_body_skip _ _ _ _ _ _ (hconn ▸ hskip)]
    exact ⟨hab, rfl, rfl⟩
  · push_neg at hskip
    obtain ⟨c, hc, hv⟩ := hskip
    have hcb : b.connections[i]? = some c := hconn ▸ hc
    rw [open_body_eq _ _ _ _ _ _ c hc hv] at h1 ⊢
    rw [open_body_eq _ _ _ _ _ _ c hcb hv] at h2 ⊢
    by_cases hw1 : open_body_waits MAX_INPUT io1 a c = true
    · rw [if_pos hw1] at h1
      exact absurd rfl h1
    · by_cases hw2 : open_body_waits MAX_INPUT io2 b c = true
      · rw [if_pos hw2] at h2
        exact absurd rfl h2
      · rw [if_neg hw1, if_neg hw2, ← hwl, ← hw]
        by_cases hwr : FD_ISSET c.socket a.write_list = true
        · rw [if_pos hwr, if_pos hwr]
          by_cases hh : io1.write.gethostname_result = SOCKET_ERROR
          · rw [if_pos hh, if_pos hh]
            refine ⟨(same_apart_iff _ _).mpr ⟨⟨hp, hq, hm, hsrv, hio, hconn, hrl, rfl⟩, ?_⟩,
              rfl, rfl⟩
            simp [non_recv_append, non_recv_reads, ho]
          · rw [if_neg hh, if_neg hh]
            refine ⟨(same_apart_iff _ _).mpr ⟨⟨hp, hq, hm, hsrv, hio, ?_, hrl, rfl⟩, ?_⟩,
              rfl, rfl⟩
            · show a.connections.set i _ = b.connections.set i _
              rw [hconn]
            · simp [non_recv_append, non_recv_reads, ho]
        · rw [if_neg hwr, if_neg hwr]
          refine ⟨(same_apart_iff _ _).mpr ⟨⟨hp, hq, hm, hsrv, hio, hconn, hrl, rfl⟩, ?_⟩,
            rfl, rfl⟩
          simp [non_recv_append, non_recv_reads, ho]

theorem runs_agree_refl (x : OpenState) : runs_agree x x :=
  ⟨fun _ _ => ⟨same_apart_refl _, rfl, rfl⟩, Or.inl (List.prefix_refl _)⟩

theorem open_for_extends (MAX_INPUT : Nat) (shutdown : SOCKET → ShutdownResult)
    (service : Nat → ServiceIO) (idxs : List Nat) (self : Socket) (ceiling : Nat) :
    non_recv self.os <+: non_recv
      (Socket.open_for MAX_INPUT shutdown service idxs self ceiling).self.os := by
  obtain ⟨new, h, _⟩ := open_for_new_events MAX_INPUT shutdown service (fun _ => True)
    (fun _ => True) (fun _ _ _ _ => trivial)
    (fun x k i _ => by
      obtain ⟨new, hn, _⟩ := open_body_new_events MAX_INPUT shutdown (service i) x k i
      exact ⟨new, hn, fun _ _ => trivial⟩)
    idxs self ceiling trivial
  rw [h, non_recv_append]
  exact List.prefix_append _ _

theorem open_for_related (MAX_INPUT : Nat) (shutdown : SOCKET → ShutdownResult)
    (s1 s2 : Nat → ServiceIO) (hw : ∀ i, (s1 i).write = (s2 i).write) (idxs : List Nat)
    (a b : Socket) (ceiling : Nat) (hab : same_apart_from_recv a b) :
    runs_agree (Socket.open_for MAX_INPUT shutdown s1 idxs a ceiling)
      (Socket.open_for MAX_INPUT shutdown s2 idxs b ceiling) := by
  induction idxs generalizing a b ceiling with
  | nil =>
      simp only [Socket.open_for]
      exact ⟨fun _ _ => ⟨hab, rfl, rfl⟩, Or.inl (by rw [hab.2])⟩
  | cons i rest ih =>
      by_cases hb1 : (Socket.open_body MAX_INPUT shutdown (s1 i) a ceiling i).flow =
          Control.blocked
      · have e1 : Socket.open_for MAX_INPUT shutdown s1 (i :: rest) a ceiling =
            Socket.open_body MAX_INPUT shutdown (s1 i) a ceiling i := by
          rw [open_for_cons, if_neg (by rw [hb1]; simp)]
        rw [e1]
        refine ⟨fun h => absurd hb1 h, Or.inl ?_⟩
        rw [open_body_blocked_os _ _ _ _ _ _ hb1, hab.2]
        exact open_for_extends _ _ _ _ _ _
      · by_cases hb2 : (Socket.open_body MAX_INPUT shutdown (s2 i) b ceiling i).flow =
            Control.blocked
        · have e2 : Socket.open_for MAX_INPUT shutdown s2 (i :: rest) b ceiling =
              Socket.open_body MAX_INPUT shutdown (s2 i) b ceiling i := by
            rw [open_for_cons, if_neg (by rw [hb2]; simp)]
          rw [e2]
          refine ⟨fun _ h => absurd hb2 h, Or.inr ?_⟩
          rw [open_body_blocked_os _ _ _ _ _ _ hb2, ← hab.2]
          exact open_for_extends _ _ _ _ _ _
        · obtain ⟨hrel, hceil, hflow⟩ := open_body_related MAX_INPUT shutdown (s1 i) (s2 i) a b
            ceiling i hab (hw i) hb1 hb2
          rw [open_for_cons, open_for_cons]
          by_cases hn : (Socket.open_body MAX_INPUT shutdown (s1 i) a ceiling i).flow =
              Control.next
          · rw [if_pos hn, if_pos (hflow ▸ hn), ← hceil]
            exact ih _ _ _ hrel
          · rw [if_neg hn, if_neg (hflow ▸ hn)]
            exact ⟨fun _ _ => ⟨hrel, hceil, hflow⟩, Or.inl (by rw [hrel.2])⟩

theorem open_cycle_related (MAX_INPUT : Nat) (shutdown : SOCKET → ShutdownResult)
    (io1 io2 : CycleIO) (self : Socket) (ceiling : Nat)
    (hselect : io1.select = io2.select) (haccept : io1.accept = io2.accept)
    (hwrite : ∀ i, (io1.service i).write = (io2.service i).write) :
    runs_agree (Socket.open_cycle MAX_INPUT shutdown io1 self ceiling)
      (Socket.open_cycle MAX_INPUT shutdown io2 self ceiling) := by
  unfold Socket.open_cycle
  rw [hselect, haccept]
  simp only []
  cases (Socket.select shutdown io2.select self).raised with
  | some e => exact runs_agree_refl _
  | none =>
      simp only []
      by_cases ht : (Socket.select shutdown io2.select self).timed_out = true
      · simp only [ht, if_true]
        exact runs_agree_refl _
      · simp only [ht]
        cases (Socket.open_accept io2.accept (Socket.select shutdown io2.select self).self
            ceiling).flow with
        | next =>
            simp only []
            exact open_for_related MAX_INPUT shutdown io1.service io2.service hwrite _ _ _ _
              (same_apart_refl _)
        | raised e => exact runs_agree_refl _
        | blocked => exact runs_agree_refl _

/-! ## C28: the response and the request -/

/-- C28, refuted as stated: two runs of a cycle agree on the readiness reports, the
peer address and port and the host name, and differ in the bytes read from the
peer `7` only. In the first the request arrives whole and the response is handed
to `send`; in the second the peer has sent `GET` and nothing more, `receive_data`
waits in a further `recv`, and nothing is handed to `send`. -/
theorem C28_counterexample :
    complete_request_answers.select = partial_request_answers.select ∧
    complete_request_answers.accept = partial_request_answers.accept ∧
    (∀ i, (complete_request_answers.service i).write =
      (partial_request_answers.service i).write) ∧
    sent_to 7 (Socket.open_cycle 4096 shutdown_not_connected complete_request_answers
      serving_socket 1).self.os = [Socket.write_data_response service_answers.write] ∧
    (Socket.open_cycle 4096 shutdown_not_connected partial_request_answers serving_socket
      1).self.os =
      [Event.select 8 [4, 7] [4, 7] 1, Event.recv 7 4095 (RecvResult.data (bytes "GET")),
        Event.recv_pending 7 4095] ∧
    (Socket.open_cycle 4096 shutdown_not_connected partial_request_answers serving_socket
      1).flow = Control.blocked ∧
    sent_to 7 (Socket.open_cycle 4096 shutdown_not_connected partial_request_answers
      serving_socket 1).self.os = [] := by
  refine ⟨rfl, rfl, fun _ => rfl, ?_, ?_, ?_, ?_⟩ <;> decide

/-- C28, as amended: take two runs of a cycle of `Socket::open` from the same state
that agree on the answers of `select` and `accept`, on the peer addresses and
ports, on the host name and on the results of `send`, and differ at most in what
`recv` returns. When in both runs every `receive_data` call returns, the byte
strings handed to `send` are the same for every socket (and so are all calls other
than `recv`, the connection set, the counter and the way the cycle ends). When one
run is left waiting in `recv`, the strings handed to `send` in one run are the
first of those handed to `send` in the other. -/
theorem C28_response_independent_of_request (MAX_INPUT : Nat)
    (shutdown : SOCKET → ShutdownResult) (io1 io2 : CycleIO) (self : Socket) (ceiling : Nat)
    (hselect : io1.select = io2.select) (haccept : io1.accept = io2.accept)
    (hwrite : ∀ i, (io1.service i).write = (io2.service i).write) :
    ((Socket.open_cycle MAX_INPUT shutdown io1 self ceiling).flow ≠ Control.blocked →
      (Socket.open_cycle MAX_INPUT shutdown io2 self ceiling).flow ≠ Control.blocked →
      (∀ s, sent_to s (Socket.open_cycle MAX_INPUT shutdown io1 self ceiling).self.os =
        sent_to s (Socket.open_cycle MAX_INPUT shutdown io2 self ceiling).self.os) ∧
      non_recv (Socket.open_cycle MAX_INPUT shutdown io1 self ceiling).self.os =
        non_recv (Socket.open_cycle MAX_INPUT shutdown io2 self ceiling).self.os ∧
      (Socket.open_cycle MAX_INPUT shutdown io1 self ceiling).self.connections =
        (Socket.open_cycle MAX_INPUT shutdown io2 self ceiling).self.connections ∧
      (Socket.open_cycle MAX_INPUT shutdown io1 self ceiling).ceiling =
        (Socket.open_cycle MAX_INPUT shutdown io2 self ceiling).ceiling ∧
      (Socket.open_cycle MAX_INPUT shutdown io1 self ceiling).flow =
        (Socket.open_cycle MAX_INPUT shutdown io2 self ceiling).flow) ∧
    ((∀ s, sent_to s (Socket.open_cycle MAX_INPUT shutdown io1 self ceiling).self.os <+:
        sent_to s (Socket.open_cycle MAX_INPUT shutdown io2 self ceiling).self.os) ∨
      (∀ s, sent_to s (Socket.open_cycle MAX_INPUT shutdown io2 self ceiling).self.os <+:
        sent_to s (Socket.open_cycle MAX_INPUT shutdown io1 self ceiling).self.os)) := by
  have h := open_cycle_related MAX_INPUT shutdown io1 io2 self ceiling hselect haccept hwrite
  refine ⟨?_, ?_⟩
  · intro h1 h2
    obtain ⟨hrel, hceil, hflow⟩ := h.1 h1 h2
    have hf := (same_apart_iff _ _).mp hrel
    refine ⟨fun s => ?_, hf.2, hf.1.2.2.2.2.2.1, hceil, hflow⟩
    rw [← sent_to_non_recv, hf.2, sent_to_non_recv]
  · rcases h.2 with hp | hp
    · left
      intro s
      rw [← sent_to_non_recv s, ← sent_to_non_recv s
        (Socket.open_cycle MAX_INPUT shutdown io2 self ceiling).self.os]
      exact hp.filterMap _
    · right
      intro s
      rw [← sent_to_non_recv s, ← sent_to_non_recv s
        (Socket.open_cycle MAX_INPUT shutdown io1 self ceiling).self.os]
      exact hp.filterMap _

/-- C28, witness: the request of the peer `7` arrives whole in one run; in the
other the peer sends `GET /a` and shuts its side down. Both runs hand the same
response to `send` on `7`. -/
theorem C28_response_independent_of_request_witness :
    (Socket.open_cycle 4096 shutdown_not_connected closed_request_answers serving_socket
      1).self.os ≠
      (Socket.open_cycle 4096 shutdown_not_connected complete_request_answers serving_socket
        1).self.os ∧
    sent_to 7 (Socket.open_cycle 4096 shutdown_not_connected complete_request_answers
      serving_socket 1).self.os =
      sent_to 7 (Socket.open_cycle 4096 shutdown_not_connected closed_request_answers
        serving_socket 1).self.os :=
  ⟨by decide,
    ((C28_response_independent_of_request 4096 shutdown_not_connected
      complete_request_answers closed_request_answers serving_socket 1 rfl rfl
      (fun _ => rfl)).1 (by decide) (by decide)).1 7⟩

/-! ## Lemmas: the counter and the tracked peers -/

theorem tracked_peers_congr (a b : Socket) (h1 : a.connections = b.connections)
    (h2 : a.server_socket = b.server_socket) : tracked_peers a = tracked_peers b := by
  unfold tracked_peers
  rw [h1, h2]

theorem tracked_peers_reset (self : Socket) :
    tracked_peers self.reset_socket_lists = tracked_peers self := by
  unfold tracked_peers
  rw [socket_reset_connections, socket_reset_server_socket, List.countP_filter]
  apply List.countP_congr
  intro c _
  simp only [ne_eq, decide_eq_true_eq, Bool.and_eq_true, decide_not, Bool.not_eq_true',
    decide_eq_false_iff_not]
  constructor
  · intro h
    exact h.1
  · intro h
    exact ⟨h, h.1⟩

theorem socket_select_frame (shutdown : SOCKET → ShutdownResult) (answer : SelectAnswer)
    (self : Socket) :
    (Socket.select shutdown answer self).self.server_socket = self.server_socket ∧
    (Socket.select shutdown answer self).self.max_connections = self.max_connections ∧
    (Socket.select shutdown answer self).self.connections =
      self.reset_socket_lists.connections := by
  unfold Socket.select
  simp only []
  split_ifs <;> simp [Socket.close_socket, Socket.reset_socket_lists]

theorem tracked_peers_select (shutdown : SOCKET → ShutdownResult) (answer : SelectAnswer)
    (self : Socket) :
    tracked_peers (Socket.select shutdown answer self).self = tracked_peers self := by
  have h := socket_select_frame shutdown answer self
  rw [tracked_peers_congr _ self.reset_socket_lists h.2.2
    (by rw [h.1, socket_reset_server_socket]), tracked_peers_reset]

theorem countP_set_false {α : Type} (p : α → Bool) (l : List α) (i : Nat) (c c' : α)
    (hc : l[i]? = some c) (hp : p c = true) (hp' : p c' = false) :
    List.countP p (l.set i c') + 1 = List.countP p l := by
  induction l generalizing i with
  | nil => simp at hc
  | cons x rest ih =>
      cases i with
      | zero =>
          simp only [List.getElem?_cons_zero, Option.some.injEq] at hc
          subst hc
          simp [List.set, List.countP_cons, hp, hp']
      | succ j =>
          simp only [List.getElem?_cons_succ] at hc
          have := ih j hc
          simp only [List.set, List.countP_cons]
          omega

theorem wrap_decrement (ceiling : Nat) (h1 : 1 ≤ ceiling) (h2 : ceiling < 2 ^ 32) :
    (ceiling + 2 ^ 32 - 1) % 2 ^ 32 = ceiling - 1 := by
  have e : (2 : Nat) ^ 32 = 4294967296 := by norm_num
  rw [e] at h2 ⊢
  omega

theorem wrap_increment (ceiling m : Nat) (h1 : ceiling < m) (h2 : m < 2 ^ 32) :
    (ceiling + 1) % 2 ^ 32 = ceiling + 1 := by
  have e : (2 : Nat) ^ 32 = 4294967296 := by norm_num
  rw [e] at h2 ⊢
  omega

theorem open_accept_counts (answer : AcceptAnswer) (self : Socket) (ceiling : Nat)
    (hcount : ceiling = tracked_peers self) (hle : ceiling ≤ self.max_connections)
    (hcap : self.max_connections < 2 ^ 32) (hclient : answer.client ≠ self.server_socket) :
    (Socket.open_accept answer self ceiling).self.server_socket = self.server_socket ∧
    (Socket.open_accept answer self ceiling).self.max_connections = self.max_connections ∧
    (Socket.open_accept answer self ceiling).self.write_list = self.write_list ∧
    (Socket.open_accept answer self ceiling).ceiling =
      tracked_peers (Socket.open_accept answer self ceiling).self ∧
    (Socket.open_accept answer self ceiling).ceiling ≤ self.max_connections := by
  unfold Socket.open_accept Socket.handle_connection
  by_cases h1 : FD_ISSET self.server_socket self.read_list = true
  · by_cases h2 : ceiling < self.max_connections
    · by_cases h3 : answer.client = INVALID_SOCKET
      · simp only [h1, h2, h3, if_true]
        exact ⟨trivial, trivial, trivial, hcount, hle⟩
      · simp only [h1, h2, h3, if_true, if_false]
        refine ⟨trivial, trivial, trivial, ?_, ?_⟩
        · rw [wrap_increment ceiling _ h2 hcap, hcount]
          unfold tracked_peers
          simp [List.countP_append, List.countP_cons, h3, hclient]
        · rw [wrap_increment ceiling _ h2 hcap]
          omega
    · rw [if_pos h1, if_neg h2]
      exact ⟨rfl, rfl, rfl, hcount, hle⟩
  · rw [if_neg h1]
    exact ⟨rfl, rfl, rfl, hcount, hle⟩

theorem open_body_counts (MAX_INPUT : Nat) (shutdown : SOCKET → ShutdownResult)
    (io : ServiceIO) (self : Socket) (ceiling i : Nat)
    (hcount : ceiling = tracked_peers self) (hle : ceiling ≤ self.max_connections)
    (hcap : self.max_connections < 2 ^ 32)
    (hw : FD_ISSET self.server_socket self.write_list = false) :
    (Socket.open_body MAX_INPUT shutdown io self ceiling i).ceiling =
      tracked_peers (Socket.open_body MAX_INPUT shutdown io self ceiling i).self ∧
    (Socket.open_body MAX_INPUT shutdown io self ceiling i).ceiling ≤ self.max_connections := by
  by_cases hskip : ∀ c, self.connections[i]? = some c → c.socket = INVALID_SOCKET
  · rw [open_body_skip _ _ _ _ _ _ hskip]
    exact ⟨hcount, hle⟩
  · push_neg at hskip
    obtain ⟨c, hc, hv⟩ := hskip
    rw [open_body_eq _ _ _ _ _ _ c hc hv]
    by_cases h1 : open_body_waits MAX_INPUT io self c = true
    · rw [if_pos h1]
      exact ⟨hcount, hle⟩
    · rw [if_neg h1]
      by_cases h2 : FD_ISSET c.socket self.write_list = true
      · rw [if_pos h2]
        by_cases h3 : io.write.gethostname_result = SOCKET_ERROR
        · rw [if_pos h3]
          exact ⟨hcount, hle⟩
        · rw [if_neg h3]
          have hne : c.socket ≠ self.server_socket := by
            intro e
            rw [e, hw] at h2
            exact absurd h2 (by simp)
          have hset := countP_set_false
            (fun c => decide (c.socket ≠ INVALID_SOCKET ∧ c.socket ≠ self.server_socket))
            self.connections i c { c with socket := INVALID_SOCKET } hc
            (by simp [hv, hne]) (by simp)
          have htr : tracked_peers { self with
              os := self.os ++ open_body_reads MAX_INPUT io self c ++
                write_data_calls io.write c.socket ++ close_socket_events shutdown c.socket,
              write_list := FD_CLR c.socket self.write_list,
              connections := self.connections.set i { c with socket := INVALID_SOCKET } } + 1 =
              tracked_peers self := hset
          have hpos : 1 ≤ ceiling := by
            rw [hcount, ← htr]
            omega
          have e1 := wrap_decrement ceiling hpos (lt_of_le_of_lt hle hcap)
          have e2 : ∀ n, n + 1 = tracked_peers self → ceiling - 1 = n :=
            fun n hn => by omega
          have e3 : (ceiling + 2 ^ 32 - 1) % 2 ^ 32 ≤ self.max_connections := by
            rw [e1]
            omega
          exact ⟨e1.trans (e2 _ htr), e3⟩
      · rw [if_neg h2]
        exact ⟨hcount, hle⟩

theorem open_for_preserves_state (MAX_INPUT : Nat) (shutdown : SOCKET → ShutdownResult)
    (service : Nat → ServiceIO) (P : Socket → Nat → Prop)
    (hstep : ∀ self ceiling i, P self ceiling →
      P (Socket.open_body MAX_INPUT shutdown (service i) self ceiling i).self
        (Socket.open_body MAX_INPUT shutdown (service i) self ceiling i).ceiling)
    (idxs : List Nat) (self : Socket) (ceiling : Nat) (h : P self ceiling) :
    P (Socket.open_for MAX_INPUT shutdown service idxs self ceiling).self
      (Socket.open_for MAX_INPUT shutdown service idxs self ceiling).ceiling := by
  induction idxs generalizing self ceiling with
  | nil => exact h
  | cons i rest ih =>
      rw [open_for_cons]
      split_ifs
      · exact ih _ _ (hstep self ceiling i h)
      · exact hstep self ceiling i h

/-- The loop over the connection set keeps the counter equal to the number of
tracked peers, as long as the listening socket is not in the write set. -/
theorem open_for_counts (MAX_INPUT : Nat) (shutdown : SOCKET → ShutdownResult)
    (service : Nat → ServiceIO) (idxs : List Nat) (self : Socket) (ceiling : Nat)
    (hcount : ceiling = tracked_peers self) (hle : ceiling ≤ self.max_connections)
    (hcap : self.max_connections < 2 ^ 32)
    (hw : FD_ISSET self.server_socket self.write_list = false) :
    (Socket.open_for MAX_INPUT shutdown service idxs self ceiling).ceiling =
      tracked_peers (Socket.open_for MAX_INPUT shutdown service idxs self ceiling).self ∧
    (Socket.open_for MAX_INPUT shutdown service idxs self ceiling).ceiling ≤
      self.max_connections := by
  have h := open_for_preserves_state MAX_INPUT shutdown service
    (fun x k => x.server_socket = self.server_socket ∧
      x.max_connections = self.max_connections ∧
      FD_ISSET self.server_socket x.write_list = false ∧
      k = tracked_peers x ∧ k ≤ self.max_connections)
    (by
      intro x k i hx
      obtain ⟨h1, h2, h3, h4, h5⟩ := hx
      have hf := open_body_frame MAX_INPUT shutdown (service i) x k i
      have hc := open_body_counts MAX_INPUT shutdown (service i) x k i h4 (h2 ▸ h5)
        (h2 ▸ hcap) (h1 ▸ h3)
      refine ⟨hf.1.trans h1, hf.2.2.1.trans h2, ?_, hc.1, h2 ▸ hc.2⟩
      rw [← Bool.not_eq_true] at h3 ⊢
      exact fun h6 => h3
        ((open_body_write_list MAX_INPUT shutdown (service i) x k i self.server_socket).1 h6))
    idxs self ceiling ⟨rfl, rfl, hw, hcount, hle⟩
  exact ⟨h.2.2.2.1, h.2.2.2.2⟩

theorem open_cycle_outcomes (MAX_INPUT : Nat) (shutdown : SOCKET → ShutdownResult)
    (io : CycleIO) (self : Socket) (ceiling : Nat) :
    (∃ e, (Socket.select shutdown io.select self).raised = some e ∧
      Socket.open_cycle MAX_INPUT shutdown io self ceiling =
        { self := (Socket.select shutdown io.select self).self, ceiling := ceiling,
          flow := Control.raised e }) ∨
    ((Socket.select shutdown io.select self).raised = none ∧
      (Socket.select shutdown io.select self).timed_out = true ∧
      Socket.open_cycle MAX_INPUT shutdown io self ceiling =
        { self := (Socket.select shutdown io.select self).self, ceiling := ceiling,
          flow := Control.next }) ∨
    ((Socket.select shutdown io.select self).raised = none ∧
      (Socket.select shutdown io.select self).timed_out = false ∧
      (Socket.open_start shutdown io self ceiling).flow ≠ Control.next ∧
      Socket.open_cycle MAX_INPUT shutdown io self ceiling =
        Socket.open_start shutdown io self ceiling) ∨
    ((Socket.select shutdown io.select self).raised = none ∧
      (Socket.select shutdown io.select self).timed_out = false ∧
      (Socket.open_start shutdown io self ceiling).flow = Control.next ∧
      Socket.open_cycle MAX_INPUT shutdown io self ceiling =
        Socket.open_for MAX_INPUT shutdown io.service
          (List.range (Socket.open_start shutdown io self ceiling).self.connections.length)
          (Socket.open_start shutdown io self ceiling).self
          (Socket.open_start shutdown io self ceiling).ceiling) := by
  cases hr : (Socket.select shutdown io.select self).raised with
  | some e =>
      left
      refine ⟨e, rfl, ?_⟩
      unfold Socket.open_cycle
      simp [hr]
  | none =>
      right
      by_cases ht : (Socket.select shutdown io.select self).timed_out = true
      · left
        refine ⟨rfl, ht, ?_⟩
        unfold Socket.open_cycle
        simp [hr, ht]
      · rw [Bool.not_eq_true] at ht
        right
        by_cases hf : (Socket.open_start shutdown io self ceiling).flow = Control.next
        · right
          exact ⟨rfl, ht, hf, open_cycle_loop MAX_INPUT shutdown io self ceiling hr ht hf⟩
        · left
          refine ⟨rfl, ht, hf, ?_⟩
          unfold Socket.open_start at hf ⊢
          unfold Socket.open_cycle
          simp only [hr, ht]
          cases hfl : (Socket.open_accept io.accept
              (Socket.select shutdown io.select self).self ceiling).flow with
          | next => exact absurd hfl hf
          | raised e =>
              simp only [Bool.false_eq_true, if_false]
              rw [← hfl]
          | blocked =>
              simp only [Bool.false_eq_true, if_false]
              rw [← hfl]

theorem open_loop_cons (MAX_INPUT : Nat) (shutdown : SOCKET → ShutdownResult) (io : CycleIO)
    (rest : List CycleIO) (self : Socket) (ceiling : Nat) :
    Socket.open_loop MAX_INPUT shutdown (io :: rest) self ceiling =
      if (Socket.open_cycle MAX_INPUT shutdown io self ceiling).flow = Control.next then
        Socket.open_loop MAX_INPUT shutdown rest
          (Socket.open_cycle MAX_INPUT shutdown io self ceiling).self
          (Socket.open_cycle MAX_INPUT shutdown io self ceiling).ceiling
      else Socket.open_cycle MAX_INPUT shutdown io self ceiling := by
  simp only [Socket.open_loop]
  cases h : (Socket.open_cycle MAX_INPUT shutdown io self ceiling).flow with
  | next => simp
  | raised e =>
      simp only [reduceCtorEq, if_false]
      rw [← h]
  | blocked =>
      simp only [reduceCtorEq, if_false]
      rw [← h]

/-- One cycle of `open` keeps the counter equal to the number of tracked peers,
when the readiness wait does not report the listening socket writable and
`accept` returns a descriptor other than the listening socket. -/
theorem open_cycle_counts (MAX_INPUT : Nat) (shutdown : SOCKET → ShutdownResult)
    (io : CycleIO) (self : Socket) (ceiling : Nat)
    (hcount : ceiling = tracked_peers self) (hle : ceiling ≤ self.max_connections)
    (hcap : self.max_connections < 2 ^ 32)
    (hw : self.server_socket ∉ io.select.writable)
    (hclient : io.accept.client ≠ self.server_socket) :
    (Socket.open_cycle MAX_INPUT shutdown io self ceiling).self.server_socket =
      self.server_socket ∧
    (Socket.open_cycle MAX_INPUT shutdown io self ceiling).self.max_connections =
      self.max_connections ∧
    (Socket.open_cycle MAX_INPUT shutdown io self ceiling).ceiling =
      tracked_peers (Socket.open_cycle MAX_INPUT shutdown io self ceiling).self ∧
    (Socket.open_cycle MAX_INPUT shutdown io self ceiling).ceiling ≤ self.max_connections := by
  have hf := socket_select_frame shutdown io.select self
  have htp := tracked_peers_select shutdown io.select self
  have hacc := open_accept_counts io.accept (Socket.select shutdown io.select self).self ceiling
    (by rw [htp]; exact hcount) (by rw [hf.2.1]; exact hle) (by rw [hf.2.1]; exact hcap)
    (by rw [hf.1]; exact hclient)
  rcases open_cycle_outcomes MAX_INPUT shutdown io self ceiling with
    ⟨e, _, h⟩ | ⟨_, _, h⟩ | ⟨_, _, _, h⟩ | ⟨hr, _, _, h⟩
  · rw [h]
    exact ⟨hf.1, hf.2.1, by rw [htp]; exact hcount, hle⟩
  · rw [h]
    exact ⟨hf.1, hf.2.1, by rw [htp]; exact hcount, hle⟩
  · rw [h]
    unfold Socket.open_start
    exact ⟨hacc.1.trans hf.1, hacc.2.1.trans hf.2.1, hacc.2.2.2.1,
      by rw [← hf.2.1]; exact hacc.2.2.2.2⟩
  · rw [h]
    unfold Socket.open_start
    have hwl : FD_ISSET (Socket.open_accept io.accept
        (Socket.select shutdown io.select self).self ceiling).self.server_socket
        (Socket.open_accept io.accept
          (Socket.select shutdown io.select self).self ceiling).self.write_list = false := by
      rw [hacc.1, hacc.2.2.1, hf.1, ← Bool.not_eq_true]
      exact fun h2 => hw (socket_select_write_list shutdown io.select self _ hr h2)
    have hfor := open_for_counts MAX_INPUT shutdown io.service
      (List.range (Socket.open_accept io.accept
        (Socket.select shutdown io.select self).self ceiling).self.connections.length)
      (Socket.open_accept io.accept (Socket.select shutdown io.select self).self ceiling).self
      (Socket.open_accept io.accept (Socket.select shutdown io.select self).self ceiling).ceiling
      hacc.2.2.2.1 (by rw [hacc.2.1]; exact hacc.2.2.2.2) (by rw [hacc.2.1, hf.2.1]; exact hcap)
      hwl
    have hfr := open_for_frame MAX_INPUT shutdown io.service
      (List.range (Socket.open_accept io.accept
        (Socket.select shutdown io.select self).self ceiling).self.connections.length)
      (Socket.open_accept io.accept (Socket.select shutdown io.select self).self ceiling).self
      (Socket.open_accept io.accept (Socket.select shutdown io.select self).self ceiling).ceiling
    exact ⟨hfr.1.trans (hacc.1.trans hf.1), hfr.2.2.1.trans (hacc.2.1.trans hf.2.1), hfor.1,
      by rw [← hf.2.1, ← hacc.2.1]; exact hfor.2⟩

theorem open_loop_counts (MAX_INPUT : Nat) (shutdown : SOCKET → ShutdownResult)
    (ios : List CycleIO) (self : Socket) (ceiling : Nat)
    (hcount : ceiling = tracked_peers self) (hle : ceiling ≤ self.max_connections)
    (hcap : self.max_connections < 2 ^ 32)
    (hw : ∀ io ∈ ios, self.server_socket ∉ io.select.writable)
    (hclient : ∀ io ∈ ios, io.accept.client ≠ self.server_socket) :
    (Socket.open_loop MAX_INPUT shutdown ios self ceiling).self.server_socket =
      self.server_socket ∧
    (Socket.open_loop MAX_INPUT shutdown ios self ceiling).self.max_connections =
      self.max_connections ∧
    (Socket.open_loop MAX_INPUT shutdown ios self ceiling).ceiling =
      tracked_peers (Socket.open_loop MAX_INPUT shutdown ios self ceiling).self ∧
    (Socket.open_loop MAX_INPUT shutdown ios self ceiling).ceiling ≤ self.max_connections := by
  induction ios generalizing self ceiling with
  | nil =>
      simp only [Socket.open_loop]
      exact ⟨trivial, trivial, hcount, hle⟩
  | cons io rest ih =>
      have hc := open_cycle_counts MAX_INPUT shutdown io self ceiling hcount hle hcap
        (hw io (List.mem_cons_self _ _)) (hclient io (List.mem_cons_self _ _))
      rw [open_loop_cons]
      split_ifs
      · have := ih (Socket.open_cycle MAX_INPUT shutdown io self ceiling).self
          (Socket.open_cycle MAX_INPUT shutdown io self ceiling).ceiling hc.2.2.1
          (by rw [hc.2.1]; exact hc.2.2.2) (by rw [hc.2.1]; exact hcap)
          (fun x hx => by rw [hc.1]; exact hw x (List.mem_cons_of_mem _ hx))
          (fun x hx => by rw [hc.1]; exact hclient x (List.mem_cons_of_mem _ hx))
        exact ⟨this.1.trans hc.1, this.2.1.trans hc.2.1, this.2.2.1,
          by rw [← hc.2.1]; exact this.2.2.2⟩
      · exact hc

/-! ## C15: the counter and the tracked peers -/

/-- C15: from a freshly listening socket (only the listening socket in the
connection set, counter `0`; `max_connections` is an `unsigned int`), for every
sequence of cycles in which `::select` does not report the listening socket
writable and `::accept` does not return the descriptor of the listening socket,
the counter `ceiling` of `open` equals the number of peer entries whose socket is
not `INVALID_SOCKET`, and that number is at most `max_connections`, which does
not change. This holds when the loop stops or has used up the answers and, in a
further cycle whose `::select` call succeeds, after the accept statement and
after any number of entries of the connection set have been serviced. -/
theorem C15_ceiling_counts_peers (MAX_INPUT : Nat) (shutdown : SOCKET → ShutdownResult)
    (ios : List CycleIO) (self : Socket)
    (hfresh : ∀ c ∈ self.connections, c.socket = self.server_socket)
    (hcap : self.max_connections < 2 ^ 32)
    (hwait : ∀ io ∈ ios, self.server_socket ∉ io.select.writable)
    (haccept : ∀ io ∈ ios, io.accept.client ≠ self.server_socket) :
    (Socket.«open» MAX_INPUT shutdown ios self).ceiling =
      tracked_peers (Socket.«open» MAX_INPUT shutdown ios self).self ∧
    tracked_peers (Socket.«open» MAX_INPUT shutdown ios self).self ≤ self.max_connections ∧
    (Socket.«open» MAX_INPUT shutdown ios self).self.max_connections = self.max_connections ∧
    ∀ (io : CycleIO) (k : Nat), self.server_socket ∉ io.select.writable →
      io.accept.client ≠ self.server_socket →
      (Socket.select shutdown io.select
        (Socket.«open» MAX_INPUT shutdown ios self).self).raised = none →
      (Socket.open_start shutdown io (Socket.«open» MAX_INPUT shutdown ios self).self
        (Socket.«open» MAX_INPUT shutdown ios self).ceiling).ceiling =
        tracked_peers (Socket.open_start shutdown io
          (Socket.«open» MAX_INPUT shutdown ios self).self
          (Socket.«open» MAX_INPUT shutdown ios self).ceiling).self ∧
      tracked_peers (Socket.open_start shutdown io
          (Socket.«open» MAX_INPUT shutdown ios self).self
          (Socket.«open» MAX_INPUT shutdown ios self).ceiling).self ≤ self.max_connections ∧
      (Socket.open_for MAX_INPUT shutdown io.service (List.range k)
        (Socket.open_start shutdown io (Socket.«open» MAX_INPUT shutdown ios self).self
          (Socket.«open» MAX_INPUT shutdown ios self).ceiling).self
        (Socket.open_start shutdown io (Socket.«open» MAX_INPUT shutdown ios self).self
          (Socket.«open» MAX_INPUT shutdown ios self).ceiling).ceiling).ceiling =
        tracked_peers (Socket.open_for MAX_INPUT shutdown io.service (List.range k)
          (Socket.open_start shutdown io (Socket.«open» MAX_INPUT shutdown ios self).self
            (Socket.«open» MAX_INPUT shutdown ios self).ceiling).self
          (Socket.open_start shutdown io (Socket.«open» MAX_INPUT shutdown ios self).self
            (Socket.«open» MAX_INPUT shutdown ios self).ceiling).ceiling).self ∧
      tracked_peers (Socket.open_for MAX_INPUT shutdown io.service (List.range k)
          (Socket.open_start shutdown io (Socket.«open» MAX_INPUT shutdown ios self).self
            (Socket.«open» MAX_INPUT shutdown ios self).ceiling).self
          (Socket.open_start shutdown io (Socket.«open» MAX_INPUT shutdown ios self).self
            (Socket.«open» MAX_INPUT shutdown ios self).ceiling).ceiling).self ≤
        self.max_connections := by
  have h0 : (0 : Nat) = tracked_peers self := by
    unfold tracked_peers
    symm
    rw [List.countP_eq_zero]
    intro c hc
    simp [hfresh c hc]
  have h := open_loop_counts MAX_INPUT shutdown ios self 0 h0 (Nat.zero_le _) hcap hwait haccept
  unfold Socket.«open»
  refine ⟨h.2.2.1, h.2.2.1 ▸ h.2.2.2, h.2.1, ?_⟩
  intro io k hw hclient hsel
  have hf := socket_select_frame shutdown io.select
    (Socket.open_loop MAX_INPUT shutdown ios self 0).self
  have htp := tracked_peers_select shutdown io.select
    (Socket.open_loop MAX_INPUT shutdown ios self 0).self
  have hacc := open_accept_counts io.accept
    (Socket.select shutdown io.select (Socket.open_loop MAX_INPUT shutdown ios self 0).self).self
    (Socket.open_loop MAX_INPUT shutdown ios self 0).ceiling
    (by rw [htp]; exact h.2.2.1) (by rw [hf.2.1, h.2.1]; exact h.2.2.2)
    (by rw [hf.2.1, h.2.1]; exact hcap) (by rw [hf.1, h.1]; exact hclient)
  have hm : (Socket.open_accept io.accept
      (Socket.select shutdown io.select
        (Socket.open_loop MAX_INPUT shutdown ios self 0).self).self
      (Socket.open_loop MAX_INPUT shutdown ios self 0).ceiling).self.max_connections =
      self.max_connections := hacc.2.1.trans (hf.2.1.trans h.2.1)
  have hwl : FD_ISSET (Socket.open_accept io.accept
      (Socket.select shutdown io.select
        (Socket.open_loop MAX_INPUT shutdown ios self 0).self).self
      (Socket.open_loop MAX_INPUT shutdown ios self 0).ceiling).self.server_socket
      (Socket.open_accept io.accept
        (Socket.select shutdown io.select
          (Socket.open_loop MAX_INPUT shutdown ios self 0).self).self
        (Socket.open_loop MAX_INPUT shutdown ios self 0).ceiling).self.write_list = false := by
    rw [hacc.1, hacc.2.2.1, hf.1, h.1, ← Bool.not_eq_true]
    exact fun h2 => hw (socket_select_write_list shutdown io.select _ _ hsel h2)
  have hfor := open_for_counts MAX_INPUT shutdown io.service (List.range k)
    (Socket.open_accept io.accept
      (Socket.select shutdown io.select
        (Socket.open_loop MAX_INPUT shutdown ios self 0).self).self
      (Socket.open_loop MAX_INPUT shutdown ios self 0).ceiling).self
    (Socket.open_accept io.accept
      (Socket.select shutdown io.select
        (Socket.open_loop MAX_INPUT shutdown ios self 0).self).self
      (Socket.open_loop MAX_INPUT shutdown ios self 0).ceiling).ceiling
    hacc.2.2.2.1 (by rw [hacc.2.1]; exact hacc.2.2.2.2) (by rw [hm]; exact hcap) hwl
  unfold Socket.open_start
  refine ⟨hacc.2.2.2.1, ?_, hfor.1, ?_⟩
  · rw [← hacc.2.2.2.1, ← h.2.1, ← hf.2.1]
    exact hacc.2.2.2.2
  · rw [← hfor.1, ← hm]
    exact hfor.2

/-- C15 on a run of two cycles from the listening socket `3`: the peer `5` is
accepted and read in the first cycle and answered and closed in the second. -/
theorem C15_ceiling_counts_peers_witness :
    (∀ c ∈ listening_socket.connections, c.socket = listening_socket.server_socket) ∧
    listening_socket.max_connections < 2 ^ 32 ∧
    (∀ io ∈ [first_peer_answers, reply_answers],
      listening_socket.server_socket ∉ io.select.writable) ∧
    (∀ io ∈ [first_peer_answers, reply_answers],
      io.accept.client ≠ listening_socket.server_socket) ∧
    (Socket.«open» 4096 shutdown_not_connected [first_peer_answers]
      listening_socket).ceiling = 1 ∧
    (Socket.«open» 4096 shutdown_not_connected [first_peer_answers, reply_answers]
      listening_socket).ceiling = 0 ∧
    (Socket.«open» 4096 shutdown_not_connected [first_peer_answers, reply_answers]
        listening_socket).ceiling =
      tracked_peers (Socket.«open» 4096 shutdown_not_connected
        [first_peer_answers, reply_answers] listening_socket).self ∧
    tracked_peers (Socket.«open» 4096 shutdown_not_connected
        [first_peer_answers, reply_answers] listening_socket).self ≤
      listening_socket.max_connections :=
  ⟨by decide, by decide, by decide, by decide, by decide, by decide,
    (C15_ceiling_counts_peers 4096 shutdown_not_connected [first_peer_answers, reply_answers]
      listening_socket (by decide) (by decide) (by decide) (by decide)).1,
    (C15_ceiling_counts_peers 4096 shutdown_not_connected [first_peer_answers, reply_answers]
      listening_socket (by decide) (by decide) (by decide) (by decide)).2.1⟩

/-! ## C17: the listening socket in the loop of `open` -/

